import Mathlib

/-!
# NDI example programs: a shallow embedding

The five example programs (`NDIlib_Find`, `NDIlib_Recv`, `NDIlib_Recv_Audio_16bpp`,
`NDIlib_Recv_FrameSync`, `NDIlib_Send_Audio`) call a closed-source library.  The library,
the clock and the interrupt flag are an oracle (`World`): the answer to the k-th call of each
kind.  A run of `main` yields an exit code and the trace of everything it did (`Event`).
Loops are run with fuel, one unit per evaluation of the condition; `none` means that the fuel
ran out before `main` returned.

Conventions of the embedding:
* a handle or pointer is a natural number, `0` being `nullptr`;
* constructors and destructors of the wrapper classes are kept apart, and `withObject` runs
  the destructor of an object when its scope is left, unless its constructor threw;
* heap allocations are recorded in the trace with the number of elements asked for, an
  `int`; an allocation asked for a negative number throws `std::bad_array_new_length`, which
  the `catch` of `main` receives, and one asked for a number that is not negative succeeds:
  memory does not run out;
* a read of `p_sources[i]` is recorded with the index and the length of the list, whether or
  not the index is in range;
* a 32-bit float is its bit pattern, and times are ticks of the clock (nanoseconds);
* an `int` has 32 bits: a value stored into an `int` is reduced by `toInt32`, and `size_t`
  has 64 bits, so that the `size_t` arithmetic of the examples does not wrap.
-/

/-- An opaque library instance pointer; `0` is `nullptr`. -/
abbrev Handle := Nat

/-- A discovered source (`NDIlib_source_t`); only the name is read by the examples. -/
structure NDIlib_source_t where
  p_ndi_name : String
deriving DecidableEq, Repr

/-- What `NDIlib_find_get_current_sources` hands back: the returned pointer (`0` is `nullptr`)
and the array it addresses; `no_sources` is the length of that array. -/
structure SourceList where
  p_sources : Nat
  sources : List NDIlib_source_t
deriving DecidableEq, Repr

/-- The number written to `*p_no_sources`. -/
def SourceList.no_sources (sl : SourceList) : Nat := sl.sources.length

/-- Modelled from the spec: the header `Processing.NDI.Lib.h` is not part of the sources; the
frame-type tag returned by a capture call is one of none/video/audio/metadata/status-change
(any further value is `other`), together with the fields of the populated descriptor that the
examples read. -/
inductive Frame where
  | none
  | video (xres yres : Int)
  | audio (no_samples no_channels : Int)
  | metadata
  | status_change
  | other (tag : Int)
deriving DecidableEq, Repr

/-- A 32-bit float, kept as its bit pattern; `0.0f` is the all-zero pattern. -/
abbrev Float32 := Nat

/-- The descriptor `NDIlib_audio_frame_v2_t` as filled in by `NDIAudioFrame`, with the buffer
that `p_data` addresses.  The struct is declared in the header of the library; its four
integer fields are of type `int` there, as the wrapper's own members and constructor
parameters are. -/
structure NDIlib_audio_frame_v2_t where
  sample_rate : Int
  no_channels : Int
  no_samples : Int
  channel_stride_in_bytes : Int
  p_data : List Float32
deriving DecidableEq, Repr

/-- Everything a run does that is visible outside the program, in program order. -/
inductive Event where
  | NDIlib_init (ok : Bool)
  | NDIlib_destroy
  | NDIlib_find_create_v2 (h : Handle)
  | NDIlib_find_wait_for_sources (h : Handle) (timeout_ms : Nat) (changed : Bool)
  | NDIlib_find_get_current_sources (h : Handle) (r : SourceList)
  | NDIlib_find_destroy (h : Handle)
  | NDIlib_recv_create_v3 (source_to_connect_to : Option NDIlib_source_t) (h : Handle)
  | NDIlib_recv_connect (h : Handle) (p_source : Nat)
  | NDIlib_recv_capture_v2 (h : Handle) (with_metadata : Bool) (timeout_ms : Nat) (r : Frame)
  | NDIlib_recv_free_video_v2 (h : Handle)
  | NDIlib_recv_free_audio_v2 (h : Handle)
  | NDIlib_recv_free_metadata (h : Handle)
  | NDIlib_recv_destroy (h : Handle)
  | NDIlib_framesync_create (recv : Handle) (h : Handle)
  | NDIlib_framesync_capture_video (h : Handle)
  | NDIlib_framesync_free_video (h : Handle)
  | NDIlib_framesync_capture_audio (h : Handle) (sample_rate no_channels no_samples : Int)
  | NDIlib_framesync_free_audio (h : Handle)
  | NDIlib_framesync_destroy (h : Handle)
  | NDIlib_send_create (h : Handle)
  | NDIlib_send_send_audio_v2 (h : Handle) (frame : NDIlib_audio_frame_v2_t)
  | NDIlib_send_destroy (h : Handle)
  | NDIlib_util_audio_to_interleaved_16s_v2
  | read_source (p_sources : Nat) (index : Nat) (no_sources : Nat)
  | new_array (count : Int)
  | delete_array
  | signal_sigint
  | read_exit_loop (value : Bool)
  | clock_now (t : Int)
  | sleep_for_ms (ms : Nat)
  | out (text : String)
  | err (text : String)
deriving DecidableEq, Repr

/-- The environment of a run: the k-th answer of the library to each kind of call, the k-th
reading of `high_resolution_clock::now()` (in clock ticks) and the k-th reading of the atomic
flag `exit_loop`. -/
structure World where
  lib_init : Bool
  find_create_v2 : Handle
  recv_create_v3 : Handle
  framesync_create : Handle
  send_create : Handle
  find_wait_for_sources : Nat → Bool
  find_get_current_sources : Nat → SourceList
  recv_capture_v2 : Nat → Frame
  now : Nat → Int
  exit_loop : Nat → Bool

/-- The value of `std::chrono::minutes(m)` in ticks of the clock (nanoseconds). -/
def minutes (m : Int) : Int := m * 60000000000

/-- The largest value of an `int` (32 bits). -/
def INT_MAX : Int := 2147483647

/-- The value that a number has as an `int`: it is reduced modulo 2^32 into the range from
-2^31 to 2^31 - 1.  This is what a conversion to `int` yields, and an `int` product that
overflows is taken to wrap in the same way. -/
def toInt32 (x : Int) : Int := (x + 2147483648) % 4294967296 - 2147483648

/-- The events of a block and how it ended: a value, or the message of a thrown
`std::runtime_error`. -/
structure Run (α : Type) where
  events : List Event
  result : Except String α

/-- A local object with constructor `ctor` and destructor `dtor`, followed by the rest of its
scope.  A constructor that throws leaves no object, so no destructor runs; otherwise the
destructor runs when the scope is left, by `return` or by an exception alike. -/
def withObject {α β : Type} (ctor : Run β) (dtor : β → List Event)
    (rest : β → Option (Run α)) : Option (Run α) :=
  match ctor.result with
  | .error msg => some ⟨ctor.events, .error msg⟩
  | .ok obj =>
    match rest obj with
    | none => none
    | some r => some ⟨ctor.events ++ r.events ++ dtor obj, r.result⟩

/-- The `try { ... } catch (const std::exception& e)` of every `main`: a caught exception is
printed to standard error and becomes exit code 1. -/
def tryMain (body : Option (Run Int)) : Option (Int × List Event) :=
  match body with
  | none => none
  | some r =>
    match r.result with
    | .ok code => some (code, r.events)
    | .error msg => some (1, r.events ++ [Event.err ("Error: " ++ msg ++ "\n")])

/-- The loop `while (cond) body`: `cond` and `body` give the events they perform and the next
state.  At most `fuel` evaluations of the condition are made. -/
def whileLoop {σ : Type} (cond : σ → List Event × Bool × σ) (body : σ → List Event × σ) :
    Nat → σ → Option (List Event × σ)
  | 0, _ => none
  | fuel + 1, s =>
    match cond s with
    | (ce, false, s1) => some (ce, s1)
    | (ce, true, s1) =>
      match body s1 with
      | (be, s2) =>
        match whileLoop cond body fuel s2 with
        | none => none
        | some r => some (ce ++ be ++ r.1, r.2)

/-- The loop `while (cond) body` with a body that may throw: the body gives its events and
either the next state or the message of the exception, which ends the loop at once.  At most
`fuel` evaluations of the condition are made. -/
def whileLoopE {σ : Type} (cond : σ → List Event × Bool × σ)
    (body : σ → List Event × Except String σ) :
    Nat → σ → Option (List Event × Except String σ)
  | 0, _ => none
  | fuel + 1, s =>
    match cond s with
    | (ce, false, s1) => some (ce, .ok s1)
    | (ce, true, s1) =>
      match body s1 with
      | (be, .error msg) => some (ce ++ be, .error msg)
      | (be, .ok s2) =>
        match whileLoopE cond body fuel s2 with
        | none => none
        | some r => some (ce ++ be ++ r.1, r.2)

/-- The text that `what()` gives for the `std::bad_array_new_length` thrown by a
`new`-expression with a negative number of elements.  The wording is the implementation's;
this is the one of libstdc++. -/
def bad_array_new_length_what : String := "std::bad_array_new_length"

namespace NDIlib_Find

/-- Constructor of `NDIInitializer`. -/
def NDIInitializer.ctor (w : World) : Run Unit :=
  if w.lib_init then ⟨[Event.NDIlib_init true], .ok ()⟩
  else ⟨[Event.NDIlib_init false], .error "Failed to initialize NDI"⟩

/-- Destructor of `NDIInitializer`. -/
def NDIInitializer.dtor (_ : Unit) : List Event := [Event.NDIlib_destroy]

/-- Constructor of `NDIFinder`; the object is the handle `pNDI_find`. -/
def NDIFinder.ctor (w : World) : Run Handle :=
  if w.find_create_v2 = 0 then
    ⟨[Event.NDIlib_find_create_v2 0], .error "Failed to create NDI finder"⟩
  else ⟨[Event.NDIlib_find_create_v2 w.find_create_v2], .ok w.find_create_v2⟩

/-- Destructor of `NDIFinder`. -/
def NDIFinder.dtor (pNDI_find : Handle) : List Event := [Event.NDIlib_find_destroy pNDI_find]

/-- The variables of the discovery loop: how often the clock, the wait call and the
get-sources call have been used so far. -/
structure LoopState where
  clocks : Nat
  waits : Nat
  gets : Nat
deriving DecidableEq, Repr

/-- The inner loop `for (uint32_t i = 0; i < no_sources; i++) printf("%u. %s\n", ...)`. -/
def printSources (sl : SourceList) : List Event :=
  (List.range sl.no_sources).foldr (fun i acc =>
    Event.read_source sl.p_sources i sl.no_sources ::
    Event.out (toString (i + 1) ++ ". " ++ (sl.sources.getD i ⟨""⟩).p_ndi_name ++ "\n") :: acc) []

/-- The loop condition `high_resolution_clock::now() - start < minutes(1)`. -/
def loopCond (w : World) (start : Int) (s : LoopState) : List Event × Bool × LoopState :=
  ([Event.clock_now (w.now s.clocks)], decide (w.now s.clocks - start < minutes 1),
    { s with clocks := s.clocks + 1 })

/-- One pass through the body of the discovery loop. -/
def loopBody (w : World) (pNDI_find : Handle) (s : LoopState) : List Event × LoopState :=
  if !w.find_wait_for_sources s.waits then
    ([Event.NDIlib_find_wait_for_sources pNDI_find 5000 false,
      Event.out "No change to the sources found.\n"],
     { s with waits := s.waits + 1 })
  else
    let sl := w.find_get_current_sources s.gets
    ([Event.NDIlib_find_wait_for_sources pNDI_find 5000 true,
      Event.NDIlib_find_get_current_sources pNDI_find sl,
      Event.out ("Network sources (" ++ toString sl.no_sources ++ " found).\n")]
      ++ printSources sl,
     { s with waits := s.waits + 1, gets := s.gets + 1 })

/-- The program `NDIlib_Find`. -/
def main (w : World) (fuel : Nat) : Option (Int × List Event) :=
  tryMain <|
    withObject (NDIInitializer.ctor w) NDIInitializer.dtor fun _ =>
    withObject (NDIFinder.ctor w) NDIFinder.dtor fun pNDI_find =>
      let start := w.now 0
      match whileLoop (loopCond w start) (loopBody w pNDI_find) fuel ⟨1, 0, 0⟩ with
      | none => none
      | some (evs, _) => some ⟨Event.clock_now start :: evs, .ok 0⟩

end NDIlib_Find

/-- The events of some statements, followed by the rest of the block. -/
def thenRun {α : Type} (evs : List Event) (rest : Option (Run α)) : Option (Run α) :=
  match rest with
  | none => none
  | some r => some ⟨evs ++ r.events, r.result⟩

/-- The variables `no_sources` and `p_sources` of the source-wait loops (both kept in
`current`, which starts as `nullptr` with zero entries), and how many times the loop has asked
the library and read the flag `exit_loop`. -/
structure WaitState where
  current : SourceList
  calls : Nat
  flag_reads : Nat
deriving DecidableEq, Repr

/-- The variables of a time-bounded loop: clock readings, capture calls and flag readings
made so far. -/
structure CaptureState where
  clocks : Nat
  captures : Nat
  flag_reads : Nat
deriving DecidableEq, Repr

namespace NDIlib_Recv

/-- Constructor of `NDIInitializer`. -/
def NDIInitializer.ctor (w : World) : Run Unit :=
  if w.lib_init then ⟨[Event.NDIlib_init true], .ok ()⟩
  else ⟨[Event.NDIlib_init false], .error "Failed to initialize NDI"⟩

/-- Destructor of `NDIInitializer`. -/
def NDIInitializer.dtor (_ : Unit) : List Event := [Event.NDIlib_destroy]

/-- Constructor of `NDIFinder`. -/
def NDIFinder.ctor (w : World) : Run Handle :=
  if w.find_create_v2 = 0 then
    ⟨[Event.NDIlib_find_create_v2 0], .error "Failed to create NDI finder"⟩
  else ⟨[Event.NDIlib_find_create_v2 w.find_create_v2], .ok w.find_create_v2⟩

/-- Destructor of `NDIFinder`. -/
def NDIFinder.dtor (pNDI_find : Handle) : List Event := [Event.NDIlib_find_destroy pNDI_find]

/-- Constructor of `NDIReceiver`. -/
def NDIReceiver.ctor (w : World) : Run Handle :=
  if w.recv_create_v3 = 0 then
    ⟨[Event.NDIlib_recv_create_v3 none 0], .error "Failed to create NDI receiver"⟩
  else ⟨[Event.NDIlib_recv_create_v3 none w.recv_create_v3], .ok w.recv_create_v3⟩

/-- Destructor of `NDIReceiver`. -/
def NDIReceiver.dtor (pNDI_recv : Handle) : List Event := [Event.NDIlib_recv_destroy pNDI_recv]

/-- The condition `!no_sources` of the source-wait loop. -/
def waitCond (s : WaitState) : List Event × Bool × WaitState :=
  ([], decide (s.current.no_sources = 0), s)

/-- The body of the source-wait loop. -/
def waitBody (w : World) (pNDI_find : Handle) (s : WaitState) : List Event × WaitState :=
  let sl := w.find_get_current_sources s.calls
  ([Event.out "Looking for sources ...\n",
    Event.NDIlib_find_wait_for_sources pNDI_find 1000 (w.find_wait_for_sources s.calls),
    Event.NDIlib_find_get_current_sources pNDI_find sl],
   { s with current := sl, calls := s.calls + 1 })

/-- The condition `high_resolution_clock::now() - start < minutes(5)` of the capture loop. -/
def captureCond (w : World) (start : Int) (s : CaptureState) :
    List Event × Bool × CaptureState :=
  ([Event.clock_now (w.now s.clocks)], decide (w.now s.clocks - start < minutes 5),
    { s with clocks := s.clocks + 1 })

/-- The `switch` on the captured frame type. -/
def handleFrame (pNDI_recv : Handle) : Frame → List Event
  | Frame.none => [Event.out "No data received.\n"]
  | Frame.video xres yres =>
    [Event.out ("Video data received (" ++ toString xres ++ "x" ++ toString yres ++ ").\n"),
     Event.NDIlib_recv_free_video_v2 pNDI_recv]
  | Frame.audio no_samples _ =>
    [Event.out ("Audio data received (" ++ toString no_samples ++ " samples).\n"),
     Event.NDIlib_recv_free_audio_v2 pNDI_recv]
  | _ => []

/-- The body of the capture loop; the metadata pointer passed to the capture is `nullptr`. -/
def captureBody (w : World) (pNDI_recv : Handle) (s : CaptureState) :
    List Event × CaptureState :=
  let fr := w.recv_capture_v2 s.captures
  (Event.NDIlib_recv_capture_v2 pNDI_recv false 5000 fr :: handleFrame pNDI_recv fr,
   { s with captures := s.captures + 1 })

/-- The program `NDIlib_Recv`. -/
def main (w : World) (fuel : Nat) : Option (Int × List Event) :=
  tryMain <|
    withObject (NDIInitializer.ctor w) NDIInitializer.dtor fun _ =>
    withObject (NDIFinder.ctor w) NDIFinder.dtor fun pNDI_find =>
      match whileLoop waitCond (waitBody w pNDI_find) fuel ⟨⟨0, []⟩, 0, 0⟩ with
      | none => none
      | some (wev, ws) =>
        thenRun wev <|
        withObject (NDIReceiver.ctor w) NDIReceiver.dtor fun pNDI_recv =>
          let start := w.now 0
          match whileLoop (captureCond w start) (captureBody w pNDI_recv) fuel ⟨1, 0, 0⟩ with
          | none => none
          | some (cev, _) =>
            some ⟨Event.NDIlib_recv_connect pNDI_recv ws.current.p_sources ::
              Event.clock_now start :: cev, .ok 0⟩

end NDIlib_Recv

namespace NDIlib_Recv_FrameSync

/-- Constructor of `NDIInitializer`. -/
def NDIInitializer.ctor (w : World) : Run Unit :=
  if w.lib_init then ⟨[Event.NDIlib_init true], .ok ()⟩
  else ⟨[Event.NDIlib_init false], .error "Failed to initialize NDI"⟩

/-- Destructor of `NDIInitializer`. -/
def NDIInitializer.dtor (_ : Unit) : List Event := [Event.NDIlib_destroy]

/-- Constructor of `NDIFinder`. -/
def NDIFinder.ctor (w : World) : Run Handle :=
  if w.find_create_v2 = 0 then
    ⟨[Event.NDIlib_find_create_v2 0], .error "Failed to create NDI find instance"⟩
  else ⟨[Event.NDIlib_find_create_v2 w.find_create_v2], .ok w.find_create_v2⟩

/-- Destructor of `NDIFinder`. -/
def NDIFinder.dtor (pNDI_find : Handle) : List Event := [Event.NDIlib_find_destroy pNDI_find]

/-- Constructor of `NDIReceiver`. -/
def NDIReceiver.ctor (w : World) : Run Handle :=
  if w.recv_create_v3 = 0 then
    ⟨[Event.NDIlib_recv_create_v3 none 0], .error "Failed to create NDI receiver instance"⟩
  else ⟨[Event.NDIlib_recv_create_v3 none w.recv_create_v3], .ok w.recv_create_v3⟩

/-- Destructor of `NDIReceiver`. -/
def NDIReceiver.dtor (pNDI_recv : Handle) : List Event := [Event.NDIlib_recv_destroy pNDI_recv]

/-- Constructor of `NDIFrameSync`. -/
def NDIFrameSync.ctor (w : World) (pNDI_recv : Handle) : Run Handle :=
  if w.framesync_create = 0 then
    ⟨[Event.NDIlib_framesync_create pNDI_recv 0],
      .error "Failed to create NDI frame sync instance"⟩
  else ⟨[Event.NDIlib_framesync_create pNDI_recv w.framesync_create], .ok w.framesync_create⟩

/-- Destructor of `NDIFrameSync`. -/
def NDIFrameSync.dtor (pNDI_framesync : Handle) : List Event :=
  [Event.NDIlib_framesync_destroy pNDI_framesync]

/-- The condition `!no_sources` of the source-wait loop. -/
def waitCond (s : WaitState) : List Event × Bool × WaitState :=
  ([], decide (s.current.no_sources = 0), s)

/-- The body of the source-wait loop. -/
def waitBody (w : World) (pNDI_find : Handle) (s : WaitState) : List Event × WaitState :=
  let sl := w.find_get_current_sources s.calls
  ([Event.out "Looking for sources...\n",
    Event.NDIlib_find_wait_for_sources pNDI_find 1000 (w.find_wait_for_sources s.calls),
    Event.NDIlib_find_get_current_sources pNDI_find sl],
   { s with current := sl, calls := s.calls + 1 })

/-- The condition `high_resolution_clock::now() - start < minutes(5)` of the playback loop. -/
def loopCond (w : World) (start : Int) (s : CaptureState) :
    List Event × Bool × CaptureState :=
  ([Event.clock_now (w.now s.clocks)], decide (w.now s.clocks - start < minutes 5),
    { s with clocks := s.clocks + 1 })

/-- The body of the playback loop. -/
def loopBody (pNDI_framesync : Handle) (s : CaptureState) : List Event × CaptureState :=
  ([Event.NDIlib_framesync_capture_video pNDI_framesync,
    Event.NDIlib_framesync_free_video pNDI_framesync,
    Event.NDIlib_framesync_capture_audio pNDI_framesync 48000 4 1600,
    Event.NDIlib_framesync_free_audio pNDI_framesync,
    Event.sleep_for_ms 33],
   { s with captures := s.captures + 1 })

/-- The program `NDIlib_Recv_FrameSync`. -/
def main (w : World) (fuel : Nat) : Option (Int × List Event) :=
  tryMain <|
    withObject (NDIInitializer.ctor w) NDIInitializer.dtor fun _ =>
    withObject (NDIFinder.ctor w) NDIFinder.dtor fun pNDI_find =>
      match whileLoop waitCond (waitBody w pNDI_find) fuel ⟨⟨0, []⟩, 0, 0⟩ with
      | none => none
      | some (wev, ws) =>
        thenRun wev <|
        if ws.current.p_sources = 0 then
          some ⟨[Event.out "No sources found.\n"], .ok 0⟩
        else
          withObject (NDIReceiver.ctor w) NDIReceiver.dtor fun pNDI_recv =>
          thenRun [Event.NDIlib_recv_connect pNDI_recv ws.current.p_sources] <|
          withObject (NDIFrameSync.ctor w pNDI_recv) NDIFrameSync.dtor fun pNDI_framesync =>
            let start := w.now 0
            match whileLoop (loopCond w start) (loopBody pNDI_framesync) fuel ⟨1, 0, 0⟩ with
            | none => none
            | some (cev, _) => some ⟨Event.clock_now start :: cev, .ok 0⟩

end NDIlib_Recv_FrameSync

namespace NDIlib_Recv_Audio_16bpp

/-- Constructor of `NDIInitializer`. -/
def NDIInitializer.ctor (w : World) : Run Unit :=
  if w.lib_init then ⟨[Event.NDIlib_init true], .ok ()⟩
  else ⟨[Event.NDIlib_init false], .error "Failed to initialize NDI"⟩

/-- Destructor of `NDIInitializer`. -/
def NDIInitializer.dtor (_ : Unit) : List Event := [Event.NDIlib_destroy]

/-- Constructor of `NDIFinder`. -/
def NDIFinder.ctor (w : World) : Run Handle :=
  if w.find_create_v2 = 0 then
    ⟨[Event.NDIlib_find_create_v2 0], .error "Failed to create NDI find instance"⟩
  else ⟨[Event.NDIlib_find_create_v2 w.find_create_v2], .ok w.find_create_v2⟩

/-- Destructor of `NDIFinder`. -/
def NDIFinder.dtor (pNDI_find : Handle) : List Event := [Event.NDIlib_find_destroy pNDI_find]

/-- Constructor of `NDIReceiver`, called on `p_sources[0]`: the entry is copied into the
creation descriptor (`none` when the array has no entry 0). -/
def NDIReceiver.ctor (w : World) (sl : SourceList) : Run Handle :=
  if w.recv_create_v3 = 0 then
    ⟨[Event.read_source sl.p_sources 0 sl.no_sources,
      Event.NDIlib_recv_create_v3 sl.sources.head? 0], .error "Failed to create NDI receiver"⟩
  else
    ⟨[Event.read_source sl.p_sources 0 sl.no_sources,
      Event.NDIlib_recv_create_v3 sl.sources.head? w.recv_create_v3], .ok w.recv_create_v3⟩

/-- Destructor of `NDIReceiver`. -/
def NDIReceiver.dtor (pNDI_recv : Handle) : List Event := [Event.NDIlib_recv_destroy pNDI_recv]

/-- The condition `!exit_loop && !no_sources` of the source-wait loop. -/
def waitCond (w : World) (s : WaitState) : List Event × Bool × WaitState :=
  if w.exit_loop s.flag_reads then
    ([Event.read_exit_loop true], false, { s with flag_reads := s.flag_reads + 1 })
  else
    ([Event.read_exit_loop false], decide (s.current.no_sources = 0),
      { s with flag_reads := s.flag_reads + 1 })

/-- The body of the source-wait loop. -/
def waitBody (w : World) (pNDI_find : Handle) (s : WaitState) : List Event × WaitState :=
  let sl := w.find_get_current_sources s.calls
  ([Event.out "Looking for sources...\n",
    Event.NDIlib_find_wait_for_sources pNDI_find 1000 (w.find_wait_for_sources s.calls),
    Event.NDIlib_find_get_current_sources pNDI_find sl],
   { s with current := sl, calls := s.calls + 1 })

/-- The condition `!exit_loop && now() - start < minutes(1)` of the capture loop; the clock
is not read when the flag is set. -/
def captureCond (w : World) (start : Int) (s : CaptureState) :
    List Event × Bool × CaptureState :=
  if w.exit_loop s.flag_reads then
    ([Event.read_exit_loop true], false, { s with flag_reads := s.flag_reads + 1 })
  else
    ([Event.read_exit_loop false, Event.clock_now (w.now s.clocks)],
      decide (w.now s.clocks - start < minutes 1),
      { s with flag_reads := s.flag_reads + 1, clocks := s.clocks + 1 })

/-- The `switch` on the captured frame type.  In the audio case the number of elements of
`new short[no_samples * no_channels]` is a product of two `int`s; when it is negative the
`new`-expression throws before the conversion and before `free_audio`, and nothing of the
rest of the case is done. -/
def handleFrame (pNDI_recv : Handle) : Frame → Run Unit
  | Frame.none => ⟨[Event.out "No data received.\n"], .ok ()⟩
  | Frame.video xres yres =>
    ⟨[Event.out ("Video data received (" ++ toString xres ++ "x" ++ toString yres ++ ").\n"),
      Event.NDIlib_recv_free_video_v2 pNDI_recv], .ok ()⟩
  | Frame.audio no_samples no_channels =>
    if toInt32 (no_samples * no_channels) < 0 then
      ⟨[Event.out ("Audio data received (" ++ toString no_samples ++ " samples).\n"),
        Event.new_array (toInt32 (no_samples * no_channels))],
        .error bad_array_new_length_what⟩
    else
      ⟨[Event.out ("Audio data received (" ++ toString no_samples ++ " samples).\n"),
        Event.new_array (toInt32 (no_samples * no_channels)),
        Event.NDIlib_util_audio_to_interleaved_16s_v2,
        Event.NDIlib_recv_free_audio_v2 pNDI_recv,
        Event.delete_array], .ok ()⟩
  | Frame.metadata =>
    ⟨[Event.out "Meta data received.\n", Event.NDIlib_recv_free_metadata pNDI_recv], .ok ()⟩
  | Frame.status_change => ⟨[Event.out "Receiver connection status changed.\n"], .ok ()⟩
  | Frame.other _ => ⟨[], .ok ()⟩

/-- The body of the capture loop; an exception thrown in the `switch` leaves it. -/
def captureBody (w : World) (pNDI_recv : Handle) (s : CaptureState) :
    List Event × Except String CaptureState :=
  let fr := w.recv_capture_v2 s.captures
  (Event.NDIlib_recv_capture_v2 pNDI_recv true 1000 fr :: (handleFrame pNDI_recv fr).events,
   match (handleFrame pNDI_recv fr).result with
   | .ok _ => .ok { s with captures := s.captures + 1 }
   | .error msg => .error msg)

/-- The program `NDIlib_Recv_Audio_16bpp`. -/
def main (w : World) (fuel : Nat) : Option (Int × List Event) :=
  tryMain <|
    withObject (NDIInitializer.ctor w) NDIInitializer.dtor fun _ =>
    thenRun [Event.signal_sigint] <|
    withObject (NDIFinder.ctor w) NDIFinder.dtor fun pNDI_find =>
      match whileLoop (waitCond w) (waitBody w pNDI_find) fuel ⟨⟨0, []⟩, 0, 0⟩ with
      | none => none
      | some (wev, ws) =>
        thenRun wev <|
        if ws.current.p_sources = 0 then
          some ⟨[Event.out "No sources found.\n"], .ok 0⟩
        else
          withObject (NDIReceiver.ctor w ws.current) NDIReceiver.dtor fun pNDI_recv =>
            let start := w.now 0
            match whileLoopE (captureCond w start) (captureBody w pNDI_recv) fuel
                ⟨1, 0, ws.flag_reads⟩ with
            | none => none
            | some (cev, .error msg) => some ⟨Event.clock_now start :: cev, .error msg⟩
            | some (cev, .ok _) => some ⟨Event.clock_now start :: cev, .ok 0⟩

end NDIlib_Recv_Audio_16bpp

namespace NDIlib_Send_Audio

/-- Constructor of `NDISender`: it initialises the library and creates the sender. -/
def NDISender.ctor (w : World) : Run Handle :=
  if !w.lib_init then
    ⟨[Event.NDIlib_init false], .error "Failed to initialize NDI library."⟩
  else if w.send_create = 0 then
    ⟨[Event.NDIlib_init true, Event.NDIlib_send_create 0],
      .error "Failed to create NDI sender."⟩
  else
    ⟨[Event.NDIlib_init true, Event.NDIlib_send_create w.send_create], .ok w.send_create⟩

/-- Destructor of `NDISender`. -/
def NDISender.dtor (pNDI_send : Handle) : List Event :=
  (if pNDI_send ≠ 0 then [Event.NDIlib_send_destroy pNDI_send] else [])
    ++ [Event.NDIlib_destroy]

/-- The descriptor built by the constructor of `NDIAudioFrame`; `make_unique<float[]>`
value-initialises the `no_samples * no_channels` floats, a product formed in `int`, and
`no_samples * sizeof(float)` is stored in the `int` field `channel_stride_in_bytes`. -/
def NDIAudioFrame.frame (no_channels no_samples sample_rate : Int) : NDIlib_audio_frame_v2_t :=
  { sample_rate := sample_rate,
    no_channels := no_channels,
    no_samples := no_samples,
    channel_stride_in_bytes := toInt32 (no_samples * 4),
    p_data := List.replicate (toInt32 (no_samples * no_channels)).toNat 0 }

/-- Constructor of `NDIAudioFrame`.  A negative `int` product becomes a `size_t` beyond the
size of any array, for which `make_unique<float[]>` throws as `new` does for a negative
number of elements; `main` asks for 7680 floats. -/
def NDIAudioFrame.ctor (no_channels no_samples sample_rate : Int) :
    Run NDIlib_audio_frame_v2_t :=
  if toInt32 (no_samples * no_channels) < 0 then
    ⟨[Event.new_array (toInt32 (no_samples * no_channels))], .error bad_array_new_length_what⟩
  else
    ⟨[Event.new_array (toInt32 (no_samples * no_channels))],
      .ok (NDIAudioFrame.frame no_channels no_samples sample_rate)⟩

/-- Destructor of `NDIAudioFrame`: the `unique_ptr` releases the buffer. -/
def NDIAudioFrame.dtor (_ : NDIlib_audio_frame_v2_t) : List Event := [Event.delete_array]

/-- The float index addressed by `p_ch[sample_no]`, where `p_ch` is `p_data` advanced by
`ch * channel_stride_in_bytes` bytes, a product of two `int`s. -/
def floatIndex (channel_stride_in_bytes : Int) (ch sample_no : Nat) : Int :=
  (toInt32 (ch * channel_stride_in_bytes) + 4 * sample_no) / 4

/-- The assignment `p_ch[sample_no] = 0.0f`. -/
def storeSilence (stride : Int) (ch : Nat) (buf : List Float32) (sample_no : Nat) :
    List Float32 :=
  buf.set (floatIndex stride ch sample_no).toNat 0

/-- The inner loop over `sample_no` for one channel. -/
def fillChannel (stride : Int) (no_samples : Int) (buf : List Float32) (ch : Nat) :
    List Float32 :=
  (List.range no_samples.toNat).foldl (storeSilence stride ch) buf

/-- The loop over `ch` that fills the buffer with silence. -/
def fillSilence (fr : NDIlib_audio_frame_v2_t) : NDIlib_audio_frame_v2_t :=
  let filled := (List.range fr.no_channels.toNat).foldl
    (fillChannel fr.channel_stride_in_bytes fr.no_samples) fr.p_data
  { fr with p_data := filled }

/-- The variables of the send loop. -/
structure SendState where
  idx : Nat
  flag_reads : Nat
  frame : NDIlib_audio_frame_v2_t
deriving DecidableEq, Repr

/-- The condition `!exit_loop && idx < 1000`. -/
def sendCond (w : World) (s : SendState) : List Event × Bool × SendState :=
  if w.exit_loop s.flag_reads then
    ([Event.read_exit_loop true], false, { s with flag_reads := s.flag_reads + 1 })
  else
    ([Event.read_exit_loop false], decide (s.idx < 1000),
      { s with flag_reads := s.flag_reads + 1 })

/-- The body of the send loop, with the `idx++` that follows it. -/
def sendBody (pNDI_send : Handle) (s : SendState) : List Event × SendState :=
  let fr := fillSilence s.frame
  ([Event.NDIlib_send_send_audio_v2 pNDI_send fr,
    Event.out ("Frame number " ++ toString s.idx ++ " sent.\n")],
   { s with idx := s.idx + 1, frame := fr })

/-- The program `NDIlib_Send_Audio`. -/
def main (w : World) (fuel : Nat) : Option (Int × List Event) :=
  tryMain <|
    thenRun [Event.signal_sigint] <|
    withObject (NDISender.ctor w) NDISender.dtor fun pNDI_send =>
    withObject (NDIAudioFrame.ctor 4 1920 48000) NDIAudioFrame.dtor fun audioFrame =>
      match whileLoop (sendCond w) (sendBody pNDI_send) fuel ⟨0, 0, audioFrame⟩ with
      | none => none
      | some (evs, _) => some ⟨evs, .ok 0⟩

end NDIlib_Send_Audio

/-! ## What is proved about the runs -/

/-! ### The examples -/

/-- The five example programs. -/
inductive Example where
  | Find
  | Recv
  | Recv_Audio_16bpp
  | Recv_FrameSync
  | Send_Audio
deriving DecidableEq, Repr

/-- The `main` of an example. -/
def Example.main : Example → World → Nat → Option (Int × List Event)
  | .Find => NDIlib_Find.main
  | .Recv => NDIlib_Recv.main
  | .Recv_Audio_16bpp => NDIlib_Recv_Audio_16bpp.main
  | .Recv_FrameSync => NDIlib_Recv_FrameSync.main
  | .Send_Audio => NDIlib_Send_Audio.main

/-! ### Unrolling a loop -/

/-- The state in which a loop evaluates its condition for the `n`-th time (counting from 0),
if it gets that far. -/
def loopState {σ : Type} (cond : σ → List Event × Bool × σ) (body : σ → List Event × σ) :
    Nat → σ → σ
  | 0, s => s
  | n + 1, s => loopState cond body n (body (cond s).2.2).2

/-- The events of the first `n` passes through a loop (condition and body). -/
def loopEvents {σ : Type} (cond : σ → List Event × Bool × σ) (body : σ → List Event × σ) :
    Nat → σ → List Event
  | 0, _ => []
  | n + 1, s => (cond s).1 ++ (body (cond s).2.2).1 ++ loopEvents cond body n (body (cond s).2.2).2

/-! ### The error policy -/

/-- An initialize call that returned false, or a create call that returned a null handle. -/
def Event.isFailedCall : Event → Bool
  | .NDIlib_init ok => !ok
  | .NDIlib_find_create_v2 h => h == 0
  | .NDIlib_recv_create_v3 _ h => h == 0
  | .NDIlib_framesync_create _ h => h == 0
  | .NDIlib_send_create h => h == 0
  | _ => false

/-- Whether some initialize or create call of the trace failed. -/
def failedCall (t : List Event) : Bool := t.any Event.isFailedCall

/-- What an event writes to standard error. -/
def Event.errText : Event → Option String
  | .err text => some text
  | _ => none

/-- Everything written to standard error, in order. -/
def errLines (t : List Event) : List String := t.filterMap Event.errText

/-- An allocation that throws: a `new`-expression with a negative number of elements. -/
def Event.isFailedAlloc : Event → Bool
  | .new_array count => decide (count < 0)
  | _ => false

/-- Whether some allocation of the trace threw. -/
def failedAlloc (t : List Event) : Bool := t.any Event.isFailedAlloc

/-- A list of events in which no allocation throws. -/
def NoThrow (l : List Event) : Prop := ∀ e ∈ l, e.isFailedAlloc = false

/-- The verdict of a run: a failed initialize or create call, or an allocation that throws,
gives exit code 1 and exactly one line `Error: <message>` on standard error; otherwise the
exit code is 0 and nothing is written to standard error. -/
def Verdict (code : Int) (t : List Event) : Prop :=
  (failedCall t = true ∨ failedAlloc t = true →
    code = 1 ∧ ∃ msg, errLines t = ["Error: " ++ msg ++ "\n"]) ∧
  (failedCall t = false ∧ failedAlloc t = false → code = 0 ∧ errLines t = [])

/-! ### Which runs return -/

/-- The clock moves forward by at least `δ > 0` ticks from each reading to the next. -/
def ClockAdvances (w : World) (δ : Int) : Prop :=
  0 < δ ∧ ∀ k, w.now k + δ ≤ w.now (k + 1)

/-- The source-wait loop of an example has ended by the `k`-th call: the library reports a
source at call `k` (or, in the 16-bit example, the flag `exit_loop` is seen set at its `k`-th
reading).  The discovery and send examples have no such loop. -/
def SourceWaitEndsBy : Example → World → Nat → Prop
  | .Find, _, _ => True
  | .Send_Audio, _, _ => True
  | .Recv, w, k => (w.find_get_current_sources k).no_sources ≠ 0
  | .Recv_FrameSync, w, k => (w.find_get_current_sources k).no_sources ≠ 0
  | .Recv_Audio_16bpp, w, k =>
    w.exit_loop k = true ∨ (w.find_get_current_sources k).no_sources ≠ 0

/-- The source-wait loop of an example comes to an end. -/
def SourceWaitEnds (ex : Example) (w : World) : Prop := ∃ k, SourceWaitEndsBy ex w k

/-- The initialize call of an example, or its first create call (finder or sender), fails. -/
def FailsEarly : Example → World → Prop
  | .Send_Audio, w => w.lib_init = false ∨ w.send_create = 0
  | _, w => w.lib_init = false ∨ w.find_create_v2 = 0

/-- A create call that an example makes after its source-wait loop (receiver, frame
synchroniser) fails. -/
def FailsLate : Example → World → Prop
  | .Recv, w => w.recv_create_v3 = 0
  | .Recv_Audio_16bpp, w => w.recv_create_v3 = 0
  | .Recv_FrameSync, w => w.recv_create_v3 = 0 ∨ w.framesync_create = 0
  | _, _ => False

/-- The loops that an example reaches come to an end: it fails before any loop, or its
source-wait loop ends and then either the clock advances by a fixed positive amount per
reading or a create call fails before the time-bounded loop. -/
def LoopsEnd (ex : Example) (w : World) : Prop :=
  FailsEarly ex w ∨
    (SourceWaitEnds ex w ∧ ((∃ δ, ClockAdvances w δ) ∨ FailsLate ex w))

/-- A number of condition checks per loop that suffices for an example whose source-wait
loop has ended by call `k`, under a clock that advances: one per tick of the deadline (one or
five minutes in nanoseconds) or per frame of the thousand, and `k` for the source wait. -/
def pollBound : Example → Nat → Nat
  | .Find, _ => 60000000002
  | .Send_Audio, _ => 1001
  | .Recv, k => 300000000002 + k
  | .Recv_FrameSync, k => 300000000002 + k
  | .Recv_Audio_16bpp, k => 60000000002 + k

/-! ### Acquisition and release -/

/-- Events that begin or end the life of a library resource, or report an error. -/
def Event.isLifecycle : Event → Bool
  | .NDIlib_init _ => true
  | .NDIlib_destroy => true
  | .NDIlib_find_create_v2 _ => true
  | .NDIlib_find_destroy _ => true
  | .NDIlib_recv_create_v3 _ _ => true
  | .NDIlib_recv_destroy _ => true
  | .NDIlib_framesync_create _ _ => true
  | .NDIlib_framesync_destroy _ => true
  | .NDIlib_send_create _ => true
  | .NDIlib_send_destroy _ => true
  | .err _ => true
  | _ => false

/-- A list of events none of which begins or ends a resource or reports an error. -/
def Inert (l : List Event) : Prop := ∀ e ∈ l, e.isLifecycle = false

/-- The release call that answers an acquisition: `NDIlib_destroy` for a successful
initialize, the matching destroy call for a non-null handle returned by a create call. -/
def Event.releaseCall : Event → Option Event
  | .NDIlib_init true => some .NDIlib_destroy
  | .NDIlib_find_create_v2 h => if h = 0 then none else some (.NDIlib_find_destroy h)
  | .NDIlib_recv_create_v3 _ h => if h = 0 then none else some (.NDIlib_recv_destroy h)
  | .NDIlib_framesync_create _ h =>
    if h = 0 then none else some (.NDIlib_framesync_destroy h)
  | .NDIlib_send_create h => if h = 0 then none else some (.NDIlib_send_destroy h)
  | _ => none

/-- Every acquisition in the trace is followed by exactly one call of its release. -/
def releasedExactlyOnce : List Event → Bool
  | [] => true
  | e :: rest =>
    (match e.releaseCall with
      | none => true
      | some d => rest.count d == 1) && releasedExactlyOnce rest

/-- What an example acquires from the library: the library itself (by a successful
initialize) or a non-null handle of one of the four kinds. -/
inductive Resource where
  | library
  | finder (h : Handle)
  | receiver (h : Handle)
  | framesync (h : Handle)
  | sender (h : Handle)
deriving DecidableEq, Repr

/-- The resource an event acquires, if any. -/
def Event.acquires : Event → Option Resource
  | .NDIlib_init true => some .library
  | .NDIlib_find_create_v2 h => if h = 0 then none else some (.finder h)
  | .NDIlib_recv_create_v3 _ h => if h = 0 then none else some (.receiver h)
  | .NDIlib_framesync_create _ h => if h = 0 then none else some (.framesync h)
  | .NDIlib_send_create h => if h = 0 then none else some (.sender h)
  | _ => none

/-- The resource an event releases, if any. -/
def Event.releases : Event → Option Resource
  | .NDIlib_destroy => some .library
  | .NDIlib_find_destroy h => some (.finder h)
  | .NDIlib_recv_destroy h => some (.receiver h)
  | .NDIlib_framesync_destroy h => some (.framesync h)
  | .NDIlib_send_destroy h => some (.sender h)
  | _ => none

/-- The resources acquired in a trace, in order of acquisition. -/
def acquisitions (t : List Event) : List Resource := t.filterMap Event.acquires

/-- The resources released in a trace, in order of release. -/
def releases (t : List Event) : List Resource := t.filterMap Event.releases

/-- Whenever `a` is acquired before `b`, `b` is released before `a`. -/
def ReleasedInReverse (t : List Event) : Prop :=
  ∀ a b, List.Sublist [a, b] (acquisitions t) → List.Sublist [b, a] (releases t)

/-! ### Use after destruction -/

/-- The event is a call on the finder `h`. -/
def Event.usesFinder (h : Handle) : Event → Bool
  | .NDIlib_find_wait_for_sources h1 _ _ => h1 == h
  | .NDIlib_find_get_current_sources h1 _ => h1 == h
  | .NDIlib_find_destroy h1 => h1 == h
  | _ => false

/-- The event is a call on the receiver `h`. -/
def Event.usesReceiver (h : Handle) : Event → Bool
  | .NDIlib_recv_connect h1 _ => h1 == h
  | .NDIlib_recv_capture_v2 h1 _ _ _ => h1 == h
  | .NDIlib_recv_free_video_v2 h1 => h1 == h
  | .NDIlib_recv_free_audio_v2 h1 => h1 == h
  | .NDIlib_recv_free_metadata h1 => h1 == h
  | .NDIlib_recv_destroy h1 => h1 == h
  | .NDIlib_framesync_create h1 _ => h1 == h
  | _ => false

/-- The event is a call on the frame synchroniser `h`. -/
def Event.usesFrameSync (h : Handle) : Event → Bool
  | .NDIlib_framesync_capture_video h1 => h1 == h
  | .NDIlib_framesync_free_video h1 => h1 == h
  | .NDIlib_framesync_capture_audio h1 _ _ _ => h1 == h
  | .NDIlib_framesync_free_audio h1 => h1 == h
  | .NDIlib_framesync_destroy h1 => h1 == h
  | _ => false

/-- The event is a call on the sender `h`. -/
def Event.usesSender (h : Handle) : Event → Bool
  | .NDIlib_send_send_audio_v2 h1 _ => h1 == h
  | .NDIlib_send_destroy h1 => h1 == h
  | _ => false

/-- The event reads the source list returned by the finder, or hands a pointer into it to
the library. -/
def Event.readsSourceList : Event → Bool
  | .read_source _ _ _ => true
  | .NDIlib_recv_connect _ _ => true
  | _ => false

/-- The event is a call of the library. -/
def Event.isLibraryCall : Event → Bool
  | .read_source _ _ _ => false
  | .new_array _ => false
  | .delete_array => false
  | .signal_sigint => false
  | .read_exit_loop _ => false
  | .clock_now _ => false
  | .sleep_for_ms _ => false
  | .out _ => false
  | .err _ => false
  | _ => true

/-- What may not follow an event: after the destroy call of a handle no call on that handle
(and after the finder's, no use of its source list), after `NDIlib_destroy` no library call. -/
def Event.forbids : Event → Event → Bool
  | .NDIlib_find_destroy h, e => e.usesFinder h || e.readsSourceList
  | .NDIlib_recv_destroy h, e => e.usesReceiver h
  | .NDIlib_framesync_destroy h, e => e.usesFrameSync h
  | .NDIlib_send_destroy h, e => e.usesSender h
  | .NDIlib_destroy, e => e.isLibraryCall
  | _, _ => false

/-- No event of the trace is followed by one that it forbids. -/
def noUseAfterDestroy : List Event → Bool
  | [] => true
  | e :: rest => rest.all (fun e1 => !e.forbids e1) && noUseAfterDestroy rest

/-! ### Captured frames -/

/-- The event frees a frame of a receiver. -/
def Event.isFree : Event → Bool
  | .NDIlib_recv_free_video_v2 _ => true
  | .NDIlib_recv_free_audio_v2 _ => true
  | .NDIlib_recv_free_metadata _ => true
  | _ => false

/-- The event is a capture call on a receiver. -/
def Event.isCapture : Event → Bool
  | .NDIlib_recv_capture_v2 _ _ _ _ => true
  | _ => false

/-- The event ends the time in which a captured frame has to be freed: the next capture call
or the destruction of the receiver. -/
def Event.endsFrame : Event → Bool
  | .NDIlib_recv_capture_v2 _ _ _ _ => true
  | .NDIlib_recv_destroy _ => true
  | _ => false

/-- The free calls that the result of a capture on receiver `h` asks for: the one frame that
was populated.  A capture that passed no metadata pointer populates no metadata frame. -/
def framesToFree (h : Handle) (with_metadata : Bool) : Frame → List Event
  | Frame.video _ _ => [Event.NDIlib_recv_free_video_v2 h]
  | Frame.audio _ _ => [Event.NDIlib_recv_free_audio_v2 h]
  | Frame.metadata => if with_metadata then [Event.NDIlib_recv_free_metadata h] else []
  | _ => []

/-- The free calls made before the next capture call or destruction of the receiver. -/
def freesBeforeNext (rest : List Event) : List Event :=
  (rest.takeWhile (fun e => !e.endsFrame)).filter Event.isFree

/-- After every capture call of the trace, the free calls made before the next capture call
or the destruction of the receiver are exactly those its result asks for, and one of these
two does follow. -/
def framesFreed : List Event → Bool
  | [] => true
  | e :: rest =>
    (match e with
      | .NDIlib_recv_capture_v2 h with_metadata _ fr =>
        decide (freesBeforeNext rest = framesToFree h with_metadata fr)
          && rest.any Event.endsFrame
      | _ => true) && framesFreed rest

/-- A trace, or the rest of one, in which no frame is pending: no free call comes before the
next capture call or destruction, one of these does come, and every capture is answered. -/
def FramesSettled (l : List Event) : Prop :=
  freesBeforeNext l = [] ∧ l.any Event.endsFrame = true ∧ framesFreed l = true

/-- A list of events with no free call and no capture call or destruction of a receiver. -/
def Quiet (l : List Event) : Prop := ∀ e ∈ l, e.endsFrame = false ∧ e.isFree = false

/-! ### The send loop -/

/-- The frame submitted by an event, if it is a call of `NDIlib_send_send_audio_v2`. -/
def Event.sentFrame : Event → Option NDIlib_audio_frame_v2_t
  | .NDIlib_send_send_audio_v2 _ fr => some fr
  | _ => none

/-- The frames submitted in a trace, in order. -/
def sentFrames (t : List Event) : List NDIlib_audio_frame_v2_t := t.filterMap Event.sentFrame

/-- What an event writes to standard output. -/
def Event.outText : Event → Option String
  | .out text => some text
  | _ => none

/-- Everything written to standard output, in order. -/
def outLines (t : List Event) : List String := t.filterMap Event.outText

/-- The value seen by an event that reads the flag `exit_loop`. -/
def Event.flagValue : Event → Option Bool
  | .read_exit_loop value => some value
  | _ => none

/-- The values of `exit_loop` seen in a trace, in order. -/
def flagReads (t : List Event) : List Bool := t.filterMap Event.flagValue

/-- No frame is submitted after a reading of `exit_loop` that saw the flag set. -/
def noSendAfterFlagSet : List Event → Bool
  | [] => true
  | e :: rest =>
    (match e with
      | .read_exit_loop true => rest.all (fun e1 => e1.sentFrame.isNone)
      | _ => true) && noSendAfterFlagSet rest

/-- The progress line of frame `idx`. -/
def frameLine (idx : Nat) : String := "Frame number " ++ toString idx ++ " sent.\n"

/-- In the words of the specification: `n` passes of the send loop starting at frame `idx`,
each one a check that finds the flag clear, the submission of the frame and its progress
line. -/
def sendPasses (h : Handle) (fr : NDIlib_audio_frame_v2_t) : Nat → Nat → List Event
  | 0, _ => []
  | n + 1, idx =>
    Event.read_exit_loop false :: Event.NDIlib_send_send_audio_v2 h fr ::
      Event.out (frameLine idx) :: sendPasses h fr n (idx + 1)

/-- The submissions and progress lines of `n` passes starting at frame `idx`: each line right
after its submission. -/
def submitsAndLines (h : Handle) (fr : NDIlib_audio_frame_v2_t) : Nat → Nat → List Event
  | 0, _ => []
  | n + 1, idx =>
    Event.NDIlib_send_send_audio_v2 h fr :: Event.out (frameLine idx) ::
      submitsAndLines h fr n (idx + 1)

/-- In the words of the specification: the trace of a run of the send example that sends `n`
frames through sender `h` and ends its loop at a check that sees the flag as `last`. -/
def sendTrace (h : Handle) (n : Nat) (last : Bool) : List Event :=
  [Event.signal_sigint, Event.NDIlib_init true, Event.NDIlib_send_create h,
    Event.new_array 7680] ++
  sendPasses h (NDIlib_Send_Audio.NDIAudioFrame.frame 4 1920 48000) n 0 ++
  [Event.read_exit_loop last, Event.delete_array, Event.NDIlib_send_destroy h,
    Event.NDIlib_destroy]

/-! ### The discovery loop -/

/-- In the words of the specification: the lines `i. <name>` for a list of names, numbered
from `i` on, in list order. -/
def numberedLines : List String → Nat → List String
  | [], _ => []
  | name :: rest, i => (toString i ++ ". " ++ name ++ "\n") :: numberedLines rest (i + 1)

/-- In the words of the specification: what one pass of the discovery loop prints, given the
answer of the wait call and the names of the sources then listed. -/
def discoveryLines (changed : Bool) (names : List String) : List String :=
  if changed then
    ("Network sources (" ++ toString names.length ++ " found).\n") :: numberedLines names 1
  else ["No change to the sources found.\n"]

/-- The event is a call of `NDIlib_find_get_current_sources`. -/
def Event.isGetSources : Event → Bool
  | .NDIlib_find_get_current_sources _ _ => true
  | _ => false

/-- The event is a call of `NDIlib_find_wait_for_sources`. -/
def Event.isWaitForSources : Event → Bool
  | .NDIlib_find_wait_for_sources _ _ _ => true
  | _ => false

/-! ### Reading the source list -/

/-- The event reads an entry of the source list inside the list: its index is below the
length.  Events that read no entry count as in range. -/
def Event.readInRange : Event → Bool
  | .read_source _ index no_sources => decide (index < no_sources)
  | _ => true

/-- The library hands back `nullptr` whenever it reports zero sources. -/
def NullWhenEmpty (w : World) : Prop :=
  ∀ k, (w.find_get_current_sources k).no_sources = 0 →
    (w.find_get_current_sources k).p_sources = 0

/-! ### The layout of the audio buffer -/

/-- The float indices that the stores of the fill loop address in one frame, in the order of
the stores: for each channel `ch` in turn, one store for each `sample_no`. -/
def fillIndices (fr : NDIlib_audio_frame_v2_t) : List Int :=
  ((List.range fr.no_channels.toNat).map fun ch =>
    (List.range fr.no_samples.toNat).map fun sample_no =>
      NDIlib_Send_Audio.floatIndex fr.channel_stride_in_bytes ch sample_no).flatten

/-- The size in bytes of the buffer of floats of the frame. -/
def bufferBytes (fr : NDIlib_audio_frame_v2_t) : Int := 4 * (fr.p_data.length : Int)

/-! ### The deadline of the capture loop -/

/-- The time that the event reads from the clock, if it is a reading of the clock. -/
def Event.clockReading : Event → Option Int
  | .clock_now t => some t
  | _ => none

/-- The event `e` is a loop check at which `limit` or more has elapsed since `start`, and
the event `next` that follows it is a capture call: the capture is started although the
check saw the time used up. -/
def lateStart (start limit : Int) (e : Event) (next : Option Event) : Bool :=
  match e.clockReading, next with
  | some t, some e2 => e2.isCapture && decide (limit ≤ t - start)
  | _, _ => false

/-- Some capture call of the trace is started at a loop check where `limit` or more has
elapsed since `start`. -/
def capturesAfter (start limit : Int) : List Event → Bool
  | [] => false
  | e :: rest => lateStart start limit e rest.head? || capturesAfter start limit rest

/-- The elapsed times since `start` seen by the loop checks that start a capture call, in the
order of the trace. -/
def captureStarts (start : Int) : List Event → List Int
  | [] => []
  | e :: rest =>
    match e.clockReading, rest.head? with
    | some t, some e2 =>
      if e2.isCapture then (t - start) :: captureStarts start rest else captureStarts start rest
    | _, _ => captureStarts start rest

/-! ### Worlds used as examples -/

/-- A world in which every call succeeds, the library never reports a source, nothing is
captured, the clock gains a second per reading and no interrupt arrives. -/
def idleWorld : World :=
  { lib_init := true,
    find_create_v2 := 1,
    recv_create_v3 := 2,
    framesync_create := 3,
    send_create := 4,
    find_wait_for_sources := fun _ => false,
    find_get_current_sources := fun _ => ⟨0, []⟩,
    recv_capture_v2 := fun _ => Frame.none,
    now := fun k => (k : Int) * 1000000000,
    exit_loop := fun _ => false }

/-- A world in which everything works: one source `cam` is there from the first call, the
captures bring a video frame, an audio frame, a metadata frame and a status change, the clock
gains a minute and a half per reading and no interrupt arrives. -/
def readyWorld : World :=
  { lib_init := true,
    find_create_v2 := 1,
    recv_create_v3 := 2,
    framesync_create := 3,
    send_create := 4,
    find_wait_for_sources := fun _ => true,
    find_get_current_sources := fun _ => ⟨5, [⟨"cam"⟩]⟩,
    recv_capture_v2 := fun k =>
      match k with
      | 0 => Frame.video 1920 1080
      | 1 => Frame.audio 1600 2
      | 2 => Frame.metadata
      | 3 => Frame.status_change
      | _ => Frame.none,
    now := fun k => (k : Int) * 90000000000,
    exit_loop := fun _ => false }

/-- A world like `readyWorld` in which the interrupt arrives after two frames: the flag
`exit_loop` is clear at its first two readings and set from the third on. -/
def interruptedWorld : World :=
  { readyWorld with exit_loop := fun k => decide (2 ≤ k) }

/-- A world with one source `cam` from the first call on, a clock that gains six minutes per
reading, no interrupt, and a library that cannot create a receiver. -/
def noReceiverWorld : World :=
  { lib_init := true,
    find_create_v2 := 1,
    recv_create_v3 := 0,
    framesync_create := 3,
    send_create := 4,
    find_wait_for_sources := fun _ => true,
    find_get_current_sources := fun _ => ⟨5, [⟨"cam"⟩]⟩,
    recv_capture_v2 := fun _ => Frame.none,
    now := fun k => (k : Int) * 360000000000,
    exit_loop := fun _ => false }

/-- A world in which the library initialises but cannot create a sender. -/
def noSenderWorld : World :=
  { lib_init := true,
    find_create_v2 := 1,
    recv_create_v3 := 2,
    framesync_create := 3,
    send_create := 0,
    find_wait_for_sources := fun _ => false,
    find_get_current_sources := fun _ => ⟨0, []⟩,
    recv_capture_v2 := fun _ => Frame.none,
    now := fun k => (k : Int) * 1000000000,
    exit_loop := fun _ => false }

/-- A world in which the library hands back a non-null source list with zero entries, and
the interrupt arrives during the first pass of the source-wait loop: `exit_loop` is clear at
its first reading and set from the second on. -/
def emptyListWorld : World :=
  { lib_init := true,
    find_create_v2 := 1,
    recv_create_v3 := 2,
    framesync_create := 3,
    send_create := 4,
    find_wait_for_sources := fun _ => false,
    find_get_current_sources := fun _ => ⟨5, []⟩,
    recv_capture_v2 := fun _ => Frame.none,
    now := fun k => (k : Int) * 1000000000,
    exit_loop := fun k => decide (1 ≤ k) }

/-- A world like `readyWorld` with a slower clock: it gains 25 seconds per reading, so that
the capture loop of the 16-bit example makes two passes before its deadline. -/
def steadyWorld : World :=
  { readyWorld with now := fun k => (k : Int) * 25000000000 }

/-- A world like `steadyWorld` in which every capture brings an audio frame of 2 channels
with a sample count of -1. -/
def brokenFrameWorld : World :=
  { steadyWorld with recv_capture_v2 := fun _ => Frame.audio (-1) 2 }

/-! ## Lemmas on loops -/

section WhileLoop

variable {σ : Type} (cond : σ → List Event × Bool × σ) (body : σ → List Event × σ)

theorem whileLoop_succ_of_false (fuel : Nat) (s : σ) (h : (cond s).2.1 = false) :
    whileLoop cond body (fuel + 1) s = some ((cond s).1, (cond s).2.2) := by
  rcases hc : cond s with ⟨ce, bv, s1⟩
  rw [hc] at h
  simp only at h
  subst h
  simp [whileLoop, hc]

theorem whileLoop_succ_of_true (fuel : Nat) (s : σ) (h : (cond s).2.1 = true) :
    whileLoop cond body (fuel + 1) s =
      (whileLoop cond body fuel (body (cond s).2.2).2).map
        (fun r => ((cond s).1 ++ (body (cond s).2.2).1 ++ r.1, r.2)) := by
  rcases hc : cond s with ⟨ce, bv, s1⟩
  rw [hc] at h
  simp only at h
  subst h
  rcases hb : body s1 with ⟨be, s2⟩
  simp only [whileLoop, hc, hb]
  cases whileLoop cond body fuel s2 <;> rfl

/-- A loop that returns did so after some number `n` of passes: the condition held at the
first `n` checks and failed at the next, and the events are those of the `n` passes followed
by the last check. -/
theorem whileLoop_eq_some (fuel : Nat) (s : σ) (r : List Event × σ)
    (h : whileLoop cond body fuel s = some r) :
    ∃ n, n < fuel ∧ (∀ i, i < n → (cond (loopState cond body i s)).2.1 = true) ∧
      (cond (loopState cond body n s)).2.1 = false ∧
      r = (loopEvents cond body n s ++ (cond (loopState cond body n s)).1,
            (cond (loopState cond body n s)).2.2) := by
  induction fuel generalizing s r with
  | zero => simp [whileLoop] at h
  | succ fuel ih =>
    cases hb : (cond s).2.1 with
    | false =>
      rw [whileLoop_succ_of_false cond body fuel s hb] at h
      refine ⟨0, Nat.succ_pos _, ?_, hb, ?_⟩
      · intro i hi; omega
      · simpa [loopEvents, loopState] using h.symm
    | true =>
      rw [whileLoop_succ_of_true cond body fuel s hb] at h
      cases hw : whileLoop cond body fuel (body (cond s).2.2).2 with
      | none => rw [hw] at h; simp at h
      | some r1 =>
        rw [hw] at h
        obtain ⟨n, hn, hall, hstop, hr⟩ := ih _ r1 hw
        refine ⟨n + 1, Nat.succ_lt_succ hn, ?_, hstop, ?_⟩
        · intro i hi
          cases i with
          | zero => exact hb
          | succ i => exact hall i (by omega)
        · simp only [Option.map_some', Option.some.injEq] at h
          rw [← h, hr]
          simp [loopEvents, loopState, List.append_assoc]

/-- A loop whose condition fails at the `n`-th check, and not before, returns when given more
than `n` units of fuel. -/
theorem whileLoop_of_stops (n fuel : Nat) (s : σ) (hn : n < fuel)
    (hall : ∀ i, i < n → (cond (loopState cond body i s)).2.1 = true)
    (hstop : (cond (loopState cond body n s)).2.1 = false) :
    whileLoop cond body fuel s =
      some (loopEvents cond body n s ++ (cond (loopState cond body n s)).1,
            (cond (loopState cond body n s)).2.2) := by
  induction n generalizing s fuel with
  | zero =>
    obtain ⟨f, rfl⟩ : ∃ f, fuel = f + 1 := ⟨fuel - 1, by omega⟩
    rw [whileLoop_succ_of_false cond body f s hstop]
    simp [loopEvents, loopState]
  | succ n ih =>
    obtain ⟨f, rfl⟩ : ∃ f, fuel = f + 1 := ⟨fuel - 1, by omega⟩
    have h0 : (cond s).2.1 = true := hall 0 (Nat.succ_pos _)
    rw [whileLoop_succ_of_true cond body f s h0]
    rw [ih f (body (cond s).2.2).2 (by omega) (fun i hi => hall (i + 1) (by omega)) hstop]
    simp [loopEvents, loopState, List.append_assoc]

/-- A loop whose condition fails at some check returns when given enough fuel. -/
theorem whileLoop_terminates (N : Nat) (s : σ)
    (hstop : (cond (loopState cond body N s)).2.1 = false) :
    ∀ fuel, N < fuel → ∃ r, whileLoop cond body fuel s = some r := by
  induction N generalizing s with
  | zero =>
    intro fuel hf
    exact ⟨_, whileLoop_of_stops cond body 0 fuel s hf (fun i hi => by omega) hstop⟩
  | succ N ih =>
    intro fuel hf
    obtain ⟨f, rfl⟩ : ∃ f, fuel = f + 1 := ⟨fuel - 1, by omega⟩
    cases hb : (cond s).2.1 with
    | false => exact ⟨_, whileLoop_succ_of_false cond body f s hb⟩
    | true =>
      obtain ⟨r, hr⟩ := ih (body (cond s).2.2).2 hstop f (by omega)
      rw [whileLoop_succ_of_true cond body f s hb, hr]
      exact ⟨_, rfl⟩

/-- A loop whose condition holds at every check never returns, whatever the fuel. -/
theorem whileLoop_diverges (s : σ)
    (hall : ∀ i, (cond (loopState cond body i s)).2.1 = true) :
    ∀ fuel, whileLoop cond body fuel s = none := by
  intro fuel
  cases h : whileLoop cond body fuel s with
  | none => rfl
  | some r =>
    obtain ⟨n, _, _, hstop, _⟩ := whileLoop_eq_some cond body fuel s r h
    rw [hall n] at hstop
    cases hstop

/-- More fuel does not change the result of a loop that returned. -/
theorem whileLoop_mono (fuel fuel2 : Nat) (s : σ) (r : List Event × σ) (hle : fuel ≤ fuel2)
    (h : whileLoop cond body fuel s = some r) : whileLoop cond body fuel2 s = some r := by
  obtain ⟨n, hn, hall, hstop, hr⟩ := whileLoop_eq_some cond body fuel s r h
  rw [hr]
  exact whileLoop_of_stops cond body n fuel2 s (by omega) hall hstop

/-- Every event of a loop that returned comes from a condition check or a body. -/
theorem whileLoop_forall (P : Event → Prop)
    (hc : ∀ s, ∀ e ∈ (cond s).1, P e) (hb : ∀ s, ∀ e ∈ (body s).1, P e)
    (fuel : Nat) (s : σ) (r : List Event × σ) (h : whileLoop cond body fuel s = some r) :
    ∀ e ∈ r.1, P e := by
  obtain ⟨n, _, _, _, hr⟩ := whileLoop_eq_some cond body fuel s r h
  subst hr
  have hev : ∀ (n : Nat) (s : σ), ∀ e ∈ loopEvents cond body n s, P e := by
    intro n
    induction n with
    | zero => intro s e he; simp [loopEvents] at he
    | succ n ih =>
      intro s e he
      simp only [loopEvents, List.mem_append] at he
      rcases he with (he | he) | he
      · exact hc _ _ he
      · exact hb _ _ he
      · exact ih _ _ he
  intro e he
  simp only [List.mem_append] at he
  rcases he with he | he
  · exact hev _ _ _ he
  · exact hc _ _ he

end WhileLoop

section WhileLoopE

variable {σ : Type} (cond : σ → List Event × Bool × σ)
  (body : σ → List Event × Except String σ)

theorem whileLoopE_succ_of_false (fuel : Nat) (s : σ) (h : (cond s).2.1 = false) :
    whileLoopE cond body (fuel + 1) s = some ((cond s).1, .ok (cond s).2.2) := by
  rcases hc : cond s with ⟨ce, bv, s1⟩
  rw [hc] at h
  simp only at h
  subst h
  simp [whileLoopE, hc]

theorem whileLoopE_succ_of_error (fuel : Nat) (s : σ) (msg : String)
    (h : (cond s).2.1 = true) (hb : (body (cond s).2.2).2 = .error msg) :
    whileLoopE cond body (fuel + 1) s
      = some ((cond s).1 ++ (body (cond s).2.2).1, .error msg) := by
  rcases hc : cond s with ⟨ce, bv, s1⟩
  rw [hc] at h hb
  simp only at h hb
  subst h
  rcases hbody : body s1 with ⟨be, res⟩
  rw [hbody] at hb
  simp only at hb
  subst hb
  simp [whileLoopE, hc, hbody]

theorem whileLoopE_succ_of_ok (fuel : Nat) (s s2 : σ)
    (h : (cond s).2.1 = true) (hb : (body (cond s).2.2).2 = .ok s2) :
    whileLoopE cond body (fuel + 1) s =
      (whileLoopE cond body fuel s2).map
        (fun r => ((cond s).1 ++ (body (cond s).2.2).1 ++ r.1, r.2)) := by
  rcases hc : cond s with ⟨ce, bv, s1⟩
  rw [hc] at h hb
  simp only at h hb
  subst h
  rcases hbody : body s1 with ⟨be, res⟩
  rw [hbody] at hb
  simp only at hb
  subst hb
  simp only [whileLoopE, hc, hbody]
  cases whileLoopE cond body fuel s2 <;> rfl

/-- A property of the events and the result of a loop that returned follows pass by pass:
from the check that ends the loop, from a pass that throws, and from a pass that is followed
by the rest of the loop. -/
theorem whileLoopE_induction (Q : List Event → Except String σ → Prop)
    (hstop : ∀ s, (cond s).2.1 = false → Q (cond s).1 (.ok (cond s).2.2))
    (herr : ∀ s msg, (cond s).2.1 = true → (body (cond s).2.2).2 = .error msg →
      Q ((cond s).1 ++ (body (cond s).2.2).1) (.error msg))
    (hstep : ∀ s s2 ev res, (cond s).2.1 = true → (body (cond s).2.2).2 = .ok s2 →
      Q ev res → Q ((cond s).1 ++ (body (cond s).2.2).1 ++ ev) res) :
    ∀ (fuel : Nat) (s : σ) (r : List Event × Except String σ),
      whileLoopE cond body fuel s = some r → Q r.1 r.2 := by
  intro fuel
  induction fuel with
  | zero => intro s r h; simp [whileLoopE] at h
  | succ fuel ih =>
    intro s r h
    cases hc : (cond s).2.1 with
    | false =>
      rw [whileLoopE_succ_of_false cond body fuel s hc] at h
      cases h
      exact hstop s hc
    | true =>
      cases hb : (body (cond s).2.2).2 with
      | error msg =>
        rw [whileLoopE_succ_of_error cond body fuel s msg hc hb] at h
        cases h
        exact herr s msg hc hb
      | ok s2 =>
        rw [whileLoopE_succ_of_ok cond body fuel s s2 hc hb] at h
        cases hl : whileLoopE cond body fuel s2 with
        | none => simp [hl] at h
        | some r2 =>
          simp only [hl, Option.map_some', Option.some.injEq] at h
          subst h
          exact hstep s s2 r2.1 r2.2 hc hb (ih s2 r2 hl)

/-- Every event of a loop that returned comes from a condition check or a body. -/
theorem whileLoopE_forall (P : Event → Prop)
    (hc : ∀ s, ∀ e ∈ (cond s).1, P e) (hb : ∀ s, ∀ e ∈ (body s).1, P e)
    (fuel : Nat) (s : σ) (r : List Event × Except String σ)
    (h : whileLoopE cond body fuel s = some r) : ∀ e ∈ r.1, P e := by
  refine whileLoopE_induction cond body (fun ev _ => ∀ e ∈ ev, P e) ?_ ?_ ?_ fuel s r h
  · intro s _ e he
    exact hc s e he
  · intro s msg _ _ e he
    rcases List.mem_append.mp he with he | he
    · exact hc s e he
    · exact hb _ e he
  · intro s s2 ev res _ _ ih e he
    rcases List.mem_append.mp he with he | he
    · rcases List.mem_append.mp he with he | he
      · exact hc s e he
      · exact hb _ e he
    · exact ih e he

/-- A loop with a measure that every pass that does not throw decreases returns when the fuel
exceeds the measure. -/
theorem whileLoopE_terminates_of_measure (m : σ → Nat)
    (hdec : ∀ s s2, (cond s).2.1 = true → (body (cond s).2.2).2 = .ok s2 → m s2 < m s) :
    ∀ fuel s, m s < fuel → ∃ r, whileLoopE cond body fuel s = some r := by
  intro fuel
  induction fuel with
  | zero => intro s hs; omega
  | succ fuel ih =>
    intro s hs
    cases hc : (cond s).2.1 with
    | false => exact ⟨_, whileLoopE_succ_of_false cond body fuel s hc⟩
    | true =>
      cases hb : (body (cond s).2.2).2 with
      | error msg => exact ⟨_, whileLoopE_succ_of_error cond body fuel s msg hc hb⟩
      | ok s2 =>
        obtain ⟨r, hr⟩ := ih s2 (by have := hdec s s2 hc hb; omega)
        rw [whileLoopE_succ_of_ok cond body fuel s s2 hc hb, hr]
        exact ⟨_, rfl⟩

end WhileLoopE

section MachineIntegers

/-- A number that fits in an `int` is unchanged by the conversion to `int`. -/
theorem toInt32_of_fits (x : Int) (hlo : -2147483648 ≤ x) (hhi : x ≤ INT_MAX) :
    toInt32 x = x := by
  unfold INT_MAX at hhi
  unfold toInt32
  omega

/-- The constructor call of `main` in the send example asks for 7680 floats and does not
throw. -/
theorem send_frame_ctor :
    NDIlib_Send_Audio.NDIAudioFrame.ctor 4 1920 48000
      = ⟨[Event.new_array 7680], .ok (NDIlib_Send_Audio.NDIAudioFrame.frame 4 1920 48000)⟩ := by
  have h32 : toInt32 (1920 * 4) = 7680 := by decide
  unfold NDIlib_Send_Audio.NDIAudioFrame.ctor
  rw [h32]
  rfl

end MachineIntegers

section Shapes

/-- The runs of `NDIlib_Find`, by exit path. -/
theorem find_main_shape (w : World) (fuel : Nat) (code : Int) (t : List Event)
    (h : NDIlib_Find.main w fuel = some (code, t)) :
    (w.lib_init = false ∧ code = 1 ∧
      t = [Event.NDIlib_init false, Event.err "Error: Failed to initialize NDI\n"]) ∨
    (w.lib_init = true ∧ w.find_create_v2 = 0 ∧ code = 1 ∧
      t = [Event.NDIlib_init true, Event.NDIlib_find_create_v2 0, Event.NDIlib_destroy,
            Event.err "Error: Failed to create NDI finder\n"]) ∨
    (w.lib_init = true ∧ w.find_create_v2 ≠ 0 ∧ code = 0 ∧
      ∃ evs st, whileLoop (NDIlib_Find.loopCond w (w.now 0))
          (NDIlib_Find.loopBody w w.find_create_v2) fuel ⟨1, 0, 0⟩ = some (evs, st) ∧
        t = [Event.NDIlib_init true, Event.NDIlib_find_create_v2 w.find_create_v2,
              Event.clock_now (w.now 0)] ++ evs ++
            [Event.NDIlib_find_destroy w.find_create_v2, Event.NDIlib_destroy]) := by
  unfold NDIlib_Find.main at h
  cases hi : w.lib_init with
  | false =>
    left
    simp [tryMain, withObject, NDIlib_Find.NDIInitializer.ctor, hi] at h
    simp [h.1.symm, h.2.symm]
  | true =>
    right
    by_cases hf : w.find_create_v2 = 0
    · left
      simp [tryMain, withObject, NDIlib_Find.NDIInitializer.ctor, NDIlib_Find.NDIFinder.ctor,
        NDIlib_Find.NDIInitializer.dtor, hi, hf] at h
      simp [h.1.symm, h.2.symm, hf]
    · right
      cases hw : whileLoop (NDIlib_Find.loopCond w (w.now 0))
          (NDIlib_Find.loopBody w w.find_create_v2) fuel ⟨1, 0, 0⟩ with
      | none =>
        simp [tryMain, withObject, NDIlib_Find.NDIInitializer.ctor, NDIlib_Find.NDIFinder.ctor,
          hi, hf, hw] at h
      | some r =>
        obtain ⟨evs, st⟩ := r
        simp [tryMain, withObject, NDIlib_Find.NDIInitializer.ctor, NDIlib_Find.NDIFinder.ctor,
          NDIlib_Find.NDIInitializer.dtor, NDIlib_Find.NDIFinder.dtor, hi, hf, hw] at h
        simp [h.1.symm, h.2.symm, hf]

/-- The runs of `NDIlib_Recv`, by exit path. -/
theorem recv_main_shape (w : World) (fuel : Nat) (code : Int) (t : List Event)
    (h : NDIlib_Recv.main w fuel = some (code, t)) :
    (w.lib_init = false ∧ code = 1 ∧
      t = [Event.NDIlib_init false, Event.err "Error: Failed to initialize NDI\n"]) ∨
    (w.lib_init = true ∧ w.find_create_v2 = 0 ∧ code = 1 ∧
      t = [Event.NDIlib_init true, Event.NDIlib_find_create_v2 0, Event.NDIlib_destroy,
            Event.err "Error: Failed to create NDI finder\n"]) ∨
    (w.lib_init = true ∧ w.find_create_v2 ≠ 0 ∧
      ∃ wev ws, whileLoop NDIlib_Recv.waitCond (NDIlib_Recv.waitBody w w.find_create_v2) fuel
          ⟨⟨0, []⟩, 0, 0⟩ = some (wev, ws) ∧
        ((w.recv_create_v3 = 0 ∧ code = 1 ∧
          t = [Event.NDIlib_init true, Event.NDIlib_find_create_v2 w.find_create_v2] ++ wev ++
              [Event.NDIlib_recv_create_v3 none 0,
               Event.NDIlib_find_destroy w.find_create_v2, Event.NDIlib_destroy,
               Event.err "Error: Failed to create NDI receiver\n"]) ∨
         (w.recv_create_v3 ≠ 0 ∧ code = 0 ∧
          ∃ cev cs, whileLoop (NDIlib_Recv.captureCond w (w.now 0))
              (NDIlib_Recv.captureBody w w.recv_create_v3) fuel ⟨1, 0, 0⟩ = some (cev, cs) ∧
            t = [Event.NDIlib_init true, Event.NDIlib_find_create_v2 w.find_create_v2] ++ wev ++
                [Event.NDIlib_recv_create_v3 none w.recv_create_v3,
                 Event.NDIlib_recv_connect w.recv_create_v3 ws.current.p_sources,
                 Event.clock_now (w.now 0)] ++ cev ++
                [Event.NDIlib_recv_destroy w.recv_create_v3,
                 Event.NDIlib_find_destroy w.find_create_v2, Event.NDIlib_destroy]))) := by
  unfold NDIlib_Recv.main at h
  cases hi : w.lib_init with
  | false =>
    left
    simp [tryMain, withObject, NDIlib_Recv.NDIInitializer.ctor, hi] at h
    simp [h.1.symm, h.2.symm]
  | true =>
    right
    by_cases hf : w.find_create_v2 = 0
    · left
      simp [tryMain, withObject, NDIlib_Recv.NDIInitializer.ctor, NDIlib_Recv.NDIFinder.ctor,
        NDIlib_Recv.NDIInitializer.dtor, hi, hf] at h
      simp [h.1.symm, h.2.symm, hf]
    · right
      refine ⟨rfl, hf, ?_⟩
      cases hw : whileLoop NDIlib_Recv.waitCond (NDIlib_Recv.waitBody w w.find_create_v2) fuel
          ⟨⟨0, []⟩, 0, 0⟩ with
      | none =>
        simp [tryMain, withObject, NDIlib_Recv.NDIInitializer.ctor, NDIlib_Recv.NDIFinder.ctor,
          hi, hf, hw] at h
      | some r =>
        obtain ⟨wev, ws⟩ := r
        refine ⟨wev, ws, rfl, ?_⟩
        by_cases hr : w.recv_create_v3 = 0
        · left
          simp [tryMain, withObject, thenRun, NDIlib_Recv.NDIInitializer.ctor,
            NDIlib_Recv.NDIFinder.ctor, NDIlib_Recv.NDIReceiver.ctor,
            NDIlib_Recv.NDIInitializer.dtor, NDIlib_Recv.NDIFinder.dtor, hi, hf, hw, hr] at h
          simp [h.1.symm, h.2.symm, hr]
        · right
          cases hc : whileLoop (NDIlib_Recv.captureCond w (w.now 0))
              (NDIlib_Recv.captureBody w w.recv_create_v3) fuel ⟨1, 0, 0⟩ with
          | none =>
            simp [tryMain, withObject, thenRun, NDIlib_Recv.NDIInitializer.ctor,
              NDIlib_Recv.NDIFinder.ctor, NDIlib_Recv.NDIReceiver.ctor, hi, hf, hw, hr, hc] at h
          | some r =>
            obtain ⟨cev, cs⟩ := r
            simp [tryMain, withObject, thenRun, NDIlib_Recv.NDIInitializer.ctor,
              NDIlib_Recv.NDIFinder.ctor, NDIlib_Recv.NDIReceiver.ctor,
              NDIlib_Recv.NDIInitializer.dtor, NDIlib_Recv.NDIFinder.dtor,
              NDIlib_Recv.NDIReceiver.dtor, hi, hf, hw, hr, hc] at h
            simp [h.1.symm, h.2.symm, hr]

/-- The runs of `NDIlib_Recv_FrameSync`, by exit path. -/
theorem framesync_main_shape (w : World) (fuel : Nat) (code : Int)
    (t : List Event) (h : NDIlib_Recv_FrameSync.main w fuel = some (code, t)) :
    (w.lib_init = false ∧ code = 1 ∧
      t = [Event.NDIlib_init false, Event.err "Error: Failed to initialize NDI\n"]) ∨
    (w.lib_init = true ∧ w.find_create_v2 = 0 ∧ code = 1 ∧
      t = [Event.NDIlib_init true, Event.NDIlib_find_create_v2 0, Event.NDIlib_destroy,
            Event.err "Error: Failed to create NDI find instance\n"]) ∨
    (w.lib_init = true ∧ w.find_create_v2 ≠ 0 ∧
      ∃ wev ws, whileLoop NDIlib_Recv_FrameSync.waitCond
          (NDIlib_Recv_FrameSync.waitBody w w.find_create_v2) fuel
          ⟨⟨0, []⟩, 0, 0⟩ = some (wev, ws) ∧
        ((ws.current.p_sources = 0 ∧ code = 0 ∧
          t = [Event.NDIlib_init true, Event.NDIlib_find_create_v2 w.find_create_v2] ++ wev ++
              [Event.out "No sources found.\n",
               Event.NDIlib_find_destroy w.find_create_v2, Event.NDIlib_destroy]) ∨
         (ws.current.p_sources ≠ 0 ∧ w.recv_create_v3 = 0 ∧ code = 1 ∧
          t = [Event.NDIlib_init true, Event.NDIlib_find_create_v2 w.find_create_v2] ++ wev ++
              [Event.NDIlib_recv_create_v3 none 0,
               Event.NDIlib_find_destroy w.find_create_v2, Event.NDIlib_destroy,
               Event.err "Error: Failed to create NDI receiver instance\n"]) ∨
         (ws.current.p_sources ≠ 0 ∧ w.recv_create_v3 ≠ 0 ∧ w.framesync_create = 0 ∧ code = 1 ∧
          t = [Event.NDIlib_init true, Event.NDIlib_find_create_v2 w.find_create_v2] ++ wev ++
              [Event.NDIlib_recv_create_v3 none w.recv_create_v3,
               Event.NDIlib_recv_connect w.recv_create_v3 ws.current.p_sources,
               Event.NDIlib_framesync_create w.recv_create_v3 0,
               Event.NDIlib_recv_destroy w.recv_create_v3,
               Event.NDIlib_find_destroy w.find_create_v2, Event.NDIlib_destroy,
               Event.err "Error: Failed to create NDI frame sync instance\n"]) ∨
         (ws.current.p_sources ≠ 0 ∧ w.recv_create_v3 ≠ 0 ∧ w.framesync_create ≠ 0 ∧ code = 0 ∧
          ∃ cev cs, whileLoop (NDIlib_Recv_FrameSync.loopCond w (w.now 0))
              (NDIlib_Recv_FrameSync.loopBody w.framesync_create) fuel ⟨1, 0, 0⟩
                = some (cev, cs) ∧
            t = [Event.NDIlib_init true, Event.NDIlib_find_create_v2 w.find_create_v2] ++ wev ++
                [Event.NDIlib_recv_create_v3 none w.recv_create_v3,
                 Event.NDIlib_recv_connect w.recv_create_v3 ws.current.p_sources,
                 Event.NDIlib_framesync_create w.recv_create_v3 w.framesync_create,
                 Event.clock_now (w.now 0)] ++ cev ++
                [Event.NDIlib_framesync_destroy w.framesync_create,
                 Event.NDIlib_recv_destroy w.recv_create_v3,
                 Event.NDIlib_find_destroy w.find_create_v2, Event.NDIlib_destroy]))) := by
  unfold NDIlib_Recv_FrameSync.main at h
  cases hi : w.lib_init with
  | false =>
    left
    simp [tryMain, withObject, NDIlib_Recv_FrameSync.NDIInitializer.ctor, hi] at h
    simp [h.1.symm, h.2.symm]
  | true =>
    right
    by_cases hf : w.find_create_v2 = 0
    · left
      simp [tryMain, withObject, NDIlib_Recv_FrameSync.NDIInitializer.ctor,
        NDIlib_Recv_FrameSync.NDIFinder.ctor, NDIlib_Recv_FrameSync.NDIInitializer.dtor,
        hi, hf] at h
      simp [h.1.symm, h.2.symm, hf]
    · right
      refine ⟨rfl, hf, ?_⟩
      cases hw : whileLoop NDIlib_Recv_FrameSync.waitCond
          (NDIlib_Recv_FrameSync.waitBody w w.find_create_v2) fuel ⟨⟨0, []⟩, 0, 0⟩ with
      | none =>
        simp [tryMain, withObject, NDIlib_Recv_FrameSync.NDIInitializer.ctor,
          NDIlib_Recv_FrameSync.NDIFinder.ctor, hi, hf, hw] at h
      | some r =>
        obtain ⟨wev, ws⟩ := r
        refine ⟨wev, ws, rfl, ?_⟩
        by_cases hp : ws.current.p_sources = 0
        · left
          simp [tryMain, withObject, thenRun, NDIlib_Recv_FrameSync.NDIInitializer.ctor,
            NDIlib_Recv_FrameSync.NDIFinder.ctor, NDIlib_Recv_FrameSync.NDIInitializer.dtor,
            NDIlib_Recv_FrameSync.NDIFinder.dtor, hi, hf, hw, hp] at h
          simp [h.1.symm, h.2.symm, hp]
        · right
          by_cases hr : w.recv_create_v3 = 0
          · left
            simp [tryMain, withObject, thenRun, NDIlib_Recv_FrameSync.NDIInitializer.ctor,
              NDIlib_Recv_FrameSync.NDIFinder.ctor, NDIlib_Recv_FrameSync.NDIReceiver.ctor,
              NDIlib_Recv_FrameSync.NDIInitializer.dtor, NDIlib_Recv_FrameSync.NDIFinder.dtor,
              hi, hf, hw, hp, hr] at h
            simp [h.1.symm, h.2.symm, hp, hr]
          · right
            by_cases hs : w.framesync_create = 0
            · left
              simp [tryMain, withObject, thenRun, NDIlib_Recv_FrameSync.NDIInitializer.ctor,
                NDIlib_Recv_FrameSync.NDIFinder.ctor, NDIlib_Recv_FrameSync.NDIReceiver.ctor,
                NDIlib_Recv_FrameSync.NDIFrameSync.ctor,
                NDIlib_Recv_FrameSync.NDIInitializer.dtor, NDIlib_Recv_FrameSync.NDIFinder.dtor,
                NDIlib_Recv_FrameSync.NDIReceiver.dtor, hi, hf, hw, hp, hr, hs] at h
              simp [h.1.symm, h.2.symm, hp, hr, hs]
            · right
              cases hc : whileLoop (NDIlib_Recv_FrameSync.loopCond w (w.now 0))
                  (NDIlib_Recv_FrameSync.loopBody w.framesync_create) fuel ⟨1, 0, 0⟩ with
              | none =>
                simp [tryMain, withObject, thenRun, NDIlib_Recv_FrameSync.NDIInitializer.ctor,
                  NDIlib_Recv_FrameSync.NDIFinder.ctor, NDIlib_Recv_FrameSync.NDIReceiver.ctor,
                  NDIlib_Recv_FrameSync.NDIFrameSync.ctor, hi, hf, hw, hp, hr, hs, hc] at h
              | some r =>
                obtain ⟨cev, cs⟩ := r
                simp [tryMain, withObject, thenRun, NDIlib_Recv_FrameSync.NDIInitializer.ctor,
                  NDIlib_Recv_FrameSync.NDIFinder.ctor, NDIlib_Recv_FrameSync.NDIReceiver.ctor,
                  NDIlib_Recv_FrameSync.NDIFrameSync.ctor,
                  NDIlib_Recv_FrameSync.NDIInitializer.dtor,
                  NDIlib_Recv_FrameSync.NDIFinder.dtor, NDIlib_Recv_FrameSync.NDIReceiver.dtor,
                  NDIlib_Recv_FrameSync.NDIFrameSync.dtor, hi, hf, hw, hp, hr, hs, hc] at h
                simp [h.1.symm, h.2.symm, hp, hr, hs]

/-- The runs of `NDIlib_Recv_Audio_16bpp`, by exit path. -/
theorem recv16_main_shape (w : World) (fuel : Nat) (code : Int)
    (t : List Event) (h : NDIlib_Recv_Audio_16bpp.main w fuel = some (code, t)) :
    (w.lib_init = false ∧ code = 1 ∧
      t = [Event.NDIlib_init false, Event.err "Error: Failed to initialize NDI\n"]) ∨
    (w.lib_init = true ∧ w.find_create_v2 = 0 ∧ code = 1 ∧
      t = [Event.NDIlib_init true, Event.signal_sigint, Event.NDIlib_find_create_v2 0,
            Event.NDIlib_destroy, Event.err "Error: Failed to create NDI find instance\n"]) ∨
    (w.lib_init = true ∧ w.find_create_v2 ≠ 0 ∧
      ∃ wev ws, whileLoop (NDIlib_Recv_Audio_16bpp.waitCond w)
          (NDIlib_Recv_Audio_16bpp.waitBody w w.find_create_v2) fuel
          ⟨⟨0, []⟩, 0, 0⟩ = some (wev, ws) ∧
        ((ws.current.p_sources = 0 ∧ code = 0 ∧
          t = [Event.NDIlib_init true, Event.signal_sigint,
               Event.NDIlib_find_create_v2 w.find_create_v2] ++ wev ++
              [Event.out "No sources found.\n",
               Event.NDIlib_find_destroy w.find_create_v2, Event.NDIlib_destroy]) ∨
         (ws.current.p_sources ≠ 0 ∧ w.recv_create_v3 = 0 ∧ code = 1 ∧
          t = [Event.NDIlib_init true, Event.signal_sigint,
               Event.NDIlib_find_create_v2 w.find_create_v2] ++ wev ++
              [Event.read_source ws.current.p_sources 0 ws.current.no_sources,
               Event.NDIlib_recv_create_v3 ws.current.sources.head? 0,
               Event.NDIlib_find_destroy w.find_create_v2, Event.NDIlib_destroy,
               Event.err "Error: Failed to create NDI receiver\n"]) ∨
         (ws.current.p_sources ≠ 0 ∧ w.recv_create_v3 ≠ 0 ∧
          ∃ cev res, whileLoopE (NDIlib_Recv_Audio_16bpp.captureCond w (w.now 0))
              (NDIlib_Recv_Audio_16bpp.captureBody w w.recv_create_v3) fuel
              ⟨1, 0, ws.flag_reads⟩ = some (cev, res) ∧
            (((∃ cs, res = .ok cs) ∧ code = 0 ∧
              t = [Event.NDIlib_init true, Event.signal_sigint,
                   Event.NDIlib_find_create_v2 w.find_create_v2] ++ wev ++
                  [Event.read_source ws.current.p_sources 0 ws.current.no_sources,
                   Event.NDIlib_recv_create_v3 ws.current.sources.head? w.recv_create_v3,
                   Event.clock_now (w.now 0)] ++ cev ++
                  [Event.NDIlib_recv_destroy w.recv_create_v3,
                   Event.NDIlib_find_destroy w.find_create_v2, Event.NDIlib_destroy]) ∨
             (∃ msg, res = .error msg ∧ code = 1 ∧
              t = [Event.NDIlib_init true, Event.signal_sigint,
                   Event.NDIlib_find_create_v2 w.find_create_v2] ++ wev ++
                  [Event.read_source ws.current.p_sources 0 ws.current.no_sources,
                   Event.NDIlib_recv_create_v3 ws.current.sources.head? w.recv_create_v3,
                   Event.clock_now (w.now 0)] ++ cev ++
                  [Event.NDIlib_recv_destroy w.recv_create_v3,
                   Event.NDIlib_find_destroy w.find_create_v2, Event.NDIlib_destroy,
                   Event.err ("Error: " ++ msg ++ "\n")]))))) := by
  unfold NDIlib_Recv_Audio_16bpp.main at h
  cases hi : w.lib_init with
  | false =>
    left
    simp [tryMain, withObject, NDIlib_Recv_Audio_16bpp.NDIInitializer.ctor, hi] at h
    simp [h.1.symm, h.2.symm]
  | true =>
    right
    by_cases hf : w.find_create_v2 = 0
    · left
      simp [tryMain, withObject, thenRun, NDIlib_Recv_Audio_16bpp.NDIInitializer.ctor,
        NDIlib_Recv_Audio_16bpp.NDIFinder.ctor, NDIlib_Recv_Audio_16bpp.NDIInitializer.dtor,
        hi, hf] at h
      simp [h.1.symm, h.2.symm, hf]
    · right
      refine ⟨rfl, hf, ?_⟩
      cases hw : whileLoop (NDIlib_Recv_Audio_16bpp.waitCond w)
          (NDIlib_Recv_Audio_16bpp.waitBody w w.find_create_v2) fuel ⟨⟨0, []⟩, 0, 0⟩ with
      | none =>
        simp [tryMain, withObject, thenRun, NDIlib_Recv_Audio_16bpp.NDIInitializer.ctor,
          NDIlib_Recv_Audio_16bpp.NDIFinder.ctor, hi, hf, hw] at h
      | some r =>
        obtain ⟨wev, ws⟩ := r
        refine ⟨wev, ws, rfl, ?_⟩
        by_cases hp : ws.current.p_sources = 0
        · left
          simp [tryMain, withObject, thenRun, NDIlib_Recv_Audio_16bpp.NDIInitializer.ctor,
            NDIlib_Recv_Audio_16bpp.NDIFinder.ctor, NDIlib_Recv_Audio_16bpp.NDIInitializer.dtor,
            NDIlib_Recv_Audio_16bpp.NDIFinder.dtor, hi, hf, hw, hp] at h
          simp [h.1.symm, h.2.symm, hp]
        · right
          by_cases hr : w.recv_create_v3 = 0
          · left
            simp [tryMain, withObject, thenRun, NDIlib_Recv_Audio_16bpp.NDIInitializer.ctor,
              NDIlib_Recv_Audio_16bpp.NDIFinder.ctor, NDIlib_Recv_Audio_16bpp.NDIReceiver.ctor,
              NDIlib_Recv_Audio_16bpp.NDIInitializer.dtor,
              NDIlib_Recv_Audio_16bpp.NDIFinder.dtor, hi, hf, hw, hp, hr] at h
            simp [h.1.symm, h.2.symm, hp, hr]
          · right
            refine ⟨hp, hr, ?_⟩
            cases hc : whileLoopE (NDIlib_Recv_Audio_16bpp.captureCond w (w.now 0))
                (NDIlib_Recv_Audio_16bpp.captureBody w w.recv_create_v3) fuel
                ⟨1, 0, ws.flag_reads⟩ with
            | none =>
              simp [tryMain, withObject, thenRun, NDIlib_Recv_Audio_16bpp.NDIInitializer.ctor,
                NDIlib_Recv_Audio_16bpp.NDIFinder.ctor,
                NDIlib_Recv_Audio_16bpp.NDIReceiver.ctor, hi, hf, hw, hp, hr, hc] at h
            | some r =>
              obtain ⟨cev, res⟩ := r
              refine ⟨cev, res, rfl, ?_⟩
              cases res with
              | ok cs =>
                left
                simp [tryMain, withObject, thenRun,
                  NDIlib_Recv_Audio_16bpp.NDIInitializer.ctor,
                  NDIlib_Recv_Audio_16bpp.NDIFinder.ctor,
                  NDIlib_Recv_Audio_16bpp.NDIReceiver.ctor,
                  NDIlib_Recv_Audio_16bpp.NDIInitializer.dtor,
                  NDIlib_Recv_Audio_16bpp.NDIFinder.dtor,
                  NDIlib_Recv_Audio_16bpp.NDIReceiver.dtor, hi, hf, hw, hp, hr, hc] at h
                simp [h.1.symm, h.2.symm]
              | error msg =>
                right
                simp [tryMain, withObject, thenRun,
                  NDIlib_Recv_Audio_16bpp.NDIInitializer.ctor,
                  NDIlib_Recv_Audio_16bpp.NDIFinder.ctor,
                  NDIlib_Recv_Audio_16bpp.NDIReceiver.ctor,
                  NDIlib_Recv_Audio_16bpp.NDIInitializer.dtor,
                  NDIlib_Recv_Audio_16bpp.NDIFinder.dtor,
                  NDIlib_Recv_Audio_16bpp.NDIReceiver.dtor, hi, hf, hw, hp, hr, hc] at h
                simp [h.1.symm, h.2.symm]

/-- The runs of `NDIlib_Send_Audio`, by exit path. -/
theorem send_main_shape (w : World) (fuel : Nat) (code : Int)
    (t : List Event) (h : NDIlib_Send_Audio.main w fuel = some (code, t)) :
    (w.lib_init = false ∧ code = 1 ∧
      t = [Event.signal_sigint, Event.NDIlib_init false,
            Event.err "Error: Failed to initialize NDI library.\n"]) ∨
    (w.lib_init = true ∧ w.send_create = 0 ∧ code = 1 ∧
      t = [Event.signal_sigint, Event.NDIlib_init true, Event.NDIlib_send_create 0,
            Event.err "Error: Failed to create NDI sender.\n"]) ∨
    (w.lib_init = true ∧ w.send_create ≠ 0 ∧ code = 0 ∧
      ∃ evs st, whileLoop (NDIlib_Send_Audio.sendCond w)
          (NDIlib_Send_Audio.sendBody w.send_create) fuel
          ⟨0, 0, NDIlib_Send_Audio.NDIAudioFrame.frame 4 1920 48000⟩ = some (evs, st) ∧
        t = [Event.signal_sigint, Event.NDIlib_init true,
              Event.NDIlib_send_create w.send_create, Event.new_array (1920 * 4)] ++ evs ++
            [Event.delete_array, Event.NDIlib_send_destroy w.send_create,
             Event.NDIlib_destroy]) := by
  unfold NDIlib_Send_Audio.main at h
  cases hi : w.lib_init with
  | false =>
    left
    simp [tryMain, withObject, thenRun, NDIlib_Send_Audio.NDISender.ctor, hi] at h
    simp [h.1.symm, h.2.symm]
  | true =>
    right
    by_cases hf : w.send_create = 0
    · left
      simp [tryMain, withObject, thenRun, NDIlib_Send_Audio.NDISender.ctor, hi, hf] at h
      simp [h.1.symm, h.2.symm, hf]
    · right
      refine ⟨rfl, hf, ?_⟩
      cases hw : whileLoop (NDIlib_Send_Audio.sendCond w)
          (NDIlib_Send_Audio.sendBody w.send_create) fuel
          ⟨0, 0, NDIlib_Send_Audio.NDIAudioFrame.frame 4 1920 48000⟩ with
      | none =>
        simp [tryMain, withObject, thenRun, NDIlib_Send_Audio.NDISender.ctor,
          send_frame_ctor, hi, hf, hw] at h
      | some r =>
        obtain ⟨evs, st⟩ := r
        simp [tryMain, withObject, thenRun, NDIlib_Send_Audio.NDISender.ctor,
          send_frame_ctor, NDIlib_Send_Audio.NDISender.dtor,
          NDIlib_Send_Audio.NDIAudioFrame.dtor, hi, hf, hw] at h
        simp [h.1.symm, h.2.symm]

end Shapes

section Inert

theorem inert_failedCall {l : List Event} (h : Inert l) : l.any Event.isFailedCall = false := by
  rw [List.any_eq_false]
  intro e he
  have := h e he
  cases e <;> simp_all [Event.isLifecycle, Event.isFailedCall]

theorem inert_errLines {l : List Event} (h : Inert l) : l.filterMap Event.errText = [] := by
  rw [List.filterMap_eq_nil_iff]
  intro e he
  have := h e he
  cases e <;> simp_all [Event.isLifecycle, Event.errText]

theorem find_printSources_inert (sl : SourceList) :
    Inert (NDIlib_Find.printSources sl) := by
  unfold NDIlib_Find.printSources
  induction List.range sl.no_sources with
  | nil => intro e he; simp at he
  | cons i l ih =>
    intro e he
    simp only [List.foldr_cons, List.mem_cons] at he
    rcases he with rfl | rfl | he
    · rfl
    · rfl
    · exact ih e he

theorem find_loop_inert (w : World) (h : Handle) (start : Int) (fuel : Nat)
    (s : NDIlib_Find.LoopState) (r : List Event × NDIlib_Find.LoopState)
    (hr : whileLoop (NDIlib_Find.loopCond w start) (NDIlib_Find.loopBody w h) fuel s = some r) :
    Inert r.1 := by
  refine whileLoop_forall _ _ (fun e => e.isLifecycle = false) ?_ ?_ fuel s r hr
  · intro s e he
    simp [NDIlib_Find.loopCond] at he
    subst he; rfl
  · intro s e he
    unfold NDIlib_Find.loopBody at he
    split at he
    · simp at he
      rcases he with rfl | rfl <;> rfl
    · simp only [List.mem_append, List.mem_cons, List.mem_singleton, List.not_mem_nil,
        or_false] at he
      rcases he with (rfl | rfl | rfl) | he
      · rfl
      · rfl
      · rfl
      · exact find_printSources_inert _ e he

theorem recv_wait_inert (w : World) (h : Handle) (fuel : Nat)
    (s : WaitState) (r : List Event × WaitState)
    (hr : whileLoop NDIlib_Recv.waitCond (NDIlib_Recv.waitBody w h) fuel s = some r) :
    Inert r.1 := by
  refine whileLoop_forall _ _ (fun e => e.isLifecycle = false) ?_ ?_ fuel s r hr
  · intro s e he
    simp [NDIlib_Recv.waitCond] at he
  · intro s e he
    simp [NDIlib_Recv.waitBody] at he
    rcases he with rfl | rfl | rfl <;> rfl

theorem recv_capture_inert (w : World) (h : Handle) (start : Int) (fuel : Nat)
    (s : CaptureState) (r : List Event × CaptureState)
    (hr : whileLoop (NDIlib_Recv.captureCond w start) (NDIlib_Recv.captureBody w h) fuel s
      = some r) : Inert r.1 := by
  refine whileLoop_forall _ _ (fun e => e.isLifecycle = false) ?_ ?_ fuel s r hr
  · intro s e he
    simp [NDIlib_Recv.captureCond] at he
    subst he; rfl
  · intro s e he
    simp only [NDIlib_Recv.captureBody, List.mem_cons] at he
    rcases he with rfl | he
    · rfl
    · cases hfr : w.recv_capture_v2 s.captures <;>
        simp [hfr, NDIlib_Recv.handleFrame] at he <;>
        (try rcases he with rfl | rfl) <;> rfl

theorem framesync_wait_inert (w : World) (h : Handle) (fuel : Nat)
    (s : WaitState) (r : List Event × WaitState)
    (hr : whileLoop NDIlib_Recv_FrameSync.waitCond (NDIlib_Recv_FrameSync.waitBody w h) fuel s
      = some r) : Inert r.1 := by
  refine whileLoop_forall _ _ (fun e => e.isLifecycle = false) ?_ ?_ fuel s r hr
  · intro s e he
    simp [NDIlib_Recv_FrameSync.waitCond] at he
  · intro s e he
    simp [NDIlib_Recv_FrameSync.waitBody] at he
    rcases he with rfl | rfl | rfl <;> rfl

theorem framesync_loop_inert (w : World) (h : Handle) (start : Int) (fuel : Nat)
    (s : CaptureState) (r : List Event × CaptureState)
    (hr : whileLoop (NDIlib_Recv_FrameSync.loopCond w start)
      (NDIlib_Recv_FrameSync.loopBody h) fuel s = some r) : Inert r.1 := by
  refine whileLoop_forall _ _ (fun e => e.isLifecycle = false) ?_ ?_ fuel s r hr
  · intro s e he
    simp [NDIlib_Recv_FrameSync.loopCond] at he
    subst he; rfl
  · intro s e he
    simp [NDIlib_Recv_FrameSync.loopBody] at he
    rcases he with rfl | rfl | rfl | rfl | rfl <;> rfl

theorem recv16_wait_inert (w : World) (h : Handle) (fuel : Nat)
    (s : WaitState) (r : List Event × WaitState)
    (hr : whileLoop (NDIlib_Recv_Audio_16bpp.waitCond w)
      (NDIlib_Recv_Audio_16bpp.waitBody w h) fuel s = some r) : Inert r.1 := by
  refine whileLoop_forall _ _ (fun e => e.isLifecycle = false) ?_ ?_ fuel s r hr
  · intro s e he
    unfold NDIlib_Recv_Audio_16bpp.waitCond at he
    split at he <;> simp at he <;> subst he <;> rfl
  · intro s e he
    simp [NDIlib_Recv_Audio_16bpp.waitBody] at he
    rcases he with rfl | rfl | rfl <;> rfl

/-- The events of the `switch` of the 16-bit example. -/
theorem recv16_handleFrame_mem (h : Handle) (fr : Frame) (e : Event)
    (he : e ∈ (NDIlib_Recv_Audio_16bpp.handleFrame h fr).events) :
    (∃ text, e = Event.out text) ∨ (∃ count, e = Event.new_array count) ∨
    e = Event.NDIlib_recv_free_video_v2 h ∨ e = Event.NDIlib_recv_free_audio_v2 h ∨
    e = Event.NDIlib_recv_free_metadata h ∨ e = Event.NDIlib_util_audio_to_interleaved_16s_v2 ∨
    e = Event.delete_array := by
  cases fr with
  | audio no_samples no_channels =>
    by_cases hneg : toInt32 (no_samples * no_channels) < 0
    · simp [NDIlib_Recv_Audio_16bpp.handleFrame, hneg] at he
      rcases he with rfl | rfl <;> simp
    · simp [NDIlib_Recv_Audio_16bpp.handleFrame, hneg] at he
      rcases he with rfl | rfl | rfl | rfl | rfl <;> simp
  | _ => simp [NDIlib_Recv_Audio_16bpp.handleFrame] at he <;>
      (try rcases he with rfl | rfl) <;> simp

theorem recv16_capture_inert (w : World) (h : Handle) (start : Int)
    (fuel : Nat) (s : CaptureState) (r : List Event × Except String CaptureState)
    (hr : whileLoopE (NDIlib_Recv_Audio_16bpp.captureCond w start)
      (NDIlib_Recv_Audio_16bpp.captureBody w h) fuel s = some r) : Inert r.1 := by
  refine whileLoopE_forall _ _ (fun e => e.isLifecycle = false) ?_ ?_ fuel s r hr
  · intro s e he
    unfold NDIlib_Recv_Audio_16bpp.captureCond at he
    split at he <;> simp at he
    · subst he; rfl
    · rcases he with rfl | rfl <;> rfl
  · intro s e he
    simp only [NDIlib_Recv_Audio_16bpp.captureBody, List.mem_cons] at he
    rcases he with rfl | he
    · rfl
    · rcases recv16_handleFrame_mem h _ e he with
        ⟨_, rfl⟩ | ⟨_, rfl⟩ | rfl | rfl | rfl | rfl | rfl <;> rfl

theorem send_loop_inert (w : World) (h : Handle) (fuel : Nat)
    (s : NDIlib_Send_Audio.SendState) (r : List Event × NDIlib_Send_Audio.SendState)
    (hr : whileLoop (NDIlib_Send_Audio.sendCond w) (NDIlib_Send_Audio.sendBody h) fuel s
      = some r) : Inert r.1 := by
  refine whileLoop_forall _ _ (fun e => e.isLifecycle = false) ?_ ?_ fuel s r hr
  · intro s e he
    unfold NDIlib_Send_Audio.sendCond at he
    split at he <;> simp at he <;> subst he <;> rfl
  · intro s e he
    simp [NDIlib_Send_Audio.sendBody] at he
    rcases he with rfl | rfl <;> rfl

end Inert

section Throws

theorem nothrow_failedAlloc {l : List Event} (h : NoThrow l) :
    l.any Event.isFailedAlloc = false := by
  rw [List.any_eq_false]
  intro e he
  simp [h e he]

theorem find_printSources_nothrow (sl : SourceList) :
    NoThrow (NDIlib_Find.printSources sl) := by
  unfold NDIlib_Find.printSources
  induction List.range sl.no_sources with
  | nil => intro e he; simp at he
  | cons i l ih =>
    intro e he
    simp only [List.foldr_cons, List.mem_cons] at he
    rcases he with rfl | rfl | he
    · rfl
    · rfl
    · exact ih e he

theorem find_loop_nothrow (w : World) (h : Handle) (start : Int) (fuel : Nat)
    (s : NDIlib_Find.LoopState) (r : List Event × NDIlib_Find.LoopState)
    (hr : whileLoop (NDIlib_Find.loopCond w start) (NDIlib_Find.loopBody w h) fuel s = some r) :
    NoThrow r.1 := by
  refine whileLoop_forall _ _ (fun e => e.isFailedAlloc = false) ?_ ?_ fuel s r hr
  · intro s e he
    simp [NDIlib_Find.loopCond] at he
    subst he; rfl
  · intro s e he
    unfold NDIlib_Find.loopBody at he
    split at he
    · simp at he
      rcases he with rfl | rfl <;> rfl
    · simp only [List.mem_append, List.mem_cons, List.mem_singleton, List.not_mem_nil,
        or_false] at he
      rcases he with (rfl | rfl | rfl) | he
      · rfl
      · rfl
      · rfl
      · exact find_printSources_nothrow _ e he

theorem recv_wait_nothrow (w : World) (h : Handle) (fuel : Nat)
    (s : WaitState) (r : List Event × WaitState)
    (hr : whileLoop NDIlib_Recv.waitCond (NDIlib_Recv.waitBody w h) fuel s = some r) :
    NoThrow r.1 := by
  refine whileLoop_forall _ _ (fun e => e.isFailedAlloc = false) ?_ ?_ fuel s r hr
  · intro s e he
    simp [NDIlib_Recv.waitCond] at he
  · intro s e he
    simp [NDIlib_Recv.waitBody] at he
    rcases he with rfl | rfl | rfl <;> rfl

theorem recv_capture_nothrow (w : World) (h : Handle) (start : Int) (fuel : Nat)
    (s : CaptureState) (r : List Event × CaptureState)
    (hr : whileLoop (NDIlib_Recv.captureCond w start) (NDIlib_Recv.captureBody w h) fuel s
      = some r) : NoThrow r.1 := by
  refine whileLoop_forall _ _ (fun e => e.isFailedAlloc = false) ?_ ?_ fuel s r hr
  · intro s e he
    simp [NDIlib_Recv.captureCond] at he
    subst he; rfl
  · intro s e he
    simp only [NDIlib_Recv.captureBody, List.mem_cons] at he
    rcases he with rfl | he
    · rfl
    · cases hfr : w.recv_capture_v2 s.captures <;>
        simp [hfr, NDIlib_Recv.handleFrame] at he <;>
        (try rcases he with rfl | rfl) <;> rfl

theorem framesync_wait_nothrow (w : World) (h : Handle) (fuel : Nat)
    (s : WaitState) (r : List Event × WaitState)
    (hr : whileLoop NDIlib_Recv_FrameSync.waitCond (NDIlib_Recv_FrameSync.waitBody w h) fuel s
      = some r) : NoThrow r.1 := by
  refine whileLoop_forall _ _ (fun e => e.isFailedAlloc = false) ?_ ?_ fuel s r hr
  · intro s e he
    simp [NDIlib_Recv_FrameSync.waitCond] at he
  · intro s e he
    simp [NDIlib_Recv_FrameSync.waitBody] at he
    rcases he with rfl | rfl | rfl <;> rfl

theorem framesync_loop_nothrow (w : World) (h : Handle) (start : Int) (fuel : Nat)
    (s : CaptureState) (r : List Event × CaptureState)
    (hr : whileLoop (NDIlib_Recv_FrameSync.loopCond w start)
      (NDIlib_Recv_FrameSync.loopBody h) fuel s = some r) : NoThrow r.1 := by
  refine whileLoop_forall _ _ (fun e => e.isFailedAlloc = false) ?_ ?_ fuel s r hr
  · intro s e he
    simp [NDIlib_Recv_FrameSync.loopCond] at he
    subst he; rfl
  · intro s e he
    simp [NDIlib_Recv_FrameSync.loopBody] at he
    rcases he with rfl | rfl | rfl | rfl | rfl <;> rfl

theorem recv16_wait_nothrow (w : World) (h : Handle) (fuel : Nat)
    (s : WaitState) (r : List Event × WaitState)
    (hr : whileLoop (NDIlib_Recv_Audio_16bpp.waitCond w)
      (NDIlib_Recv_Audio_16bpp.waitBody w h) fuel s = some r) : NoThrow r.1 := by
  refine whileLoop_forall _ _ (fun e => e.isFailedAlloc = false) ?_ ?_ fuel s r hr
  · intro s e he
    unfold NDIlib_Recv_Audio_16bpp.waitCond at he
    split at he <;> simp at he <;> subst he <;> rfl
  · intro s e he
    simp [NDIlib_Recv_Audio_16bpp.waitBody] at he
    rcases he with rfl | rfl | rfl <;> rfl

theorem send_loop_nothrow (w : World) (h : Handle) (fuel : Nat)
    (s : NDIlib_Send_Audio.SendState) (r : List Event × NDIlib_Send_Audio.SendState)
    (hr : whileLoop (NDIlib_Send_Audio.sendCond w) (NDIlib_Send_Audio.sendBody h) fuel s
      = some r) : NoThrow r.1 := by
  refine whileLoop_forall _ _ (fun e => e.isFailedAlloc = false) ?_ ?_ fuel s r hr
  · intro s e he
    unfold NDIlib_Send_Audio.sendCond at he
    split at he <;> simp at he <;> subst he <;> rfl
  · intro s e he
    simp [NDIlib_Send_Audio.sendBody] at he
    rcases he with rfl | rfl <;> rfl

theorem recv16_captureCond_nothrow (w : World) (start : Int) (s : CaptureState) :
    NoThrow (NDIlib_Recv_Audio_16bpp.captureCond w start s).1 := by
  intro e he
  unfold NDIlib_Recv_Audio_16bpp.captureCond at he
  split at he <;> simp at he
  · subst he; rfl
  · rcases he with rfl | rfl <;> rfl

/-- A pass of the capture loop of the 16-bit example throws exactly when its allocation
does. -/
theorem recv16_captureBody_result (w : World) (h : Handle) (s : CaptureState) :
    (∀ s2, (NDIlib_Recv_Audio_16bpp.captureBody w h s).2 = .ok s2 →
      NoThrow (NDIlib_Recv_Audio_16bpp.captureBody w h s).1) ∧
    (∀ msg, (NDIlib_Recv_Audio_16bpp.captureBody w h s).2 = .error msg →
      (NDIlib_Recv_Audio_16bpp.captureBody w h s).1.any Event.isFailedAlloc = true) := by
  unfold NDIlib_Recv_Audio_16bpp.captureBody
  cases w.recv_capture_v2 s.captures with
  | audio no_samples no_channels =>
    by_cases hneg : toInt32 (no_samples * no_channels) < 0
    · simp [NDIlib_Recv_Audio_16bpp.handleFrame, hneg, Event.isFailedAlloc]
    · simp [NDIlib_Recv_Audio_16bpp.handleFrame, hneg, Event.isFailedAlloc, NoThrow]
  | _ => simp [NDIlib_Recv_Audio_16bpp.handleFrame, Event.isFailedAlloc, NoThrow]

/-- The capture loop of the 16-bit example ends by an exception exactly when an allocation
in it throws. -/
theorem recv16_capture_result (w : World) (h : Handle) (start : Int) (fuel : Nat)
    (s : CaptureState) (r : List Event × Except String CaptureState)
    (hr : whileLoopE (NDIlib_Recv_Audio_16bpp.captureCond w start)
      (NDIlib_Recv_Audio_16bpp.captureBody w h) fuel s = some r) :
    (∀ cs, r.2 = .ok cs → NoThrow r.1) ∧
    (∀ msg, r.2 = .error msg → r.1.any Event.isFailedAlloc = true) := by
  refine whileLoopE_induction _ _
    (fun ev res => (∀ cs, res = .ok cs → NoThrow ev) ∧
      (∀ msg, res = .error msg → ev.any Event.isFailedAlloc = true)) ?_ ?_ ?_ fuel s r hr
  · intro s _
    exact ⟨fun _ _ => recv16_captureCond_nothrow w start s, fun msg hm => by cases hm⟩
  · intro s msg _ hb
    refine ⟨fun cs hcs => (by cases hcs), fun _ _ => ?_⟩
    rw [List.any_append, (recv16_captureBody_result w h _).2 msg hb, Bool.or_true]
  · intro s s2 ev res _ hb ih
    refine ⟨fun cs hcs e he => ?_, fun msg hm => ?_⟩
    · rcases List.mem_append.mp he with he | he
      · rcases List.mem_append.mp he with he | he
        · exact recv16_captureCond_nothrow w start s e he
        · exact (recv16_captureBody_result w h _).1 s2 hb e he
      · exact ih.1 cs hcs e he
    · rw [List.any_append, ih.2 msg hm, Bool.or_true]

end Throws

section Verdicts

theorem verdict_of_error (t : List Event) (msg : String)
    (hf : failedCall t = true) (he : errLines t = ["Error: " ++ msg ++ "\n"]) :
    Verdict 1 t :=
  ⟨fun _ => ⟨rfl, msg, he⟩, fun h => (by rw [hf] at h; cases h.1)⟩

theorem verdict_of_throw (t : List Event) (msg : String)
    (ha : failedAlloc t = true) (he : errLines t = ["Error: " ++ msg ++ "\n"]) :
    Verdict 1 t :=
  ⟨fun _ => ⟨rfl, msg, he⟩, fun h => (by rw [ha] at h; cases h.2)⟩

theorem verdict_of_ok (t : List Event) (hf : failedCall t = false)
    (ha : failedAlloc t = false) (he : errLines t = []) : Verdict 0 t :=
  ⟨fun h => (by rw [hf, ha] at h; rcases h with h | h <;> cases h), fun _ => ⟨rfl, he⟩⟩

theorem find_verdict (w : World) (fuel : Nat) (code : Int) (t : List Event)
    (h : NDIlib_Find.main w fuel = some (code, t)) : Verdict code t := by
  rcases find_main_shape w fuel code t h with
    ⟨_, rfl, rfl⟩ | ⟨_, _, rfl, rfl⟩ | ⟨_, hf, rfl, evs, st, hw, rfl⟩
  · exact verdict_of_error _ "Failed to initialize NDI" (by decide) (by decide)
  · exact verdict_of_error _ "Failed to create NDI finder" (by decide) (by decide)
  · have hin := find_loop_inert _ _ _ _ _ _ hw
    have hnt := find_loop_nothrow _ _ _ _ _ _ hw
    apply verdict_of_ok
    · simp [failedCall, List.any_append, inert_failedCall hin, Event.isFailedCall, hf]
    · simp [failedAlloc, List.any_append, nothrow_failedAlloc hnt, Event.isFailedAlloc]
    · simp [errLines, List.filterMap_append, inert_errLines hin, Event.errText]

theorem recv_verdict (w : World) (fuel : Nat) (code : Int) (t : List Event)
    (h : NDIlib_Recv.main w fuel = some (code, t)) : Verdict code t := by
  rcases recv_main_shape w fuel code t h with
    ⟨_, rfl, rfl⟩ | ⟨_, _, rfl, rfl⟩ | ⟨_, hf, wev, ws, hw, hrest⟩
  · exact verdict_of_error _ "Failed to initialize NDI" (by decide) (by decide)
  · exact verdict_of_error _ "Failed to create NDI finder" (by decide) (by decide)
  · have hin := recv_wait_inert _ _ _ _ _ hw
    have hnt := recv_wait_nothrow _ _ _ _ _ hw
    rcases hrest with ⟨_, rfl, rfl⟩ | ⟨hr, rfl, cev, cs, hc, rfl⟩
    · apply verdict_of_error _ "Failed to create NDI receiver"
      · simp [failedCall, List.any_append, inert_failedCall hin, Event.isFailedCall, hf]
      · simp only [errLines, List.filterMap_append, inert_errLines hin]
        rfl
    · have hin2 := recv_capture_inert _ _ _ _ _ _ hc
      have hnt2 := recv_capture_nothrow _ _ _ _ _ _ hc
      apply verdict_of_ok
      · simp [failedCall, List.any_append, inert_failedCall hin, inert_failedCall hin2,
          Event.isFailedCall, hf, hr]
      · simp [failedAlloc, List.any_append, nothrow_failedAlloc hnt,
          nothrow_failedAlloc hnt2, Event.isFailedAlloc]
      · simp [errLines, List.filterMap_append, inert_errLines hin, inert_errLines hin2, Event.errText]

theorem framesync_verdict (w : World) (fuel : Nat) (code : Int) (t : List Event)
    (h : NDIlib_Recv_FrameSync.main w fuel = some (code, t)) : Verdict code t := by
  rcases framesync_main_shape w fuel code t h with
    ⟨_, rfl, rfl⟩ | ⟨_, _, rfl, rfl⟩ | ⟨_, hf, wev, ws, hw, hrest⟩
  · exact verdict_of_error _ "Failed to initialize NDI" (by decide) (by decide)
  · exact verdict_of_error _ "Failed to create NDI find instance" (by decide) (by decide)
  · have hin := framesync_wait_inert _ _ _ _ _ hw
    have hnt := framesync_wait_nothrow _ _ _ _ _ hw
    rcases hrest with ⟨_, rfl, rfl⟩ | ⟨_, _, rfl, rfl⟩ | ⟨_, hr, _, rfl, rfl⟩ |
      ⟨_, hr, hs, rfl, cev, cs, hc, rfl⟩
    · apply verdict_of_ok
      · simp [failedCall, List.any_append, inert_failedCall hin, Event.isFailedCall, hf]
      · simp [failedAlloc, List.any_append, nothrow_failedAlloc hnt, Event.isFailedAlloc]
      · simp [errLines, List.filterMap_append, inert_errLines hin, Event.errText]
    · apply verdict_of_error _ "Failed to create NDI receiver instance"
      · simp [failedCall, List.any_append, inert_failedCall hin, Event.isFailedCall, hf]
      · simp only [errLines, List.filterMap_append, inert_errLines hin]
        rfl
    · apply verdict_of_error _ "Failed to create NDI frame sync instance"
      · simp [failedCall, List.any_append, inert_failedCall hin, Event.isFailedCall, hf]
      · simp only [errLines, List.filterMap_append, inert_errLines hin]
        rfl
    · have hin2 := framesync_loop_inert _ _ _ _ _ _ hc
      have hnt2 := framesync_loop_nothrow _ _ _ _ _ _ hc
      apply verdict_of_ok
      · simp [failedCall, List.any_append, inert_failedCall hin, inert_failedCall hin2,
          Event.isFailedCall, hf, hr, hs]
      · simp [failedAlloc, List.any_append, nothrow_failedAlloc hnt,
          nothrow_failedAlloc hnt2, Event.isFailedAlloc]
      · simp [errLines, List.filterMap_append, inert_errLines hin, inert_errLines hin2, Event.errText]

theorem recv16_verdict (w : World) (fuel : Nat) (code : Int)
    (t : List Event) (h : NDIlib_Recv_Audio_16bpp.main w fuel = some (code, t)) :
    Verdict code t := by
  rcases recv16_main_shape w fuel code t h with
    ⟨_, rfl, rfl⟩ | ⟨_, _, rfl, rfl⟩ | ⟨_, hf, wev, ws, hw, hrest⟩
  · exact verdict_of_error _ "Failed to initialize NDI" (by decide) (by decide)
  · exact verdict_of_error _ "Failed to create NDI find instance" (by decide) (by decide)
  · have hin := recv16_wait_inert _ _ _ _ _ hw
    have hnt := recv16_wait_nothrow _ _ _ _ _ hw
    rcases hrest with ⟨_, rfl, rfl⟩ | ⟨_, _, rfl, rfl⟩ | ⟨_, hr, cev, res, hc, hres⟩
    · apply verdict_of_ok
      · simp [failedCall, List.any_append, inert_failedCall hin, Event.isFailedCall, hf]
      · simp [failedAlloc, List.any_append, nothrow_failedAlloc hnt, Event.isFailedAlloc]
      · simp [errLines, List.filterMap_append, inert_errLines hin, Event.errText]
    · apply verdict_of_error _ "Failed to create NDI receiver"
      · simp [failedCall, List.any_append, inert_failedCall hin, Event.isFailedCall, hf]
      · simp only [errLines, List.filterMap_append, inert_errLines hin]
        rfl
    · have hin2 := recv16_capture_inert _ _ _ _ _ _ hc
      have hres2 := recv16_capture_result _ _ _ _ _ _ hc
      rcases hres with ⟨⟨cs, rfl⟩, rfl, rfl⟩ | ⟨msg, rfl, rfl, rfl⟩
      · have hnt2 := hres2.1 cs rfl
        apply verdict_of_ok
        · simp [failedCall, List.any_append, inert_failedCall hin, inert_failedCall hin2,
            Event.isFailedCall, hf, hr]
        · simp [failedAlloc, List.any_append, nothrow_failedAlloc hnt,
            nothrow_failedAlloc hnt2, Event.isFailedAlloc]
        · simp [errLines, List.filterMap_append, inert_errLines hin, inert_errLines hin2,
            Event.errText]
      · have hth := hres2.2 msg rfl
        apply verdict_of_throw _ msg
        · simp only [failedAlloc, List.any_append, hth, Bool.or_true, Bool.true_or]
        · simp only [errLines, List.filterMap_append, inert_errLines hin,
            inert_errLines hin2]
          rfl

theorem send_verdict (w : World) (fuel : Nat) (code : Int) (t : List Event)
    (h : NDIlib_Send_Audio.main w fuel = some (code, t)) : Verdict code t := by
  rcases send_main_shape w fuel code t h with
    ⟨_, rfl, rfl⟩ | ⟨_, _, rfl, rfl⟩ | ⟨_, hf, rfl, evs, st, hw, rfl⟩
  · exact verdict_of_error _ "Failed to initialize NDI library." (by decide) (by decide)
  · exact verdict_of_error _ "Failed to create NDI sender." (by decide) (by decide)
  · have hin := send_loop_inert _ _ _ _ _ hw
    have hnt := send_loop_nothrow _ _ _ _ _ hw
    apply verdict_of_ok
    · simp [failedCall, List.any_append, inert_failedCall hin, Event.isFailedCall, hf]
    · simp [failedAlloc, List.any_append, nothrow_failedAlloc hnt, Event.isFailedAlloc]
    · simp [errLines, List.filterMap_append, inert_errLines hin, Event.errText]

theorem example_verdict (ex : Example) (w : World) (fuel : Nat) (code : Int) (t : List Event)
    (h : ex.main w fuel = some (code, t)) : Verdict code t := by
  cases ex
  · exact find_verdict w fuel code t h
  · exact recv_verdict w fuel code t h
  · exact recv16_verdict w fuel code t h
  · exact framesync_verdict w fuel code t h
  · exact send_verdict w fuel code t h

end Verdicts

section Termination

variable {σ : Type} (cond : σ → List Event × Bool × σ) (body : σ → List Event × σ)

/-- A loop with a measure that every pass decreases returns when the fuel exceeds the
measure. -/
theorem whileLoop_terminates_of_measure (m : σ → Nat)
    (hdec : ∀ s, (cond s).2.1 = true → m (body (cond s).2.2).2 < m s) :
    ∀ fuel s, m s < fuel → ∃ r, whileLoop cond body fuel s = some r := by
  intro fuel
  induction fuel with
  | zero => intro s hs; omega
  | succ fuel ih =>
    intro s hs
    cases hb : (cond s).2.1 with
    | false => exact ⟨_, whileLoop_succ_of_false cond body fuel s hb⟩
    | true =>
      obtain ⟨r, hr⟩ := ih (body (cond s).2.2).2 (by have := hdec s hb; omega)
      rw [whileLoop_succ_of_true cond body fuel s hb, hr]
      exact ⟨_, rfl⟩

theorem ClockAdvances.lower_bound {w : World} {δ : Int} (h : ClockAdvances w δ) (k : Nat) :
    w.now 0 + k ≤ w.now k := by
  induction k with
  | zero => simp
  | succ k ih =>
    have := h.2 k
    have := h.1
    push_cast
    omega

/-- Under an advancing clock, a reading that is still within `m` minutes of the first one has
an index below `m * 60000000000 + 1`. -/
theorem ClockAdvances.index_lt {w : World} {δ : Int} (h : ClockAdvances w δ) (m : Nat)
    (k : Nat) (hk : w.now k - w.now 0 < minutes m) : k < m * 60000000000 + 1 := by
  have := h.lower_bound k
  unfold minutes at hk
  omega

theorem find_loop_terminates (w : World) (δ : Int) (h : ClockAdvances w δ)
    (pNDI_find : Handle) (s : NDIlib_Find.LoopState) (fuel : Nat)
    (hf : 60000000001 < fuel) :
    ∃ r, whileLoop (NDIlib_Find.loopCond w (w.now 0)) (NDIlib_Find.loopBody w pNDI_find)
      fuel s = some r := by
  apply whileLoop_terminates_of_measure _ _ (fun s => 60000000001 - s.clocks)
  · intro s hs
    simp only [NDIlib_Find.loopCond, decide_eq_true_eq] at hs
    have := h.index_lt 1 s.clocks (by simpa using hs)
    have hc : ((NDIlib_Find.loopBody w pNDI_find
        (NDIlib_Find.loopCond w (w.now 0) s).2.2).2).clocks = s.clocks + 1 := by
      unfold NDIlib_Find.loopBody NDIlib_Find.loopCond
      split <;> rfl
    rw [hc]
    omega
  · omega

theorem recv_capture_terminates (w : World) (δ : Int) (h : ClockAdvances w δ)
    (pNDI_recv : Handle) (s : CaptureState) (fuel : Nat) (hf : 300000000001 < fuel) :
    ∃ r, whileLoop (NDIlib_Recv.captureCond w (w.now 0)) (NDIlib_Recv.captureBody w pNDI_recv)
      fuel s = some r := by
  apply whileLoop_terminates_of_measure _ _ (fun s => 300000000001 - s.clocks)
  · intro s hs
    simp only [NDIlib_Recv.captureCond, decide_eq_true_eq] at hs
    have := h.index_lt 5 s.clocks (by simpa using hs)
    simp only [NDIlib_Recv.captureBody, NDIlib_Recv.captureCond]
    omega
  · omega

theorem framesync_loop_terminates (w : World) (δ : Int) (h : ClockAdvances w δ)
    (pNDI_framesync : Handle) (s : CaptureState) (fuel : Nat) (hf : 300000000001 < fuel) :
    ∃ r, whileLoop (NDIlib_Recv_FrameSync.loopCond w (w.now 0))
      (NDIlib_Recv_FrameSync.loopBody pNDI_framesync) fuel s = some r := by
  apply whileLoop_terminates_of_measure _ _ (fun s => 300000000001 - s.clocks)
  · intro s hs
    simp only [NDIlib_Recv_FrameSync.loopCond, decide_eq_true_eq] at hs
    have := h.index_lt 5 s.clocks (by simpa using hs)
    simp only [NDIlib_Recv_FrameSync.loopBody, NDIlib_Recv_FrameSync.loopCond]
    omega
  · omega

/-- A pass of the capture loop of the 16-bit example that does not throw leaves the clock
count as the check before it left it. -/
theorem recv16_captureBody_clocks (w : World) (h : Handle) (s s2 : CaptureState)
    (hb : (NDIlib_Recv_Audio_16bpp.captureBody w h s).2 = .ok s2) : s2.clocks = s.clocks := by
  unfold NDIlib_Recv_Audio_16bpp.captureBody at hb
  simp only at hb
  split at hb
  · cases hb
    rfl
  · cases hb

theorem recv16_capture_terminates (w : World) (δ : Int)
    (h : ClockAdvances w δ) (pNDI_recv : Handle) (s : CaptureState) (fuel : Nat)
    (hf : 60000000001 < fuel) :
    ∃ r, whileLoopE (NDIlib_Recv_Audio_16bpp.captureCond w (w.now 0))
      (NDIlib_Recv_Audio_16bpp.captureBody w pNDI_recv) fuel s = some r := by
  apply whileLoopE_terminates_of_measure _ _ (fun s => 60000000001 - s.clocks)
  · intro s s2 hs hb
    have hclk := recv16_captureBody_clocks w pNDI_recv _ s2 hb
    unfold NDIlib_Recv_Audio_16bpp.captureCond at hs hclk
    split at hs
    · simp at hs
    · rename_i hflag
      simp only [decide_eq_true_eq] at hs
      have := h.index_lt 1 s.clocks (by simpa using hs)
      simp only [hflag, Bool.false_eq_true, ↓reduceIte] at hclk
      simp only [hclk]
      omega
  · omega

theorem send_loop_terminates (w : World) (pNDI_send : Handle)
    (s : NDIlib_Send_Audio.SendState) (fuel : Nat) (hf : 1000 < fuel) :
    ∃ r, whileLoop (NDIlib_Send_Audio.sendCond w) (NDIlib_Send_Audio.sendBody pNDI_send)
      fuel s = some r := by
  apply whileLoop_terminates_of_measure _ _ (fun s => 1000 - s.idx)
  · intro s hs
    unfold NDIlib_Send_Audio.sendCond at hs ⊢
    split at hs
    · simp at hs
    · rename_i hflag
      simp only [decide_eq_true_eq] at hs
      simp only [hflag, NDIlib_Send_Audio.sendBody]
      simp only [Bool.false_eq_true, ↓reduceIte]
      omega
  · omega

theorem recv_wait_state (w : World) (h : Handle) (i : Nat) (s : WaitState) :
    (loopState NDIlib_Recv.waitCond (NDIlib_Recv.waitBody w h) (i + 1) s).current
      = w.find_get_current_sources (s.calls + i) := by
  induction i generalizing s with
  | zero => simp [loopState, NDIlib_Recv.waitCond, NDIlib_Recv.waitBody]
  | succ i ih =>
    rw [loopState, ih]
    simp [NDIlib_Recv.waitCond, NDIlib_Recv.waitBody, Nat.add_assoc, Nat.add_comm 1 i]

theorem recv_wait_terminates (w : World) (h : Handle) (k : Nat)
    (hk : (w.find_get_current_sources k).no_sources ≠ 0) (fuel : Nat) (hf : k + 1 < fuel) :
    ∃ r, whileLoop NDIlib_Recv.waitCond (NDIlib_Recv.waitBody w h) fuel ⟨⟨0, []⟩, 0, 0⟩
      = some r := by
  apply whileLoop_terminates _ _ (k + 1) _ _ fuel hf
  simp [NDIlib_Recv.waitCond, recv_wait_state, hk]

theorem framesync_wait_state (w : World) (h : Handle) (i : Nat) (s : WaitState) :
    (loopState NDIlib_Recv_FrameSync.waitCond (NDIlib_Recv_FrameSync.waitBody w h)
      (i + 1) s).current = w.find_get_current_sources (s.calls + i) := by
  induction i generalizing s with
  | zero => simp [loopState, NDIlib_Recv_FrameSync.waitCond, NDIlib_Recv_FrameSync.waitBody]
  | succ i ih =>
    rw [loopState, ih]
    simp [NDIlib_Recv_FrameSync.waitCond, NDIlib_Recv_FrameSync.waitBody, Nat.add_assoc,
      Nat.add_comm 1 i]

theorem framesync_wait_terminates (w : World) (h : Handle) (k : Nat)
    (hk : (w.find_get_current_sources k).no_sources ≠ 0) (fuel : Nat) (hf : k + 1 < fuel) :
    ∃ r, whileLoop NDIlib_Recv_FrameSync.waitCond (NDIlib_Recv_FrameSync.waitBody w h) fuel
      ⟨⟨0, []⟩, 0, 0⟩ = some r := by
  apply whileLoop_terminates _ _ (k + 1) _ _ fuel hf
  simp [NDIlib_Recv_FrameSync.waitCond, framesync_wait_state, hk]

theorem recv16_wait_state (w : World) (h : Handle) (i : Nat)
    (s : WaitState) :
    (loopState (NDIlib_Recv_Audio_16bpp.waitCond w) (NDIlib_Recv_Audio_16bpp.waitBody w h)
      (i + 1) s).current = w.find_get_current_sources (s.calls + i) := by
  induction i generalizing s with
  | zero =>
    simp only [loopState, NDIlib_Recv_Audio_16bpp.waitCond,
      NDIlib_Recv_Audio_16bpp.waitBody]
    split <;> simp
  | succ i ih =>
    rw [loopState, ih]
    simp only [NDIlib_Recv_Audio_16bpp.waitCond, NDIlib_Recv_Audio_16bpp.waitBody]
    split <;> simp [Nat.add_assoc, Nat.add_comm 1 i]

theorem recv16_wait_flag_reads (w : World) (h : Handle) (i : Nat)
    (s : WaitState) :
    (loopState (NDIlib_Recv_Audio_16bpp.waitCond w) (NDIlib_Recv_Audio_16bpp.waitBody w h)
      i s).flag_reads = s.flag_reads + i := by
  induction i generalizing s with
  | zero => simp [loopState]
  | succ i ih =>
    rw [loopState, ih]
    simp only [NDIlib_Recv_Audio_16bpp.waitCond, NDIlib_Recv_Audio_16bpp.waitBody]
    split <;> simp [Nat.add_assoc, Nat.add_comm 1 i]

theorem recv16_waitCond_value (w : World) (s : WaitState) :
    (NDIlib_Recv_Audio_16bpp.waitCond w s).2.1
      = (!w.exit_loop s.flag_reads && decide (s.current.no_sources = 0)) := by
  unfold NDIlib_Recv_Audio_16bpp.waitCond
  split <;> simp_all

theorem recv16_wait_terminates (w : World) (h : Handle) (k : Nat)
    (hk : w.exit_loop k = true ∨ (w.find_get_current_sources k).no_sources ≠ 0)
    (fuel : Nat) (hf : k + 1 < fuel) :
    ∃ r, whileLoop (NDIlib_Recv_Audio_16bpp.waitCond w) (NDIlib_Recv_Audio_16bpp.waitBody w h)
      fuel ⟨⟨0, []⟩, 0, 0⟩ = some r := by
  rcases hk with hk | hk
  · apply whileLoop_terminates _ _ k _ _ fuel (by omega)
    have hfr := recv16_wait_flag_reads w h k ⟨⟨0, []⟩, 0, 0⟩
    simp only [Nat.zero_add] at hfr
    simp [NDIlib_Recv_Audio_16bpp.waitCond, hfr, hk]
  · apply whileLoop_terminates _ _ (k + 1) _ _ fuel hf
    have hcur := recv16_wait_state w h k ⟨⟨0, []⟩, 0, 0⟩
    simp only [Nat.zero_add] at hcur
    rw [recv16_waitCond_value, hcur]
    simp [hk]

theorem find_main_returns (w : World) (fuel : Nat)
    (hl : w.lib_init = true → w.find_create_v2 ≠ 0 →
      ∀ s, ∃ r, whileLoop (NDIlib_Find.loopCond w (w.now 0))
        (NDIlib_Find.loopBody w w.find_create_v2) fuel s = some r) :
    ∃ r, NDIlib_Find.main w fuel = some r := by
  unfold NDIlib_Find.main
  cases hi : w.lib_init with
  | false => simp [tryMain, withObject, NDIlib_Find.NDIInitializer.ctor, hi]
  | true =>
    by_cases hf : w.find_create_v2 = 0
    · simp [tryMain, withObject, NDIlib_Find.NDIInitializer.ctor, NDIlib_Find.NDIFinder.ctor,
        hi, hf]
    · obtain ⟨⟨evs, st⟩, hw⟩ := hl hi hf ⟨1, 0, 0⟩
      simp [tryMain, withObject, NDIlib_Find.NDIInitializer.ctor, NDIlib_Find.NDIFinder.ctor,
        hi, hf, hw]

theorem recv_main_returns (w : World) (fuel : Nat)
    (hw : w.lib_init = true → w.find_create_v2 ≠ 0 →
      ∃ r, whileLoop NDIlib_Recv.waitCond (NDIlib_Recv.waitBody w w.find_create_v2) fuel
        ⟨⟨0, []⟩, 0, 0⟩ = some r)
    (hc : w.lib_init = true → w.find_create_v2 ≠ 0 → w.recv_create_v3 ≠ 0 →
      ∀ s, ∃ r, whileLoop (NDIlib_Recv.captureCond w (w.now 0))
        (NDIlib_Recv.captureBody w w.recv_create_v3) fuel s = some r) :
    ∃ r, NDIlib_Recv.main w fuel = some r := by
  unfold NDIlib_Recv.main
  cases hi : w.lib_init with
  | false => simp [tryMain, withObject, NDIlib_Recv.NDIInitializer.ctor, hi]
  | true =>
    by_cases hf : w.find_create_v2 = 0
    · simp [tryMain, withObject, NDIlib_Recv.NDIInitializer.ctor, NDIlib_Recv.NDIFinder.ctor,
        hi, hf]
    · obtain ⟨⟨wev, ws⟩, hw⟩ := hw hi hf
      by_cases hr : w.recv_create_v3 = 0
      · simp [tryMain, withObject, thenRun, NDIlib_Recv.NDIInitializer.ctor,
          NDIlib_Recv.NDIFinder.ctor, NDIlib_Recv.NDIReceiver.ctor, hi, hf, hw, hr]
      · obtain ⟨⟨cev, cs⟩, hc⟩ := hc hi hf hr ⟨1, 0, 0⟩
        simp [tryMain, withObject, thenRun, NDIlib_Recv.NDIInitializer.ctor,
          NDIlib_Recv.NDIFinder.ctor, NDIlib_Recv.NDIReceiver.ctor, hi, hf, hw, hr, hc]

theorem framesync_main_returns (w : World) (fuel : Nat)
    (hw : w.lib_init = true → w.find_create_v2 ≠ 0 →
      ∃ r, whileLoop NDIlib_Recv_FrameSync.waitCond
        (NDIlib_Recv_FrameSync.waitBody w w.find_create_v2) fuel ⟨⟨0, []⟩, 0, 0⟩ = some r)
    (hc : w.lib_init = true → w.find_create_v2 ≠ 0 → w.recv_create_v3 ≠ 0 →
      w.framesync_create ≠ 0 →
      ∀ s, ∃ r, whileLoop (NDIlib_Recv_FrameSync.loopCond w (w.now 0))
        (NDIlib_Recv_FrameSync.loopBody w.framesync_create) fuel s = some r) :
    ∃ r, NDIlib_Recv_FrameSync.main w fuel = some r := by
  unfold NDIlib_Recv_FrameSync.main
  cases hi : w.lib_init with
  | false => simp [tryMain, withObject, NDIlib_Recv_FrameSync.NDIInitializer.ctor, hi]
  | true =>
    by_cases hf : w.find_create_v2 = 0
    · simp [tryMain, withObject, NDIlib_Recv_FrameSync.NDIInitializer.ctor,
        NDIlib_Recv_FrameSync.NDIFinder.ctor, hi, hf]
    · obtain ⟨⟨wev, ws⟩, hw⟩ := hw hi hf
      by_cases hp : ws.current.p_sources = 0
      · simp [tryMain, withObject, thenRun, NDIlib_Recv_FrameSync.NDIInitializer.ctor,
          NDIlib_Recv_FrameSync.NDIFinder.ctor, hi, hf, hw, hp]
      by_cases hr : w.recv_create_v3 = 0
      · simp [tryMain, withObject, thenRun, NDIlib_Recv_FrameSync.NDIInitializer.ctor,
          NDIlib_Recv_FrameSync.NDIFinder.ctor, NDIlib_Recv_FrameSync.NDIReceiver.ctor,
          hi, hf, hw, hp, hr]
      by_cases hs : w.framesync_create = 0
      · simp [tryMain, withObject, thenRun, NDIlib_Recv_FrameSync.NDIInitializer.ctor,
          NDIlib_Recv_FrameSync.NDIFinder.ctor, NDIlib_Recv_FrameSync.NDIReceiver.ctor,
          NDIlib_Recv_FrameSync.NDIFrameSync.ctor, hi, hf, hw, hp, hr, hs]
      · obtain ⟨⟨cev, cs⟩, hc⟩ := hc hi hf hr hs ⟨1, 0, 0⟩
        simp [tryMain, withObject, thenRun, NDIlib_Recv_FrameSync.NDIInitializer.ctor,
          NDIlib_Recv_FrameSync.NDIFinder.ctor, NDIlib_Recv_FrameSync.NDIReceiver.ctor,
          NDIlib_Recv_FrameSync.NDIFrameSync.ctor, hi, hf, hw, hp, hr, hs, hc]

theorem recv16_main_returns (w : World) (fuel : Nat)
    (hw : w.lib_init = true → w.find_create_v2 ≠ 0 →
      ∃ r, whileLoop (NDIlib_Recv_Audio_16bpp.waitCond w)
        (NDIlib_Recv_Audio_16bpp.waitBody w w.find_create_v2) fuel ⟨⟨0, []⟩, 0, 0⟩ = some r)
    (hc : w.lib_init = true → w.find_create_v2 ≠ 0 → w.recv_create_v3 ≠ 0 →
      ∀ s, ∃ r, whileLoopE (NDIlib_Recv_Audio_16bpp.captureCond w (w.now 0))
        (NDIlib_Recv_Audio_16bpp.captureBody w w.recv_create_v3) fuel s = some r) :
    ∃ r, NDIlib_Recv_Audio_16bpp.main w fuel = some r := by
  unfold NDIlib_Recv_Audio_16bpp.main
  cases hi : w.lib_init with
  | false => simp [tryMain, withObject, NDIlib_Recv_Audio_16bpp.NDIInitializer.ctor, hi]
  | true =>
    by_cases hf : w.find_create_v2 = 0
    · simp [tryMain, withObject, thenRun, NDIlib_Recv_Audio_16bpp.NDIInitializer.ctor,
        NDIlib_Recv_Audio_16bpp.NDIFinder.ctor, hi, hf]
    · obtain ⟨⟨wev, ws⟩, hw⟩ := hw hi hf
      by_cases hp : ws.current.p_sources = 0
      · simp [tryMain, withObject, thenRun, NDIlib_Recv_Audio_16bpp.NDIInitializer.ctor,
          NDIlib_Recv_Audio_16bpp.NDIFinder.ctor, hi, hf, hw, hp]
      by_cases hr : w.recv_create_v3 = 0
      · simp [tryMain, withObject, thenRun, NDIlib_Recv_Audio_16bpp.NDIInitializer.ctor,
          NDIlib_Recv_Audio_16bpp.NDIFinder.ctor, NDIlib_Recv_Audio_16bpp.NDIReceiver.ctor,
          hi, hf, hw, hp, hr]
      · obtain ⟨⟨cev, res⟩, hc⟩ := hc hi hf hr ⟨1, 0, ws.flag_reads⟩
        cases res <;>
          simp [tryMain, withObject, thenRun, NDIlib_Recv_Audio_16bpp.NDIInitializer.ctor,
            NDIlib_Recv_Audio_16bpp.NDIFinder.ctor, NDIlib_Recv_Audio_16bpp.NDIReceiver.ctor,
            hi, hf, hw, hp, hr, hc]

theorem send_main_returns (w : World) (fuel : Nat) (hfuel : 1000 < fuel) :
    ∃ r, NDIlib_Send_Audio.main w fuel = some r := by
  unfold NDIlib_Send_Audio.main
  cases hi : w.lib_init with
  | false => simp [tryMain, withObject, thenRun, NDIlib_Send_Audio.NDISender.ctor, hi]
  | true =>
    by_cases hf : w.send_create = 0
    · simp [tryMain, withObject, thenRun, NDIlib_Send_Audio.NDISender.ctor, hi, hf]
    · obtain ⟨⟨evs, st⟩, hw⟩ := send_loop_terminates w w.send_create
        ⟨0, 0, NDIlib_Send_Audio.NDIAudioFrame.frame 4 1920 48000⟩ fuel hfuel
      simp [tryMain, withObject, thenRun, NDIlib_Send_Audio.NDISender.ctor,
        send_frame_ctor, hi, hf, hw]

/-- Every example returns once its loops end: with an advancing clock and a source-wait loop
that has ended by call `k`, all fuel from `pollBound` on gives a result. -/
theorem example_returns_within (ex : Example) (w : World) (δ : Int) (k : Nat)
    (hclock : ClockAdvances w δ) (hwait : SourceWaitEndsBy ex w k) :
    ∀ fuel, pollBound ex k ≤ fuel → ∃ r, ex.main w fuel = some r := by
  intro fuel hf
  cases ex with
  | Find =>
    simp only [pollBound] at hf
    exact find_main_returns w fuel
      (fun _ _ s => find_loop_terminates w δ hclock _ s fuel (by omega))
  | Recv =>
    simp only [pollBound] at hf
    exact recv_main_returns w fuel
      (fun _ _ => recv_wait_terminates w _ k hwait fuel (by omega))
      (fun _ _ _ s => recv_capture_terminates w δ hclock _ s fuel (by omega))
  | Recv_Audio_16bpp =>
    simp only [pollBound] at hf
    exact recv16_main_returns w fuel
      (fun _ _ => recv16_wait_terminates w _ k hwait fuel (by omega))
      (fun _ _ _ s => recv16_capture_terminates w δ hclock _ s fuel (by omega))
  | Recv_FrameSync =>
    simp only [pollBound] at hf
    exact framesync_main_returns w fuel
      (fun _ _ => framesync_wait_terminates w _ k hwait fuel (by omega))
      (fun _ _ _ _ s => framesync_loop_terminates w δ hclock _ s fuel (by omega))
  | Send_Audio =>
    simp only [pollBound] at hf
    exact send_main_returns w fuel (by omega)

/-- An example whose initialize call or first create call fails returns at once. -/
theorem example_returns_of_failsEarly (ex : Example) (w : World) (h : FailsEarly ex w)
    (fuel : Nat) : ∃ r, ex.main w fuel = some r := by
  cases ex with
  | Find =>
    refine find_main_returns w fuel (fun hi hf => ?_)
    rcases h with h | h
    · rw [hi] at h; cases h
    · exact absurd h hf
  | Recv =>
    refine recv_main_returns w fuel (fun hi hf => ?_) (fun hi hf => ?_) <;>
    · rcases h with h | h
      · rw [hi] at h; cases h
      · exact absurd h hf
  | Recv_Audio_16bpp =>
    refine recv16_main_returns w fuel (fun hi hf => ?_) (fun hi hf => ?_) <;>
    · rcases h with h | h
      · rw [hi] at h; cases h
      · exact absurd h hf
  | Recv_FrameSync =>
    refine framesync_main_returns w fuel (fun hi hf => ?_) (fun hi hf => ?_) <;>
    · rcases h with h | h
      · rw [hi] at h; cases h
      · exact absurd h hf
  | Send_Audio =>
    unfold Example.main NDIlib_Send_Audio.main
    rcases h with h | h
    · simp [tryMain, withObject, thenRun, NDIlib_Send_Audio.NDISender.ctor, h]
    · cases hi : w.lib_init <;>
        simp [tryMain, withObject, thenRun, NDIlib_Send_Audio.NDISender.ctor, h, hi]

/-- An example whose receiver or frame synchroniser cannot be created returns once its
source-wait loop has ended, whatever the clock does. -/
theorem example_returns_of_failsLate (ex : Example) (w : World) (k : Nat)
    (hwait : SourceWaitEndsBy ex w k) (h : FailsLate ex w) :
    ∀ fuel, k + 2 ≤ fuel → ∃ r, ex.main w fuel = some r := by
  intro fuel hf
  cases ex with
  | Find => exact absurd h id
  | Recv =>
    exact recv_main_returns w fuel
      (fun _ _ => recv_wait_terminates w _ k hwait fuel (by omega))
      (fun _ _ hr => absurd h hr)
  | Recv_Audio_16bpp =>
    exact recv16_main_returns w fuel
      (fun _ _ => recv16_wait_terminates w _ k hwait fuel (by omega))
      (fun _ _ hr => absurd h hr)
  | Recv_FrameSync =>
    refine framesync_main_returns w fuel
      (fun _ _ => framesync_wait_terminates w _ k hwait fuel (by omega))
      (fun _ _ hr hs => ?_)
    rcases h with h | h
    · exact absurd h hr
    · exact absurd h hs
  | Send_Audio => exact absurd h id

/-- An example returns, for all fuel from some bound on, when the loops it reaches end. -/
theorem example_main_returns (ex : Example) (w : World) (h : LoopsEnd ex w) :
    ∃ bound, ∀ fuel, bound ≤ fuel → ∃ r, ex.main w fuel = some r := by
  rcases h with h | ⟨⟨k, hk⟩, ⟨δ, hclock⟩ | hlate⟩
  · exact ⟨0, fun fuel _ => example_returns_of_failsEarly ex w h fuel⟩
  · exact ⟨pollBound ex k, example_returns_within ex w δ k hclock hk⟩
  · exact ⟨k + 2, example_returns_of_failsLate ex w k hk hlate⟩

/-- The source-wait loop of `NDIlib_Recv` ends only when the library reports a source. -/
theorem recv_wait_only_if (w : World) (h : Handle) (fuel : Nat) (r : List Event × WaitState)
    (hr : whileLoop NDIlib_Recv.waitCond (NDIlib_Recv.waitBody w h) fuel ⟨⟨0, []⟩, 0, 0⟩
      = some r) :
    ∃ k, (w.find_get_current_sources k).no_sources ≠ 0 := by
  obtain ⟨n, _, _, hstop, _⟩ := whileLoop_eq_some _ _ _ _ _ hr
  cases n with
  | zero => simp [loopState, NDIlib_Recv.waitCond, SourceList.no_sources] at hstop
  | succ n =>
    have hcur := recv_wait_state w h n ⟨⟨0, []⟩, 0, 0⟩
    simp only [Nat.zero_add] at hcur
    refine ⟨n, ?_⟩
    simp only [NDIlib_Recv.waitCond, decide_eq_false_iff_not] at hstop
    rw [hcur] at hstop
    exact hstop

/-- The source-wait loop of `NDIlib_Recv_FrameSync` ends only when the library reports a
source. -/
theorem framesync_wait_only_if (w : World) (h : Handle) (fuel : Nat)
    (r : List Event × WaitState)
    (hr : whileLoop NDIlib_Recv_FrameSync.waitCond (NDIlib_Recv_FrameSync.waitBody w h) fuel
      ⟨⟨0, []⟩, 0, 0⟩ = some r) :
    ∃ k, (w.find_get_current_sources k).no_sources ≠ 0 := by
  obtain ⟨n, _, _, hstop, _⟩ := whileLoop_eq_some _ _ _ _ _ hr
  cases n with
  | zero => simp [loopState, NDIlib_Recv_FrameSync.waitCond, SourceList.no_sources] at hstop
  | succ n =>
    have hcur := framesync_wait_state w h n ⟨⟨0, []⟩, 0, 0⟩
    simp only [Nat.zero_add] at hcur
    refine ⟨n, ?_⟩
    simp only [NDIlib_Recv_FrameSync.waitCond, decide_eq_false_iff_not] at hstop
    rw [hcur] at hstop
    exact hstop

/-- The source-wait loop of `NDIlib_Recv_Audio_16bpp` ends only when the flag `exit_loop` is
seen set or the library reports a source. -/
theorem recv16_wait_only_if (w : World) (h : Handle) (fuel : Nat)
    (r : List Event × WaitState)
    (hr : whileLoop (NDIlib_Recv_Audio_16bpp.waitCond w) (NDIlib_Recv_Audio_16bpp.waitBody w h)
      fuel ⟨⟨0, []⟩, 0, 0⟩ = some r) :
    ∃ k, w.exit_loop k = true ∨ (w.find_get_current_sources k).no_sources ≠ 0 := by
  obtain ⟨n, _, _, hstop, _⟩ := whileLoop_eq_some _ _ _ _ _ hr
  rw [recv16_waitCond_value] at hstop
  have hfr := recv16_wait_flag_reads w h n ⟨⟨0, []⟩, 0, 0⟩
  simp only [Nat.zero_add] at hfr
  rw [hfr] at hstop
  cases hflag : w.exit_loop n with
  | true => exact ⟨n, Or.inl hflag⟩
  | false =>
    simp only [hflag, Bool.not_false, Bool.true_and, decide_eq_false_iff_not] at hstop
    cases n with
    | zero => exact absurd rfl hstop
    | succ n =>
      have hcur := recv16_wait_state w h n ⟨⟨0, []⟩, 0, 0⟩
      simp only [Nat.zero_add] at hcur
      rw [hcur] at hstop
      exact ⟨n, Or.inr hstop⟩

/-- An example returns only when its initialize call or first create call fails or its
source-wait loop comes to an end. -/
theorem example_returns_only_if (ex : Example) (w : World)
    (h : ∃ fuel code t, ex.main w fuel = some (code, t)) :
    FailsEarly ex w ∨ SourceWaitEnds ex w := by
  obtain ⟨fuel, code, t, h⟩ := h
  cases ex with
  | Find => exact Or.inr ⟨0, trivial⟩
  | Send_Audio => exact Or.inr ⟨0, trivial⟩
  | Recv =>
    rcases recv_main_shape w fuel code t h with
      ⟨hi, _⟩ | ⟨_, hf, _⟩ | ⟨_, _, wev, ws, hw, _⟩
    · exact Or.inl (Or.inl hi)
    · exact Or.inl (Or.inr hf)
    · exact Or.inr (recv_wait_only_if w _ fuel _ hw)
  | Recv_FrameSync =>
    rcases framesync_main_shape w fuel code t h with
      ⟨hi, _⟩ | ⟨_, hf, _⟩ | ⟨_, _, wev, ws, hw, _⟩
    · exact Or.inl (Or.inl hi)
    · exact Or.inl (Or.inr hf)
    · exact Or.inr (framesync_wait_only_if w _ fuel _ hw)
  | Recv_Audio_16bpp =>
    rcases recv16_main_shape w fuel code t h with
      ⟨hi, _⟩ | ⟨_, hf, _⟩ | ⟨_, _, wev, ws, hw, _⟩
    · exact Or.inl (Or.inl hi)
    · exact Or.inl (Or.inr hf)
    · exact Or.inr (recv16_wait_only_if w _ fuel _ hw)

end Termination

section Divergence

theorem recv_wait_diverges (h : Handle) (fuel : Nat) :
    whileLoop NDIlib_Recv.waitCond (NDIlib_Recv.waitBody idleWorld h) fuel ⟨⟨0, []⟩, 0, 0⟩
      = none := by
  apply whileLoop_diverges
  intro i
  cases i with
  | zero => rfl
  | succ i =>
    simp [NDIlib_Recv.waitCond, recv_wait_state, idleWorld, SourceList.no_sources]

theorem framesync_wait_diverges (h : Handle) (fuel : Nat) :
    whileLoop NDIlib_Recv_FrameSync.waitCond (NDIlib_Recv_FrameSync.waitBody idleWorld h) fuel
      ⟨⟨0, []⟩, 0, 0⟩ = none := by
  apply whileLoop_diverges
  intro i
  cases i with
  | zero => rfl
  | succ i =>
    simp [NDIlib_Recv_FrameSync.waitCond, framesync_wait_state, idleWorld,
      SourceList.no_sources]

theorem recv_main_idle (fuel : Nat) : NDIlib_Recv.main idleWorld fuel = none := by
  have hw := recv_wait_diverges idleWorld.find_create_v2 fuel
  cases hm : NDIlib_Recv.main idleWorld fuel with
  | none => rfl
  | some r =>
    rcases recv_main_shape idleWorld fuel r.1 r.2 hm with
      ⟨hi, _⟩ | ⟨_, hf, _⟩ | ⟨_, _, wev, ws, hs, _⟩
    · cases hi
    · cases hf
    · rw [hw] at hs
      cases hs

theorem framesync_main_idle (fuel : Nat) :
    NDIlib_Recv_FrameSync.main idleWorld fuel = none := by
  have hw := framesync_wait_diverges idleWorld.find_create_v2 fuel
  cases hm : NDIlib_Recv_FrameSync.main idleWorld fuel with
  | none => rfl
  | some r =>
    rcases framesync_main_shape idleWorld fuel r.1 r.2 hm with
      ⟨hi, _⟩ | ⟨_, hf, _⟩ | ⟨_, _, wev, ws, hs, _⟩
    · cases hi
    · cases hf
    · rw [hw] at hs
      cases hs

end Divergence

section Lifecycle

theorem inert_acquires {l : List Event} (h : Inert l) : l.filterMap Event.acquires = [] := by
  rw [List.filterMap_eq_nil_iff]
  intro e he
  have := h e he
  cases e <;> simp_all [Event.isLifecycle, Event.acquires]

theorem inert_releases {l : List Event} (h : Inert l) : l.filterMap Event.releases = [] := by
  rw [List.filterMap_eq_nil_iff]
  intro e he
  have := h e he
  cases e <;> simp_all [Event.isLifecycle, Event.releases]

theorem inert_count {l : List Event} (h : Inert l) (d : Event) (hd : d.isLifecycle = true) :
    l.count d = 0 := by
  rw [List.count_eq_zero]
  intro hmem
  have := h d hmem
  rw [this] at hd
  cases hd

theorem inert_forbids (e : Event) (he : e.isLifecycle = false) (e1 : Event) :
    e.forbids e1 = false := by
  cases e <;> simp_all [Event.isLifecycle, Event.forbids]

theorem inert_releaseCall (e : Event) (he : e.isLifecycle = false) : e.releaseCall = none := by
  cases e <;> simp_all [Event.isLifecycle, Event.releaseCall]

theorem noUseAfterDestroy_append_inert {l : List Event} (h : Inert l) (r : List Event) :
    noUseAfterDestroy (l ++ r) = noUseAfterDestroy r := by
  induction l with
  | nil => rfl
  | cons e l ih =>
    have he : e.isLifecycle = false := h e (List.mem_cons_self _ _)
    have hl : Inert l := fun x hx => h x (List.mem_cons_of_mem _ hx)
    simp [noUseAfterDestroy, inert_forbids e he, ih hl]

theorem releasedExactlyOnce_append_inert {l : List Event} (h : Inert l) (r : List Event) :
    releasedExactlyOnce (l ++ r) = releasedExactlyOnce r := by
  induction l with
  | nil => rfl
  | cons e l ih =>
    have he : e.isLifecycle = false := h e (List.mem_cons_self _ _)
    have hl : Inert l := fun x hx => h x (List.mem_cons_of_mem _ hx)
    simp [releasedExactlyOnce, inert_releaseCall e he, ih hl]

theorem releasedInReverse_of_reverse (t : List Event)
    (h : releases t = (acquisitions t).reverse) : ReleasedInReverse t := by
  intro a b hab
  rw [h]
  simpa using hab.reverse

theorem releasedInReverse_of_short (t : List Event) (h : (acquisitions t).length ≤ 1) :
    ReleasedInReverse t := by
  intro a b hab
  have := hab.length_le
  simp at this
  omega

theorem find_lifecycle (w : World) (fuel : Nat) (code : Int) (t : List Event)
    (h : NDIlib_Find.main w fuel = some (code, t)) :
    releases t = (acquisitions t).reverse ∧ noUseAfterDestroy t = true ∧
      releasedExactlyOnce t = true := by
  rcases find_main_shape w fuel code t h with
    ⟨_, rfl, rfl⟩ | ⟨_, _, rfl, rfl⟩ | ⟨_, hf, rfl, evs, st, hw, rfl⟩
  · exact ⟨by decide, by decide, by decide⟩
  · exact ⟨by decide, by decide, by decide⟩
  · have hin := find_loop_inert _ _ _ _ _ _ hw
    refine ⟨?_, ?_, ?_⟩
    · simp [releases, acquisitions, List.filterMap_append, inert_acquires hin,
        inert_releases hin, Event.acquires, Event.releases, hf]
    · simp [noUseAfterDestroy, noUseAfterDestroy_append_inert hin, Event.forbids,
        Event.usesFinder, Event.readsSourceList, Event.isLibraryCall]
    · simp [releasedExactlyOnce, releasedExactlyOnce_append_inert hin, Event.releaseCall,
        List.count_append, inert_count hin, Event.isLifecycle, hf, List.count_cons]

theorem recv_lifecycle (w : World) (fuel : Nat) (code : Int) (t : List Event)
    (h : NDIlib_Recv.main w fuel = some (code, t)) :
    releases t = (acquisitions t).reverse ∧ noUseAfterDestroy t = true ∧
      releasedExactlyOnce t = true := by
  rcases recv_main_shape w fuel code t h with
    ⟨_, rfl, rfl⟩ | ⟨_, _, rfl, rfl⟩ | ⟨_, hf, wev, ws, hw, hrest⟩
  · exact ⟨by decide, by decide, by decide⟩
  · exact ⟨by decide, by decide, by decide⟩
  · have hin := recv_wait_inert _ _ _ _ _ hw
    rcases hrest with ⟨_, rfl, rfl⟩ | ⟨hr, rfl, cev, cs, hc, rfl⟩
    · refine ⟨?_, ?_, ?_⟩
      · simp [releases, acquisitions, List.filterMap_append, inert_acquires hin,
          inert_releases hin, Event.acquires, Event.releases, hf]
      · simp [noUseAfterDestroy, noUseAfterDestroy_append_inert hin, Event.forbids,
          Event.usesFinder, Event.readsSourceList, Event.isLibraryCall]
      · simp [releasedExactlyOnce, releasedExactlyOnce_append_inert hin, Event.releaseCall,
          List.count_append, inert_count hin, Event.isLifecycle, hf, List.count_cons]
    · have hin2 := recv_capture_inert _ _ _ _ _ _ hc
      refine ⟨?_, ?_, ?_⟩
      · simp [releases, acquisitions, List.filterMap_append, inert_acquires hin,
          inert_releases hin, inert_acquires hin2, inert_releases hin2, Event.acquires,
          Event.releases, hf, hr]
      · simp [noUseAfterDestroy, noUseAfterDestroy_append_inert hin,
          noUseAfterDestroy_append_inert hin2, Event.forbids, Event.usesFinder,
          Event.usesReceiver, Event.readsSourceList, Event.isLibraryCall]
      · simp [releasedExactlyOnce, releasedExactlyOnce_append_inert hin,
          releasedExactlyOnce_append_inert hin2, Event.releaseCall, List.count_append,
          inert_count hin, inert_count hin2, Event.isLifecycle, hf, hr, List.count_cons]

theorem framesync_lifecycle (w : World) (fuel : Nat) (code : Int) (t : List Event)
    (h : NDIlib_Recv_FrameSync.main w fuel = some (code, t)) :
    releases t = (acquisitions t).reverse ∧ noUseAfterDestroy t = true ∧
      releasedExactlyOnce t = true := by
  rcases framesync_main_shape w fuel code t h with
    ⟨_, rfl, rfl⟩ | ⟨_, _, rfl, rfl⟩ | ⟨_, hf, wev, ws, hw, hrest⟩
  · exact ⟨by decide, by decide, by decide⟩
  · exact ⟨by decide, by decide, by decide⟩
  · have hin := framesync_wait_inert _ _ _ _ _ hw
    rcases hrest with ⟨_, rfl, rfl⟩ | ⟨_, _, rfl, rfl⟩ | ⟨_, hr, _, rfl, rfl⟩ |
      ⟨_, hr, hs, rfl, cev, cs, hc, rfl⟩
    · refine ⟨?_, ?_, ?_⟩
      · simp [releases, acquisitions, List.filterMap_append, inert_acquires hin,
          inert_releases hin, Event.acquires, Event.releases, hf]
      · simp [noUseAfterDestroy, noUseAfterDestroy_append_inert hin, Event.forbids,
          Event.usesFinder, Event.readsSourceList, Event.isLibraryCall]
      · simp [releasedExactlyOnce, releasedExactlyOnce_append_inert hin, Event.releaseCall,
          List.count_append, inert_count hin, Event.isLifecycle, hf, List.count_cons]
    · refine ⟨?_, ?_, ?_⟩
      · simp [releases, acquisitions, List.filterMap_append, inert_acquires hin,
          inert_releases hin, Event.acquires, Event.releases, hf]
      · simp [noUseAfterDestroy, noUseAfterDestroy_append_inert hin, Event.forbids,
          Event.usesFinder, Event.readsSourceList, Event.isLibraryCall]
      · simp [releasedExactlyOnce, releasedExactlyOnce_append_inert hin, Event.releaseCall,
          List.count_append, inert_count hin, Event.isLifecycle, hf, List.count_cons]
    · refine ⟨?_, ?_, ?_⟩
      · simp [releases, acquisitions, List.filterMap_append, inert_acquires hin,
          inert_releases hin, Event.acquires, Event.releases, hf, hr]
      · simp [noUseAfterDestroy, noUseAfterDestroy_append_inert hin, Event.forbids,
          Event.usesFinder, Event.usesReceiver, Event.readsSourceList, Event.isLibraryCall]
      · simp [releasedExactlyOnce, releasedExactlyOnce_append_inert hin, Event.releaseCall,
          List.count_append, inert_count hin, Event.isLifecycle, hf, hr, List.count_cons]
    · have hin2 := framesync_loop_inert _ _ _ _ _ _ hc
      refine ⟨?_, ?_, ?_⟩
      · simp [releases, acquisitions, List.filterMap_append, inert_acquires hin,
          inert_releases hin, inert_acquires hin2, inert_releases hin2, Event.acquires,
          Event.releases, hf, hr, hs]
      · simp [noUseAfterDestroy, noUseAfterDestroy_append_inert hin,
          noUseAfterDestroy_append_inert hin2, Event.forbids, Event.usesFinder,
          Event.usesReceiver, Event.usesFrameSync, Event.readsSourceList,
          Event.isLibraryCall]
      · simp [releasedExactlyOnce, releasedExactlyOnce_append_inert hin,
          releasedExactlyOnce_append_inert hin2, Event.releaseCall, List.count_append,
          inert_count hin, inert_count hin2, Event.isLifecycle, hf, hr, hs, List.count_cons]

theorem recv16_lifecycle (w : World) (fuel : Nat) (code : Int) (t : List Event)
    (h : NDIlib_Recv_Audio_16bpp.main w fuel = some (code, t)) :
    releases t = (acquisitions t).reverse ∧ noUseAfterDestroy t = true ∧
      releasedExactlyOnce t = true := by
  rcases recv16_main_shape w fuel code t h with
    ⟨_, rfl, rfl⟩ | ⟨_, _, rfl, rfl⟩ | ⟨_, hf, wev, ws, hw, hrest⟩
  · exact ⟨by decide, by decide, by decide⟩
  · exact ⟨by decide, by decide, by decide⟩
  · have hin := recv16_wait_inert _ _ _ _ _ hw
    rcases hrest with ⟨_, rfl, rfl⟩ | ⟨_, _, rfl, rfl⟩ | ⟨_, hr, cev, res, hc, hres⟩
    · refine ⟨?_, ?_, ?_⟩
      · simp [releases, acquisitions, List.filterMap_append, inert_acquires hin,
          inert_releases hin, Event.acquires, Event.releases, hf]
      · simp [noUseAfterDestroy, noUseAfterDestroy_append_inert hin, Event.forbids,
          Event.usesFinder, Event.readsSourceList, Event.isLibraryCall]
      · simp [releasedExactlyOnce, releasedExactlyOnce_append_inert hin, Event.releaseCall,
          List.count_append, inert_count hin, Event.isLifecycle, hf, List.count_cons]
    · refine ⟨?_, ?_, ?_⟩
      · simp [releases, acquisitions, List.filterMap_append, inert_acquires hin,
          inert_releases hin, Event.acquires, Event.releases, hf]
      · simp [noUseAfterDestroy, noUseAfterDestroy_append_inert hin, Event.forbids,
          Event.usesFinder, Event.readsSourceList, Event.isLibraryCall]
      · simp [releasedExactlyOnce, releasedExactlyOnce_append_inert hin, Event.releaseCall,
          List.count_append, inert_count hin, Event.isLifecycle, hf, List.count_cons]
    · have hin2 := recv16_capture_inert _ _ _ _ _ _ hc
      rcases hres with ⟨_, rfl, rfl⟩ | ⟨msg, _, rfl, rfl⟩
      · refine ⟨?_, ?_, ?_⟩
        · simp [releases, acquisitions, List.filterMap_append, inert_acquires hin,
            inert_releases hin, inert_acquires hin2, inert_releases hin2, Event.acquires,
            Event.releases, hf, hr]
        · simp [noUseAfterDestroy, noUseAfterDestroy_append_inert hin,
            noUseAfterDestroy_append_inert hin2, Event.forbids, Event.usesFinder,
            Event.usesReceiver, Event.readsSourceList, Event.isLibraryCall]
        · simp [releasedExactlyOnce, releasedExactlyOnce_append_inert hin,
            releasedExactlyOnce_append_inert hin2, Event.releaseCall, List.count_append,
            inert_count hin, inert_count hin2, Event.isLifecycle, hf, hr, List.count_cons]
      · refine ⟨?_, ?_, ?_⟩
        · simp [releases, acquisitions, List.filterMap_append, inert_acquires hin,
            inert_releases hin, inert_acquires hin2, inert_releases hin2, Event.acquires,
            Event.releases, hf, hr]
        · simp [noUseAfterDestroy, noUseAfterDestroy_append_inert hin,
            noUseAfterDestroy_append_inert hin2, Event.forbids, Event.usesFinder,
            Event.usesReceiver, Event.readsSourceList, Event.isLibraryCall]
        · simp [releasedExactlyOnce, releasedExactlyOnce_append_inert hin,
            releasedExactlyOnce_append_inert hin2, Event.releaseCall, List.count_append,
            inert_count hin, inert_count hin2, Event.isLifecycle, hf, hr, List.count_cons]

theorem send_lifecycle (w : World) (fuel : Nat) (code : Int) (t : List Event)
    (h : NDIlib_Send_Audio.main w fuel = some (code, t)) :
    (releases t = (acquisitions t).reverse ∨ (acquisitions t).length ≤ 1) ∧
      noUseAfterDestroy t = true ∧
      ((w.lib_init = false ∨ w.send_create ≠ 0) → releasedExactlyOnce t = true) := by
  rcases send_main_shape w fuel code t h with
    ⟨hi, rfl, rfl⟩ | ⟨hi, hs, rfl, rfl⟩ | ⟨_, hf, rfl, evs, st, hw, rfl⟩
  · exact ⟨Or.inl (by decide), by decide, fun _ => by decide⟩
  · refine ⟨Or.inr (by decide), by decide, ?_⟩
    rintro (h1 | h1)
    · rw [hi] at h1; cases h1
    · exact absurd hs h1
  · have hin := send_loop_inert _ _ _ _ _ hw
    refine ⟨Or.inl ?_, ?_, fun _ => ?_⟩
    · simp [releases, acquisitions, List.filterMap_append, inert_acquires hin,
        inert_releases hin, Event.acquires, Event.releases, hf]
    · simp [noUseAfterDestroy, noUseAfterDestroy_append_inert hin, Event.forbids,
        Event.usesSender, Event.readsSourceList, Event.isLibraryCall]
    · simp [releasedExactlyOnce, releasedExactlyOnce_append_inert hin, Event.releaseCall,
        List.count_append, inert_count hin, Event.isLifecycle, hf, List.count_cons]

end Lifecycle

section Frames

theorem freesBeforeNext_cons_of_not_end (e : Event) (l : List Event)
    (he : e.endsFrame = false) :
    freesBeforeNext (e :: l) = (if e.isFree then [e] else []) ++ freesBeforeNext l := by
  unfold freesBeforeNext
  rw [List.takeWhile_cons]
  simp only [he, Bool.not_false, ↓reduceIte, List.filter_cons]
  split <;> simp

theorem freesBeforeNext_cons_of_end (e : Event) (l : List Event) (he : e.endsFrame = true) :
    freesBeforeNext (e :: l) = [] := by
  unfold freesBeforeNext
  rw [List.takeWhile_cons]
  simp [he]

theorem framesFreed_cons_of_not_end (e : Event) (l : List Event) (he : e.endsFrame = false) :
    framesFreed (e :: l) = framesFreed l := by
  cases e <;> simp_all [framesFreed, Event.endsFrame]

/-- An event that is neither a free call nor the end of a frame changes nothing. -/
theorem framesSettled_cons (e : Event) (l : List Event) (he : e.endsFrame = false)
    (hf : e.isFree = false) (h : FramesSettled l) : FramesSettled (e :: l) := by
  obtain ⟨h1, h2, h3⟩ := h
  refine ⟨?_, ?_, ?_⟩
  · rw [freesBeforeNext_cons_of_not_end e l he, hf, h1]
    rfl
  · simp [h2]
  · rw [framesFreed_cons_of_not_end e l he, h3]

theorem framesSettled_append (a l : List Event)
    (ha : ∀ e ∈ a, e.endsFrame = false ∧ e.isFree = false) (h : FramesSettled l) :
    FramesSettled (a ++ l) := by
  induction a with
  | nil => exact h
  | cons e a ih =>
    have he := ha e (List.mem_cons_self _ _)
    exact framesSettled_cons e _ he.1 he.2 (ih (fun x hx => ha x (List.mem_cons_of_mem _ hx)))

/-- The trace from the destruction of the receiver on. -/
theorem framesSettled_destroy (h : Handle) (l : List Event)
    (hl : ∀ e ∈ l, e.endsFrame = false) : FramesSettled (Event.NDIlib_recv_destroy h :: l) := by
  refine ⟨freesBeforeNext_cons_of_end _ _ rfl, by simp [Event.endsFrame], ?_⟩
  have : framesFreed l = true := by
    induction l with
    | nil => rfl
    | cons e l ih =>
      rw [framesFreed_cons_of_not_end e l (hl e (List.mem_cons_self _ _))]
      exact ih (fun x hx => hl x (List.mem_cons_of_mem _ hx))
  simp [framesFreed, this]

/-- One pass of the capture loop of `NDIlib_Recv`. -/
theorem recv_iteration_settled (w : World) (h : Handle) (start : Int) (s : CaptureState)
    (l : List Event) (hl : FramesSettled l) :
    FramesSettled ((NDIlib_Recv.captureCond w start s).1 ++
      (NDIlib_Recv.captureBody w h (NDIlib_Recv.captureCond w start s).2.2).1 ++ l) := by
  obtain ⟨h1, h2, h3⟩ := hl
  simp only [NDIlib_Recv.captureCond, NDIlib_Recv.captureBody, List.singleton_append,
    List.cons_append]
  refine framesSettled_cons _ _ rfl rfl ?_
  cases w.recv_capture_v2 s.captures <;>
    simp [FramesSettled, NDIlib_Recv.handleFrame, framesFreed, framesToFree,
      freesBeforeNext_cons_of_not_end, freesBeforeNext_cons_of_end, Event.endsFrame,
      Event.isFree, h1, h2, h3]

/-- One pass of the capture loop of `NDIlib_Recv_Audio_16bpp` that does not throw. -/
theorem recv16_iteration_settled (w : World) (h : Handle) (start : Int) (s s2 : CaptureState)
    (hb : (NDIlib_Recv_Audio_16bpp.captureBody w h
      (NDIlib_Recv_Audio_16bpp.captureCond w start s).2.2).2 = .ok s2)
    (l : List Event) (hl : FramesSettled l) :
    FramesSettled ((NDIlib_Recv_Audio_16bpp.captureCond w start s).1 ++
      (NDIlib_Recv_Audio_16bpp.captureBody w h
        (NDIlib_Recv_Audio_16bpp.captureCond w start s).2.2).1 ++ l) := by
  obtain ⟨h1, h2, h3⟩ := hl
  have key : FramesSettled ((NDIlib_Recv_Audio_16bpp.captureBody w h
      (NDIlib_Recv_Audio_16bpp.captureCond w start s).2.2).1 ++ l) := by
    have hcap : (NDIlib_Recv_Audio_16bpp.captureCond w start s).2.2.captures = s.captures := by
      unfold NDIlib_Recv_Audio_16bpp.captureCond
      split <;> rfl
    simp only [NDIlib_Recv_Audio_16bpp.captureBody, hcap, List.cons_append] at hb ⊢
    cases hfr : w.recv_capture_v2 s.captures with
    | audio no_samples no_channels =>
      by_cases hneg : toInt32 (no_samples * no_channels) < 0
      · simp [hfr, NDIlib_Recv_Audio_16bpp.handleFrame, hneg] at hb
      · simp [FramesSettled, NDIlib_Recv_Audio_16bpp.handleFrame, hneg, framesFreed,
          framesToFree, freesBeforeNext_cons_of_not_end, freesBeforeNext_cons_of_end,
          Event.endsFrame, Event.isFree, h1, h2, h3]
    | _ =>
      simp [FramesSettled, NDIlib_Recv_Audio_16bpp.handleFrame, framesFreed, framesToFree,
        freesBeforeNext_cons_of_not_end, freesBeforeNext_cons_of_end, Event.endsFrame,
        Event.isFree, h1, h2, h3]
  rw [List.append_assoc]
  apply framesSettled_append _ _ _ key
  intro e he
  unfold NDIlib_Recv_Audio_16bpp.captureCond at he
  split at he <;> simp at he
  · subst he; exact ⟨rfl, rfl⟩
  · rcases he with rfl | rfl <;> exact ⟨rfl, rfl⟩

theorem recv_loop_settled (w : World) (h : Handle) (start : Int) (l : List Event)
    (hl : FramesSettled l) (n : Nat) (s : CaptureState) :
    FramesSettled (loopEvents (NDIlib_Recv.captureCond w start) (NDIlib_Recv.captureBody w h)
      n s ++ l) := by
  induction n generalizing s with
  | zero => exact hl
  | succ n ih =>
    rw [loopEvents, List.append_assoc]
    exact recv_iteration_settled w h start s _ (ih _)

/-- A capture loop of the 16-bit example that ended without an exception. -/
theorem recv16_loop_settled (w : World) (h : Handle) (start : Int) (l : List Event)
    (hl : FramesSettled l) (fuel : Nat) (s : CaptureState)
    (r : List Event × Except String CaptureState)
    (hr : whileLoopE (NDIlib_Recv_Audio_16bpp.captureCond w start)
      (NDIlib_Recv_Audio_16bpp.captureBody w h) fuel s = some r) :
    ∀ cs, r.2 = .ok cs → FramesSettled (r.1 ++ l) := by
  refine whileLoopE_induction _ _
    (fun ev res => ∀ cs, res = .ok cs → FramesSettled (ev ++ l)) ?_ ?_ ?_ fuel s r hr
  · intro s _ cs _
    apply framesSettled_append _ _ _ hl
    intro e he
    unfold NDIlib_Recv_Audio_16bpp.captureCond at he
    split at he <;> simp at he
    · subst he; exact ⟨rfl, rfl⟩
    · rcases he with rfl | rfl <;> exact ⟨rfl, rfl⟩
  · intro s msg _ _ cs hcs
    cases hcs
  · intro s s2 ev res _ hb ih cs hcs
    rw [List.append_assoc]
    exact recv16_iteration_settled w h start s s2 hb _ (ih cs hcs)

theorem quiet_framesFreed (l : List Event) (h : Quiet l) :
    framesFreed l = true ∧ freesBeforeNext l = [] ∧ l.any Event.isCapture = false := by
  induction l with
  | nil => exact ⟨rfl, rfl, rfl⟩
  | cons e l ih =>
    have he := h e (List.mem_cons_self _ _)
    obtain ⟨h1, h2, h3⟩ := ih (fun x hx => h x (List.mem_cons_of_mem _ hx))
    refine ⟨?_, ?_, ?_⟩
    · rw [framesFreed_cons_of_not_end e l he.1, h1]
    · rw [freesBeforeNext_cons_of_not_end e l he.1, he.2, h2]
      rfl
    · have hc : e.isCapture = false := by
        have := he.1
        cases e <;> simp_all [Event.isCapture, Event.endsFrame]
      simp [hc, h3]

theorem recv_wait_quiet (w : World) (h : Handle) (fuel : Nat)
    (s : WaitState) (r : List Event × WaitState)
    (hr : whileLoop NDIlib_Recv.waitCond (NDIlib_Recv.waitBody w h) fuel s = some r) :
    Quiet r.1 := by
  refine whileLoop_forall _ _ (fun e => e.endsFrame = false ∧ e.isFree = false) ?_ ?_
    fuel s r hr
  · intro s e he
    simp [NDIlib_Recv.waitCond] at he
  · intro s e he
    simp [NDIlib_Recv.waitBody] at he
    rcases he with rfl | rfl | rfl <;> exact ⟨rfl, rfl⟩

theorem recv16_wait_quiet (w : World) (h : Handle) (fuel : Nat)
    (s : WaitState) (r : List Event × WaitState)
    (hr : whileLoop (NDIlib_Recv_Audio_16bpp.waitCond w)
      (NDIlib_Recv_Audio_16bpp.waitBody w h) fuel s = some r) : Quiet r.1 := by
  refine whileLoop_forall _ _ (fun e => e.endsFrame = false ∧ e.isFree = false) ?_ ?_
    fuel s r hr
  · intro s e he
    unfold NDIlib_Recv_Audio_16bpp.waitCond at he
    split at he <;> simp at he <;> subst he <;> exact ⟨rfl, rfl⟩
  · intro s e he
    simp [NDIlib_Recv_Audio_16bpp.waitBody] at he
    rcases he with rfl | rfl | rfl <;> exact ⟨rfl, rfl⟩

theorem quiet_append {a b : List Event} (ha : Quiet a) (hb : Quiet b) : Quiet (a ++ b) := by
  intro e he
  rcases List.mem_append.mp he with h | h
  · exact ha e h
  · exact hb e h

theorem recv_frames (w : World) (fuel : Nat) (code : Int) (t : List Event)
    (h : NDIlib_Recv.main w fuel = some (code, t)) :
    framesFreed t = true ∧ freesBeforeNext t = [] ∧
      (t.any Event.isCapture = true → code = 0) := by
  rcases recv_main_shape w fuel code t h with
    ⟨_, rfl, rfl⟩ | ⟨_, _, rfl, rfl⟩ | ⟨_, hf, wev, ws, hw, hrest⟩
  · exact ⟨by decide, by decide, by decide⟩
  · exact ⟨by decide, by decide, by decide⟩
  · have hq := recv_wait_quiet _ _ _ _ _ hw
    rcases hrest with ⟨_, rfl, rfl⟩ | ⟨hr, rfl, cev, cs, hc, rfl⟩
    · have hquiet : Quiet ([Event.NDIlib_init true,
          Event.NDIlib_find_create_v2 w.find_create_v2] ++ wev ++
          [Event.NDIlib_recv_create_v3 none 0, Event.NDIlib_find_destroy w.find_create_v2,
            Event.NDIlib_destroy, Event.err "Error: Failed to create NDI receiver\n"]) := by
        refine quiet_append (quiet_append ?_ hq) ?_ <;>
        · intro e he
          simp at he
          rcases he with rfl | rfl | rfl | rfl <;> exact ⟨rfl, rfl⟩
      obtain ⟨h1, h2, h3⟩ := quiet_framesFreed _ hquiet
      exact ⟨h1, h2, fun hc => by rw [h3] at hc; cases hc⟩
    · obtain ⟨n, _, _, _, hcev⟩ := whileLoop_eq_some _ _ _ _ _ hc
      simp only [Prod.mk.injEq] at hcev
      obtain ⟨rfl, _⟩ := hcev
      have hset : FramesSettled ([Event.NDIlib_init true,
          Event.NDIlib_find_create_v2 w.find_create_v2] ++ wev ++
          [Event.NDIlib_recv_create_v3 none w.recv_create_v3,
            Event.NDIlib_recv_connect w.recv_create_v3 ws.current.p_sources,
            Event.clock_now (w.now 0)] ++
          (loopEvents (NDIlib_Recv.captureCond w (w.now 0))
            (NDIlib_Recv.captureBody w w.recv_create_v3) n ⟨1, 0, 0⟩ ++
            (NDIlib_Recv.captureCond w (w.now 0)
              (loopState (NDIlib_Recv.captureCond w (w.now 0))
                (NDIlib_Recv.captureBody w w.recv_create_v3) n ⟨1, 0, 0⟩)).1) ++
          [Event.NDIlib_recv_destroy w.recv_create_v3,
            Event.NDIlib_find_destroy w.find_create_v2, Event.NDIlib_destroy]) := by
        rw [List.append_assoc]
        apply framesSettled_append
        · refine quiet_append (quiet_append ?_ hq) ?_
          · intro e he
            simp at he
            rcases he with rfl | rfl <;> exact ⟨rfl, rfl⟩
          · intro e he
            simp at he
            rcases he with rfl | rfl | rfl <;> exact ⟨rfl, rfl⟩
        · rw [List.append_assoc]
          apply recv_loop_settled
          apply framesSettled_append
          · intro e he
            simp [NDIlib_Recv.captureCond] at he
            subst he
            exact ⟨rfl, rfl⟩
          · apply framesSettled_destroy
            intro e he
            simp at he
            rcases he with rfl | rfl <;> rfl
      exact ⟨hset.2.2, hset.1, fun _ => rfl⟩

theorem recv16_frames (w : World) (fuel : Nat) (code : Int) (t : List Event)
    (h : NDIlib_Recv_Audio_16bpp.main w fuel = some (code, t))
    (hthrow : failedAlloc t = false) :
    framesFreed t = true ∧ freesBeforeNext t = [] ∧
      (t.any Event.isCapture = true → code = 0) := by
  rcases recv16_main_shape w fuel code t h with
    ⟨_, rfl, rfl⟩ | ⟨_, _, rfl, rfl⟩ | ⟨_, hf, wev, ws, hw, hrest⟩
  · exact ⟨by decide, by decide, by decide⟩
  · exact ⟨by decide, by decide, by decide⟩
  · have hq := recv16_wait_quiet _ _ _ _ _ hw
    rcases hrest with ⟨_, rfl, rfl⟩ | ⟨_, _, rfl, rfl⟩ | ⟨_, hr, cev, res, hc, hres⟩
    · exact ⟨(quiet_framesFreed _ (quiet_append (quiet_append (by
          intro e he
          simp at he
          rcases he with rfl | rfl | rfl <;> exact ⟨rfl, rfl⟩) hq) (by
          intro e he
          simp at he
          rcases he with rfl | rfl | rfl <;> exact ⟨rfl, rfl⟩))).1,
        (quiet_framesFreed _ (quiet_append (quiet_append (by
          intro e he
          simp at he
          rcases he with rfl | rfl | rfl <;> exact ⟨rfl, rfl⟩) hq) (by
          intro e he
          simp at he
          rcases he with rfl | rfl | rfl <;> exact ⟨rfl, rfl⟩))).2.1, fun _ => rfl⟩
    · have hquiet : Quiet ([Event.NDIlib_init true, Event.signal_sigint,
          Event.NDIlib_find_create_v2 w.find_create_v2] ++ wev ++
          [Event.read_source ws.current.p_sources 0 ws.current.no_sources,
            Event.NDIlib_recv_create_v3 ws.current.sources.head? 0,
            Event.NDIlib_find_destroy w.find_create_v2, Event.NDIlib_destroy,
            Event.err "Error: Failed to create NDI receiver\n"]) := by
        refine quiet_append (quiet_append ?_ hq) ?_
        · intro e he
          simp at he
          rcases he with rfl | rfl | rfl <;> exact ⟨rfl, rfl⟩
        · intro e he
          simp at he
          rcases he with rfl | rfl | rfl | rfl | rfl <;> exact ⟨rfl, rfl⟩
      obtain ⟨h1, h2, h3⟩ := quiet_framesFreed _ hquiet
      exact ⟨h1, h2, fun hc => by rw [h3] at hc; cases hc⟩
    · rcases hres with ⟨⟨cs, rfl⟩, rfl, rfl⟩ | ⟨msg, rfl, _, rfl⟩
      · have hset : FramesSettled ([Event.NDIlib_init true, Event.signal_sigint,
            Event.NDIlib_find_create_v2 w.find_create_v2] ++ wev ++
            [Event.read_source ws.current.p_sources 0 ws.current.no_sources,
              Event.NDIlib_recv_create_v3 ws.current.sources.head? w.recv_create_v3,
              Event.clock_now (w.now 0)] ++ cev ++
            [Event.NDIlib_recv_destroy w.recv_create_v3,
              Event.NDIlib_find_destroy w.find_create_v2, Event.NDIlib_destroy]) := by
          rw [List.append_assoc]
          apply framesSettled_append
          · refine quiet_append (quiet_append ?_ hq) ?_
            · intro e he
              simp at he
              rcases he with rfl | rfl | rfl <;> exact ⟨rfl, rfl⟩
            · intro e he
              simp at he
              rcases he with rfl | rfl | rfl <;> exact ⟨rfl, rfl⟩
          · apply recv16_loop_settled w _ _ _ ?_ fuel _ _ hc cs rfl
            apply framesSettled_destroy
            intro e he
            simp at he
            rcases he with rfl | rfl <;> rfl
        exact ⟨hset.2.2, hset.1, fun _ => rfl⟩
      · have hth := (recv16_capture_result _ _ _ _ _ _ hc).2 msg rfl
        simp only [failedAlloc, List.any_append, hth, Bool.or_true, Bool.true_or] at hthrow
        cases hthrow

end Frames

section Silence

/-- With a stride of `4 * n` bytes and a channel offset that fits in an `int`, sample `j` of
channel `ch` is float `ch * n + j`. -/
theorem floatIndex_eq (n ch j : Nat) (hfit : (ch : Int) * ((n : Int) * 4) ≤ INT_MAX) :
    NDIlib_Send_Audio.floatIndex ((n : Int) * 4) ch j = ((ch * n + j : Nat) : Int) := by
  unfold NDIlib_Send_Audio.floatIndex
  have hnn : (0 : Int) ≤ (ch : Int) * ((n : Int) * 4) :=
    Int.mul_nonneg (Int.ofNat_nonneg _) (Int.mul_nonneg (Int.ofNat_nonneg _) (by decide))
  rw [toInt32_of_fits _ (by omega) hfit]
  have h : (ch : Int) * ((n : Int) * 4) + 4 * (j : Int) = 4 * (((ch * n + j : Nat)) : Int) := by
    push_cast
    ring
  rw [h, Int.mul_ediv_cancel_left _ (by decide : (4 : Int) ≠ 0)]

theorem floatIndex_planar (n ch j : Nat) (hfit : (ch : Int) * ((n : Int) * 4) ≤ INT_MAX) :
    (NDIlib_Send_Audio.floatIndex ((n : Int) * 4) ch j).toNat = ch * n + j := by
  rw [floatIndex_eq n ch j hfit]
  exact Int.toNat_ofNat _

theorem fillChannel_length (n : Nat) (ch : Nat) (m : Nat) (buf : List Float32) :
    ((List.range m).foldl (NDIlib_Send_Audio.storeSilence ((n : Int) * 4) ch) buf).length
      = buf.length := by
  induction m with
  | zero => rfl
  | succ m ih =>
    rw [List.range_succ, List.foldl_append]
    simp [NDIlib_Send_Audio.storeSilence, ih]

/-- The inner loop, after `m` samples of channel `ch`: the floats `ch * n + j` with `j < m`
are zero and all others are as before. -/
theorem fillChannel_prefix (n : Nat) (ch : Nat) (m : Nat) (buf : List Float32) (i : Nat)
    (hfit : (ch : Int) * ((n : Int) * 4) ≤ INT_MAX) :
    ((List.range m).foldl (NDIlib_Send_Audio.storeSilence ((n : Int) * 4) ch) buf)[i]?
      = if ch * n ≤ i ∧ i < ch * n + m ∧ i < buf.length then some 0 else buf[i]? := by
  induction m with
  | zero =>
    have : ¬ (ch * n ≤ i ∧ i < ch * n + 0 ∧ i < buf.length) := by omega
    rw [if_neg this]
    rfl
  | succ m ih =>
    rw [List.range_succ, List.foldl_append]
    simp only [List.foldl_cons, List.foldl_nil, NDIlib_Send_Audio.storeSilence,
      floatIndex_planar n ch _ hfit, List.getElem?_set, fillChannel_length]
    by_cases hi : ch * n + m = i
    · subst hi
      by_cases hlen : ch * n + m < buf.length
      · have : ch * n ≤ ch * n + m ∧ ch * n + m < ch * n + (m + 1) ∧
            ch * n + m < buf.length := ⟨by omega, by omega, hlen⟩
        simp [hlen, this]
      · have : ¬ (ch * n ≤ ch * n + m ∧ ch * n + m < ch * n + (m + 1) ∧
            ch * n + m < buf.length) := fun h => hlen h.2.2
        have hle : buf.length ≤ ch * n + m := by omega
        rw [if_neg hlen, if_neg this, if_pos rfl]
        exact (List.getElem?_eq_none hle).symm
    · simp only [hi, ↓reduceIte, ih]
      by_cases hc : ch * n ≤ i ∧ i < ch * n + m ∧ i < buf.length
      · have : ch * n ≤ i ∧ i < ch * n + (m + 1) ∧ i < buf.length :=
          ⟨hc.1, by omega, hc.2.2⟩
        simp [hc, this]
      · have : ¬ (ch * n ≤ i ∧ i < ch * n + (m + 1) ∧ i < buf.length) := by
          intro h
          apply hc
          exact ⟨h.1, by omega, h.2.2⟩
        simp [hc, this]

theorem fillChannels_length (n : Nat) (c : Nat) (buf : List Float32) :
    ((List.range c).foldl (NDIlib_Send_Audio.fillChannel ((n : Int) * 4) (n : Int)) buf).length
      = buf.length := by
  induction c with
  | zero => rfl
  | succ c ih =>
    rw [List.range_succ, List.foldl_append]
    simp only [List.foldl_cons, List.foldl_nil, NDIlib_Send_Audio.fillChannel,
      Int.toNat_ofNat, fillChannel_length, ih]

/-- The outer loop, after `c` channels: the first `c * n` floats are zero. -/
theorem fillChannels_prefix (n : Nat) (c : Nat) (buf : List Float32) (i : Nat)
    (hfit : ∀ ch : Nat, ch < c → (ch : Int) * ((n : Int) * 4) ≤ INT_MAX) :
    ((List.range c).foldl (NDIlib_Send_Audio.fillChannel ((n : Int) * 4) (n : Int)) buf)[i]?
      = if i < c * n ∧ i < buf.length then some 0 else buf[i]? := by
  induction c with
  | zero =>
    have : ¬ (i < 0 * n ∧ i < buf.length) := by omega
    rw [if_neg this]
    rfl
  | succ c ih =>
    rw [List.range_succ, List.foldl_append]
    simp only [List.foldl_cons, List.foldl_nil, NDIlib_Send_Audio.fillChannel,
      Int.toNat_ofNat, fillChannel_prefix n c n _ i (hfit c (Nat.lt_succ_self c)),
      fillChannels_length, ih (fun ch hch => hfit ch (Nat.lt_succ_of_lt hch))]
    have hmul : (c + 1) * n = c * n + n := Nat.succ_mul c n
    rw [hmul]
    by_cases h1 : c * n ≤ i ∧ i < c * n + n ∧ i < buf.length
    · have : i < c * n + n ∧ i < buf.length := ⟨h1.2.1, h1.2.2⟩
      simp [h1, this]
    · simp only [h1, ↓reduceIte]
      by_cases h2 : i < c * n ∧ i < buf.length
      · have : i < c * n + n ∧ i < buf.length := ⟨by omega, h2.2⟩
        simp [h2, this]
      · have : ¬ (i < c * n + n ∧ i < buf.length) := by
          intro h
          by_cases h3 : c * n ≤ i
          · exact h1 ⟨h3, h.1, h.2⟩
          · exact h2 ⟨by omega, h.2⟩
        simp [h2, this]

/-- The fill loop silences the whole buffer of a planar frame, whatever it held before. -/
theorem fillSilence_silent (c n : Nat) (fr : NDIlib_audio_frame_v2_t)
    (hc : fr.no_channels = c) (hn : fr.no_samples = n)
    (hs : fr.channel_stride_in_bytes = (n : Int) * 4) (hl : fr.p_data.length = c * n)
    (hfit : ∀ ch : Nat, ch < c → (ch : Int) * ((n : Int) * 4) ≤ INT_MAX) :
    (NDIlib_Send_Audio.fillSilence fr).p_data = List.replicate (c * n) 0 := by
  apply List.ext_getElem?
  intro i
  simp only [NDIlib_Send_Audio.fillSilence, hc, hn, hs, Int.toNat_ofNat,
    fillChannels_prefix n c _ i hfit, List.getElem?_replicate, hl]
  by_cases hi : i < c * n
  · simp [hi]
  · simp only [hi, and_self, ↓reduceIte]
    have hle : fr.p_data.length ≤ i := by omega
    exact List.getElem?_eq_none hle

/-- The frame of `main` is left as it is by the fill loop: it is silent from the start. -/
theorem fillSilence_frame :
    NDIlib_Send_Audio.fillSilence (NDIlib_Send_Audio.NDIAudioFrame.frame 4 1920 48000)
      = NDIlib_Send_Audio.NDIAudioFrame.frame 4 1920 48000 := by
  have hk : (toInt32 ((1920 : Int) * 4)).toNat = 4 * 1920 := by
    rw [toInt32_of_fits _ (by decide) (by decide)]
    rfl
  have hp : (NDIlib_Send_Audio.NDIAudioFrame.frame 4 1920 48000).p_data
      = List.replicate (4 * 1920) 0 :=
    congrArg (fun k => List.replicate k (0 : Float32)) hk
  have hfit : ∀ ch : Nat, ch < 4 → (ch : Int) * (((1920 : Nat) : Int) * 4) ≤ INT_MAX := by
    intro ch hch
    unfold INT_MAX
    push_cast
    omega
  have h := fillSilence_silent 4 1920 (NDIlib_Send_Audio.NDIAudioFrame.frame 4 1920 48000)
    rfl rfl (toInt32_of_fits _ (by decide) (by decide)) (by rw [hp, List.length_replicate])
    hfit
  rw [← hp] at h
  unfold NDIlib_Send_Audio.fillSilence at h ⊢
  simp only at h ⊢
  rw [h]

end Silence

section SendLoop

theorem sendCond_value (w : World) (s : NDIlib_Send_Audio.SendState) :
    (NDIlib_Send_Audio.sendCond w s).2.1
      = (!w.exit_loop s.flag_reads && decide (s.idx < 1000)) := by
  unfold NDIlib_Send_Audio.sendCond
  split <;> simp_all

theorem sendCond_events (w : World) (s : NDIlib_Send_Audio.SendState) :
    (NDIlib_Send_Audio.sendCond w s).1 = [Event.read_exit_loop (w.exit_loop s.flag_reads)] := by
  unfold NDIlib_Send_Audio.sendCond
  split <;> simp_all

theorem sendCond_state (w : World) (s : NDIlib_Send_Audio.SendState) :
    (NDIlib_Send_Audio.sendCond w s).2.2 = { s with flag_reads := s.flag_reads + 1 } := by
  unfold NDIlib_Send_Audio.sendCond
  split <;> rfl

/-- The state of the send loop at its `i`-th check. -/
theorem send_loopState (w : World) (h : Handle) (i k : Nat) :
    loopState (NDIlib_Send_Audio.sendCond w) (NDIlib_Send_Audio.sendBody h) i
        ⟨k, k, NDIlib_Send_Audio.NDIAudioFrame.frame 4 1920 48000⟩
      = ⟨k + i, k + i, NDIlib_Send_Audio.NDIAudioFrame.frame 4 1920 48000⟩ := by
  induction i generalizing k with
  | zero => rfl
  | succ i ih =>
    rw [loopState, sendCond_state]
    simp only [NDIlib_Send_Audio.sendBody, fillSilence_frame]
    rw [ih (k + 1)]
    simp [Nat.add_assoc, Nat.add_comm 1 i]

/-- The events of the first `n` passes of the send loop, when the flag is clear at each of
their checks. -/
theorem send_loopEvents (w : World) (h : Handle) (n k : Nat)
    (hclear : ∀ i, i < n → w.exit_loop (k + i) = false) :
    loopEvents (NDIlib_Send_Audio.sendCond w) (NDIlib_Send_Audio.sendBody h) n
        ⟨k, k, NDIlib_Send_Audio.NDIAudioFrame.frame 4 1920 48000⟩
      = sendPasses h (NDIlib_Send_Audio.NDIAudioFrame.frame 4 1920 48000) n k := by
  induction n generalizing k with
  | zero => rfl
  | succ n ih =>
    have h0 : w.exit_loop k = false := by simpa using hclear 0 (Nat.succ_pos _)
    rw [loopEvents, sendCond_events, sendCond_state]
    simp only [NDIlib_Send_Audio.sendBody, fillSilence_frame, h0, sendPasses, frameLine]
    rw [ih (k + 1) (fun i hi => by
      have := hclear (i + 1) (by omega)
      rwa [show k + 1 + i = k + (i + 1) by omega])]
    rfl

/-- A returned run of the send example whose sender was created: some number `n` of frames
was sent, at most 1000, the flag was clear at the checks before each of them, and the loop
ended at check `n`. -/
theorem send_run (w : World) (fuel : Nat) (code : Int) (t : List Event)
    (h : NDIlib_Send_Audio.main w fuel = some (code, t))
    (hinit : w.lib_init = true) (hcreate : w.send_create ≠ 0) :
    ∃ n, n ≤ 1000 ∧ (∀ i, i < n → w.exit_loop i = false) ∧
      (n < 1000 → w.exit_loop n = true) ∧ code = 0 ∧
      t = sendTrace w.send_create n (w.exit_loop n) := by
  rcases send_main_shape w fuel code t h with
    ⟨hi, _⟩ | ⟨_, hs, _⟩ | ⟨_, _, rfl, evs, st, hw, rfl⟩
  · rw [hinit] at hi; cases hi
  · exact absurd hs hcreate
  · obtain ⟨n, _, hall, hstop, hr⟩ := whileLoop_eq_some _ _ _ _ _ hw
    simp only [send_loopState, sendCond_value, Nat.zero_add, Bool.and_eq_true,
      Bool.not_eq_true', decide_eq_true_eq] at hall
    simp only [send_loopState, sendCond_value, Nat.zero_add, Bool.and_eq_false_iff,
      Bool.not_eq_false', decide_eq_false_iff_not] at hstop
    have hclear : ∀ i, i < n → w.exit_loop i = false := fun i hi => (hall i hi).1
    have hn : n ≤ 1000 := by
      cases n with
      | zero => omega
      | succ m =>
        have := (hall m (Nat.lt_succ_self m)).2
        omega
    refine ⟨n, hn, hclear, ?_, rfl, ?_⟩
    · intro hlt
      rcases hstop with h1 | h1
      · exact h1
      · omega
    · simp only [Prod.mk.injEq] at hr
      obtain ⟨rfl, _⟩ := hr
      rw [send_loopEvents w w.send_create n 0 (fun i hi => by simpa using hclear i hi),
        sendCond_events, send_loopState]
      simp [sendTrace]

theorem sentFrames_sendPasses (h : Handle) (fr : NDIlib_audio_frame_v2_t) (n k : Nat) :
    sentFrames (sendPasses h fr n k) = List.replicate n fr := by
  induction n generalizing k with
  | zero => rfl
  | succ n ih =>
    have := ih (k + 1)
    simp only [sentFrames] at this
    simp [sentFrames, sendPasses, Event.sentFrame, List.replicate_succ, this]

theorem flagReads_sendPasses (h : Handle) (fr : NDIlib_audio_frame_v2_t) (n k : Nat) :
    flagReads (sendPasses h fr n k) = List.replicate n false := by
  induction n generalizing k with
  | zero => rfl
  | succ n ih =>
    have := ih (k + 1)
    simp only [flagReads] at this
    simp [flagReads, sendPasses, Event.flagValue, List.replicate_succ, this]

theorem outLines_sendPasses (h : Handle) (fr : NDIlib_audio_frame_v2_t) (n k : Nat) :
    outLines (sendPasses h fr n k) = (List.range' k n).map frameLine := by
  induction n generalizing k with
  | zero => rfl
  | succ n ih =>
    have := ih (k + 1)
    simp only [outLines] at this
    simp [outLines, sendPasses, Event.outText, Event.sentFrame, List.range'_succ, this]

theorem submits_sendPasses (h : Handle) (fr : NDIlib_audio_frame_v2_t) (n k : Nat) :
    (sendPasses h fr n k).filter (fun e => e.sentFrame.isSome || e.outText.isSome)
      = submitsAndLines h fr n k := by
  induction n generalizing k with
  | zero => rfl
  | succ n ih =>
    rw [sendPasses, submitsAndLines, ← ih (k + 1)]
    rfl

theorem noSendAfterFlagSet_sendPasses (h : Handle) (fr : NDIlib_audio_frame_v2_t) (n k : Nat)
    (l : List Event) :
    noSendAfterFlagSet (sendPasses h fr n k ++ l) = noSendAfterFlagSet l := by
  induction n generalizing k with
  | zero => rfl
  | succ n ih => simp [sendPasses, noSendAfterFlagSet, ih (k + 1)]

theorem sentFrames_sendTrace (h : Handle) (n : Nat) (last : Bool) :
    sentFrames (sendTrace h n last)
      = List.replicate n (NDIlib_Send_Audio.NDIAudioFrame.frame 4 1920 48000) := by
  have h1 := sentFrames_sendPasses h (NDIlib_Send_Audio.NDIAudioFrame.frame 4 1920 48000) n 0
  simp only [sentFrames] at h1
  simp only [sentFrames, sendTrace, List.filterMap_append, h1]
  exact List.append_nil _

theorem flagReads_sendTrace (h : Handle) (n : Nat) (last : Bool) :
    flagReads (sendTrace h n last) = List.replicate n false ++ [last] := by
  have h1 := flagReads_sendPasses h (NDIlib_Send_Audio.NDIAudioFrame.frame 4 1920 48000) n 0
  simp only [flagReads] at h1
  simp only [flagReads, sendTrace, List.filterMap_append, h1]
  rfl

theorem outLines_sendTrace (h : Handle) (n : Nat) (last : Bool) :
    outLines (sendTrace h n last) = (List.range n).map frameLine := by
  have h1 := outLines_sendPasses h (NDIlib_Send_Audio.NDIAudioFrame.frame 4 1920 48000) n 0
  simp only [outLines] at h1
  simp only [outLines, sendTrace, List.filterMap_append, h1, List.range_eq_range']
  exact List.append_nil _

theorem submits_sendTrace (h : Handle) (n : Nat) (last : Bool) :
    (sendTrace h n last).filter (fun e => e.sentFrame.isSome || e.outText.isSome)
      = submitsAndLines h (NDIlib_Send_Audio.NDIAudioFrame.frame 4 1920 48000) n 0 := by
  have h1 := submits_sendPasses h (NDIlib_Send_Audio.NDIAudioFrame.frame 4 1920 48000) n 0
  simp only [sendTrace, List.filter_append, h1]
  exact List.append_nil _

theorem noSendAfterFlagSet_sendTrace (h : Handle) (n : Nat) (last : Bool) :
    noSendAfterFlagSet (sendTrace h n last) = true := by
  unfold sendTrace
  rw [List.append_assoc]
  simp only [List.cons_append, List.nil_append, noSendAfterFlagSet, Bool.true_and,
    noSendAfterFlagSet_sendPasses]
  cases last <;>
    simp [Event.sentFrame, noSendAfterFlagSet, noSendAfterFlagSet_sendPasses]

end SendLoop

section Discovery

theorem outLines_printSources_aux (p n : Nat) (srcs : List NDIlib_source_t) (l : List Nat) :
    outLines (l.foldr (fun i acc =>
      Event.read_source p i n ::
      Event.out (toString (i + 1) ++ ". " ++ (srcs.getD i ⟨""⟩).p_ndi_name ++ "\n") :: acc) [])
      = l.map (fun i => toString (i + 1) ++ ". " ++ (srcs.getD i ⟨""⟩).p_ndi_name ++ "\n") := by
  induction l with
  | nil => rfl
  | cons i l ih => exact congrArg (List.cons _) ih

theorem numberedLines_eq_map (srcs : List NDIlib_source_t) (k : Nat) :
    numberedLines (srcs.map NDIlib_source_t.p_ndi_name) (k + 1)
      = (List.range srcs.length).map
          (fun i => toString (k + i + 1) ++ ". " ++ (srcs.getD i ⟨""⟩).p_ndi_name ++ "\n") := by
  induction srcs generalizing k with
  | nil => rfl
  | cons a l ih =>
    rw [List.length_cons, List.range_succ_eq_map, List.map_cons, List.map_cons, List.map_map,
      numberedLines, ih (k + 1)]
    refine congrArg₂ List.cons rfl ?_
    apply List.map_congr_left
    intro i _
    show _ = toString (k + (i + 1) + 1) ++ ". " ++ (l.getD i ⟨""⟩).p_ndi_name ++ "\n"
    rw [show k + 1 + i + 1 = k + (i + 1) + 1 by omega]

theorem outLines_printSources (sl : SourceList) :
    outLines (NDIlib_Find.printSources sl)
      = numberedLines (sl.sources.map NDIlib_source_t.p_ndi_name) 1 := by
  unfold NDIlib_Find.printSources
  rw [outLines_printSources_aux, numberedLines_eq_map sl.sources 0]
  simp [SourceList.no_sources]

theorem printSources_no_calls (sl : SourceList) :
    (NDIlib_Find.printSources sl).filter
      (fun e => e.isGetSources || e.isWaitForSources) = [] := by
  unfold NDIlib_Find.printSources
  induction List.range sl.no_sources with
  | nil => rfl
  | cons i l ih =>
    rw [List.foldr_cons, List.filter_cons_of_neg (by simp [Event.isGetSources,
      Event.isWaitForSources]), List.filter_cons_of_neg (by simp [Event.isGetSources,
      Event.isWaitForSources])]
    exact ih

end Discovery

section SourceReads

theorem recv16_wait_reads (w : World) (h : Handle) (fuel : Nat)
    (s : WaitState) (r : List Event × WaitState)
    (hr : whileLoop (NDIlib_Recv_Audio_16bpp.waitCond w)
      (NDIlib_Recv_Audio_16bpp.waitBody w h) fuel s = some r) :
    ∀ e ∈ r.1, e.readInRange = true := by
  refine whileLoop_forall _ _ (fun e => e.readInRange = true) ?_ ?_ fuel s r hr
  · intro s e he
    unfold NDIlib_Recv_Audio_16bpp.waitCond at he
    split at he <;> simp at he <;> subst he <;> rfl
  · intro s e he
    simp [NDIlib_Recv_Audio_16bpp.waitBody] at he
    rcases he with rfl | rfl | rfl <;> rfl

theorem recv16_capture_reads (w : World) (h : Handle) (start : Int) (fuel : Nat)
    (s : CaptureState) (r : List Event × Except String CaptureState)
    (hr : whileLoopE (NDIlib_Recv_Audio_16bpp.captureCond w start)
      (NDIlib_Recv_Audio_16bpp.captureBody w h) fuel s = some r) :
    ∀ e ∈ r.1, e.readInRange = true := by
  refine whileLoopE_forall _ _ (fun e => e.readInRange = true) ?_ ?_ fuel s r hr
  · intro s e he
    unfold NDIlib_Recv_Audio_16bpp.captureCond at he
    split at he <;> simp at he
    · subst he; rfl
    · rcases he with rfl | rfl <;> rfl
  · intro s e he
    simp only [NDIlib_Recv_Audio_16bpp.captureBody, List.mem_cons] at he
    rcases he with rfl | he
    · rfl
    · rcases recv16_handleFrame_mem h _ e he with
        ⟨_, rfl⟩ | ⟨_, rfl⟩ | rfl | rfl | rfl | rfl | rfl <;> rfl

/-- The list held when the source-wait loop of the 16-bit example ends is the initial empty
one or one that the library handed back. -/
theorem recv16_wait_result (w : World) (h : Handle) (fuel : Nat) (wev : List Event)
    (ws : WaitState)
    (hw : whileLoop (NDIlib_Recv_Audio_16bpp.waitCond w)
      (NDIlib_Recv_Audio_16bpp.waitBody w h) fuel ⟨⟨0, []⟩, 0, 0⟩ = some (wev, ws)) :
    ws.current = ⟨0, []⟩ ∨ ∃ k, ws.current = w.find_get_current_sources k := by
  obtain ⟨n, _, _, _, hr⟩ := whileLoop_eq_some _ _ _ _ _ hw
  simp only [Prod.mk.injEq] at hr
  obtain ⟨_, rfl⟩ := hr
  have hcur : ∀ s : WaitState, (NDIlib_Recv_Audio_16bpp.waitCond w s).2.2.current
      = s.current := by
    intro s
    unfold NDIlib_Recv_Audio_16bpp.waitCond
    split <;> rfl
  rw [hcur]
  cases n with
  | zero => exact Or.inl rfl
  | succ n => exact Or.inr ⟨0 + n, recv16_wait_state w h n ⟨⟨0, []⟩, 0, 0⟩⟩

/-- What the guard `if (!p_sources)` of the 16-bit example does ensure: when the library
hands back `nullptr` whenever it reports zero sources, every read of the source list in a
returned run is inside the list. -/
theorem recv16_reads_in_range (w : World) (hnull : NullWhenEmpty w) (fuel : Nat) (code : Int)
    (t : List Event) (h : NDIlib_Recv_Audio_16bpp.main w fuel = some (code, t)) :
    ∀ e ∈ t, e.readInRange = true := by
  rcases recv16_main_shape w fuel code t h with
    ⟨_, rfl, rfl⟩ | ⟨_, _, rfl, rfl⟩ | ⟨_, hf, wev, ws, hw, hrest⟩
  · decide
  · decide
  · have hwr := recv16_wait_reads _ _ _ _ _ hw
    have hlen : ws.current.p_sources ≠ 0 → 0 < ws.current.no_sources := by
      intro hp
      rcases recv16_wait_result w _ fuel wev ws hw with h0 | ⟨k, hk⟩
      · rw [h0] at hp
        exact absurd rfl hp
      · rw [hk] at hp ⊢
        exact Nat.pos_of_ne_zero (fun h0 => hp (hnull k h0))
    rcases hrest with ⟨_, rfl, rfl⟩ | ⟨hp, _, rfl, rfl⟩ | ⟨hp, hr, cev, res, hc, hres⟩
    · intro e he
      simp only [List.mem_append, List.mem_cons, List.mem_singleton, List.not_mem_nil,
        or_false] at he
      rcases he with (he | he) | he
      · rcases he with rfl | rfl | rfl <;> rfl
      · exact hwr e he
      · rcases he with rfl | rfl | rfl <;> rfl
    · intro e he
      simp only [List.mem_append, List.mem_cons, List.mem_singleton, List.not_mem_nil,
        or_false] at he
      rcases he with (he | he) | he
      · rcases he with rfl | rfl | rfl <;> rfl
      · exact hwr e he
      · rcases he with rfl | rfl | rfl | rfl | rfl
        · simpa [Event.readInRange] using hlen hp
        all_goals rfl
    · have hcr := recv16_capture_reads _ _ _ _ _ _ hc
      rcases hres with ⟨_, _, rfl⟩ | ⟨msg, _, _, rfl⟩
      · intro e he
        simp only [List.mem_append, List.mem_cons, List.mem_singleton, List.not_mem_nil,
          or_false] at he
        rcases he with (((he | he) | he) | he) | he
        · rcases he with rfl | rfl | rfl <;> rfl
        · exact hwr e he
        · rcases he with rfl | rfl | rfl
          · simpa [Event.readInRange] using hlen hp
          all_goals rfl
        · exact hcr e he
        · rcases he with rfl | rfl | rfl <;> rfl
      · intro e he
        simp only [List.mem_append, List.mem_cons, List.mem_singleton, List.not_mem_nil,
          or_false] at he
        rcases he with (((he | he) | he) | he) | he
        · rcases he with rfl | rfl | rfl <;> rfl
        · exact hwr e he
        · rcases he with rfl | rfl | rfl
          · simpa [Event.readInRange] using hlen hp
          all_goals rfl
        · exact hcr e he
        · rcases he with rfl | rfl | rfl | rfl <;> rfl

end SourceReads

section Deadline

theorem capturesAfter_cons (start limit : Int) (e : Event) (rest : List Event) :
    capturesAfter start limit (e :: rest)
      = (lateStart start limit e rest.head? || capturesAfter start limit rest) := rfl

/-- A capture call that follows a reading of the clock is started late exactly when the
reading shows the limit reached. -/
theorem lateStart_clock_capture (start limit t : Int) (h : Handle) (m : Bool) (ms : Nat)
    (fr : Frame) :
    lateStart start limit (Event.clock_now t) (some (Event.NDIlib_recv_capture_v2 h m ms fr))
      = decide (limit ≤ t - start) := by
  simp [lateStart, Event.clockReading, Event.isCapture]

/-- An event that reads no clock starts nothing late. -/
theorem lateStart_of_not_clock (start limit : Int) (e : Event) (next : Option Event)
    (h : e.clockReading = none) : lateStart start limit e next = false := by
  simp [lateStart, h]

/-- A stretch of events without clock readings can be skipped. -/
theorem capturesAfter_skip (start limit : Int) (a b : List Event)
    (h : ∀ e ∈ a, e.clockReading = none) :
    capturesAfter start limit (a ++ b) = capturesAfter start limit b := by
  induction a with
  | nil => rfl
  | cons e a ih =>
    have he : e.clockReading = none := h e (List.mem_cons_self _ _)
    simp only [List.cons_append, capturesAfter, lateStart_of_not_clock start limit e _ he,
      Bool.false_or]
    exact ih (fun x hx => h x (List.mem_cons_of_mem _ hx))

/-- A trace without clock readings has no late capture. -/
theorem capturesAfter_of_no_clock (start limit : Int) (a : List Event)
    (h : ∀ e ∈ a, e.clockReading = none) : capturesAfter start limit a = false := by
  have := capturesAfter_skip start limit a [] h
  simpa [capturesAfter] using this

/-- The events of the capture loop of `NDIlib_Recv` begin with a reading of the clock. -/
theorem recv_capture_head (w : World) (h : Handle) (start : Int) (fuel : Nat)
    (s : CaptureState) (r : List Event × CaptureState)
    (hr : whileLoop (NDIlib_Recv.captureCond w start) (NDIlib_Recv.captureBody w h) fuel s
      = some r) (tail : List Event) :
    (r.1 ++ tail).head? = some (Event.clock_now (w.now s.clocks)) := by
  cases fuel with
  | zero => simp [whileLoop] at hr
  | succ fuel =>
    by_cases hc : w.now s.clocks - start < minutes 5
    · rw [whileLoop_succ_of_true _ _ _ _ (by simp [NDIlib_Recv.captureCond, hc])] at hr
      cases hl : whileLoop (NDIlib_Recv.captureCond w start) (NDIlib_Recv.captureBody w h) fuel
          (NDIlib_Recv.captureBody w h (NDIlib_Recv.captureCond w start s).2.2).2 with
      | none => simp [hl] at hr
      | some r2 =>
        simp only [hl, Option.map_some', Option.some.injEq] at hr
        subst hr
        simp [NDIlib_Recv.captureCond]
    · rw [whileLoop_succ_of_false _ _ _ _ (by simp [NDIlib_Recv.captureCond, hc])] at hr
      simp only [Option.some.injEq] at hr
      subst hr
      simp [NDIlib_Recv.captureCond]

/-- What the `switch` of `NDIlib_Recv` does reads no clock. -/
theorem recv_handleFrame_no_clock (h : Handle) (fr : Frame) :
    ∀ e ∈ NDIlib_Recv.handleFrame h fr, e.clockReading = none := by
  cases fr <;> simp [NDIlib_Recv.handleFrame, Event.clockReading]

/-- In the capture loop of `NDIlib_Recv` every capture is started at a check that saw less
than five minutes elapsed. -/
theorem recv_capture_within (w : World) (h : Handle) (start : Int) (fuel : Nat) :
    ∀ (s : CaptureState) (r : List Event × CaptureState),
      whileLoop (NDIlib_Recv.captureCond w start) (NDIlib_Recv.captureBody w h) fuel s
        = some r →
      ∀ tail : List Event, (∀ e, tail.head? = some e → e.isCapture = false) →
        capturesAfter start (minutes 5) (r.1 ++ tail)
          = capturesAfter start (minutes 5) tail := by
  induction fuel with
  | zero => intro s r hr; simp [whileLoop] at hr
  | succ fuel ih =>
    intro s r hr tail htail
    by_cases hc : w.now s.clocks - start < minutes 5
    · rw [whileLoop_succ_of_true _ _ _ _ (by simp [NDIlib_Recv.captureCond, hc])] at hr
      cases hl : whileLoop (NDIlib_Recv.captureCond w start) (NDIlib_Recv.captureBody w h) fuel
          (NDIlib_Recv.captureBody w h (NDIlib_Recv.captureCond w start s).2.2).2 with
      | none => simp [hl] at hr
      | some r2 =>
        simp only [hl, Option.map_some', Option.some.injEq] at hr
        subst hr
        have hrest := ih _ r2 hl tail htail
        have hskip := capturesAfter_skip start (minutes 5)
          (NDIlib_Recv.handleFrame h (w.recv_capture_v2 s.captures)) (r2.1 ++ tail)
          (recv_handleFrame_no_clock h _)
        have hnot : ¬ minutes 5 ≤ w.now s.clocks - start := by omega
        have hshape : ((NDIlib_Recv.captureCond w start s).1 ++
              (NDIlib_Recv.captureBody w h (NDIlib_Recv.captureCond w start s).2.2).1 ++ r2.1)
              ++ tail
            = Event.clock_now (w.now s.clocks) ::
                Event.NDIlib_recv_capture_v2 h false 5000 (w.recv_capture_v2 s.captures) ::
                (NDIlib_Recv.handleFrame h (w.recv_capture_v2 s.captures) ++ (r2.1 ++ tail)) := by
          simp [NDIlib_Recv.captureCond, NDIlib_Recv.captureBody]
        rw [hshape, capturesAfter_cons, capturesAfter_cons, List.head?_cons,
          lateStart_clock_capture,
          lateStart_of_not_clock start (minutes 5)
            (Event.NDIlib_recv_capture_v2 h false 5000 (w.recv_capture_v2 s.captures)) _ rfl,
          hskip, hrest]
        simp [hnot]
    · rw [whileLoop_succ_of_false _ _ _ _ (by simp [NDIlib_Recv.captureCond, hc])] at hr
      simp only [Option.some.injEq] at hr
      subst hr
      simp only [NDIlib_Recv.captureCond, List.singleton_append, capturesAfter, lateStart,
        Event.clockReading]
      cases ht : tail.head? with
      | none => simp [ht]
      | some e => simp [ht, htail e ht]

/-- The source-wait loop of `NDIlib_Recv` reads no clock. -/
theorem recv_wait_no_clock (w : World) (h : Handle) (fuel : Nat) (s : WaitState)
    (r : List Event × WaitState)
    (hr : whileLoop NDIlib_Recv.waitCond (NDIlib_Recv.waitBody w h) fuel s = some r) :
    ∀ e ∈ r.1, e.clockReading = none :=
  whileLoop_forall _ _ (fun e => e.clockReading = none)
    (fun s e he => by simp [NDIlib_Recv.waitCond] at he)
    (fun s e he => by
      simp only [NDIlib_Recv.waitBody, List.mem_cons, List.mem_singleton, List.not_mem_nil,
        or_false] at he
      rcases he with he | he | he <;> subst he <;> rfl)
    fuel s r hr

/-- In every returned run of `NDIlib_Recv` the deadline of the capture loop is five minutes:
no capture call is started at a loop check where five minutes or more have elapsed since the
time read when the loop begins. -/
theorem recv_captures_within_five_minutes (w : World) (fuel : Nat) (code : Int)
    (t : List Event) (h : NDIlib_Recv.main w fuel = some (code, t)) :
    capturesAfter (w.now 0) (minutes 5) t = false := by
  rcases recv_main_shape w fuel code t h with
    ⟨_, _, ht⟩ | ⟨_, _, _, ht⟩ | ⟨_, _, wev, ws, hw, hrest⟩
  · subst ht; rfl
  · subst ht; rfl
  · have hwev := recv_wait_no_clock w _ fuel _ _ hw
    rcases hrest with ⟨_, _, ht⟩ | ⟨_, _, cev, cs, hc, ht⟩
    · subst ht
      apply capturesAfter_of_no_clock
      intro e he
      simp only [List.mem_append, List.mem_cons, List.mem_singleton, List.not_mem_nil,
        or_false] at he
      rcases he with (he | he) | he
      · rcases he with he | he <;> subst he <;> rfl
      · exact hwev e he
      · rcases he with he | he | he | he <;> subst he <;> rfl
    · have hshape : t = ([Event.NDIlib_init true, Event.NDIlib_find_create_v2 w.find_create_v2]
            ++ wev ++ [Event.NDIlib_recv_create_v3 none w.recv_create_v3,
              Event.NDIlib_recv_connect w.recv_create_v3 ws.current.p_sources]) ++
          (Event.clock_now (w.now 0) :: (cev ++
            [Event.NDIlib_recv_destroy w.recv_create_v3,
             Event.NDIlib_find_destroy w.find_create_v2, Event.NDIlib_destroy])) := by
        rw [ht]
        simp
      have hpre : ∀ e ∈ [Event.NDIlib_init true, Event.NDIlib_find_create_v2 w.find_create_v2]
            ++ wev ++ [Event.NDIlib_recv_create_v3 none w.recv_create_v3,
              Event.NDIlib_recv_connect w.recv_create_v3 ws.current.p_sources],
          e.clockReading = none := by
        intro e he
        simp only [List.mem_append, List.mem_cons, List.mem_singleton, List.not_mem_nil,
          or_false] at he
        rcases he with (he | he) | he
        · rcases he with he | he <;> subst he <;> rfl
        · exact hwev e he
        · rcases he with he | he <;> subst he <;> rfl
      have hhead := recv_capture_head w _ _ fuel _ _ hc
        [Event.NDIlib_recv_destroy w.recv_create_v3,
         Event.NDIlib_find_destroy w.find_create_v2, Event.NDIlib_destroy]
      have hloop := recv_capture_within w _ _ fuel _ _ hc
        [Event.NDIlib_recv_destroy w.recv_create_v3,
         Event.NDIlib_find_destroy w.find_create_v2, Event.NDIlib_destroy]
        (fun e he => by
          simp only [List.head?_cons, Option.some.injEq] at he
          subst he
          rfl)
      rw [hshape, capturesAfter_skip _ _ _ _ hpre, capturesAfter_cons, hhead, hloop]
      rfl

end Deadline

section Layout

/-- The planar indices of `c` channels of `n` samples, channel by channel, are the numbers
below `c * n` in order. -/
theorem planar_indices (n c : Nat) :
    ((List.range c).map fun ch => (List.range n).map fun j => ch * n + j).flatten
      = List.range (c * n) := by
  induction c with
  | zero => simp
  | succ c ih =>
    rw [List.range_succ, List.map_append, List.flatten_append, ih, Nat.succ_mul, List.range_add]
    simp

/-- The buffer after the fill loop is the buffer before it with the stores of `fillIndices`
made one after the other. -/
theorem fillSilence_stores (fr : NDIlib_audio_frame_v2_t) :
    (NDIlib_Send_Audio.fillSilence fr).p_data
      = (fillIndices fr).foldl (fun buf i => buf.set i.toNat 0) fr.p_data := by
  simp only [NDIlib_Send_Audio.fillSilence, fillIndices, List.foldl_flatten, List.foldl_map]
  rfl

/-- A channel offset below the largest one fits in an `int` when the largest one does. -/
theorem channel_offset_fits (c n ch : Nat) (hch : ch < c)
    (hoff : ((c : Int) - 1) * (4 * (n : Int)) ≤ INT_MAX) :
    (ch : Int) * ((n : Int) * 4) ≤ INT_MAX := by
  have h1 : (ch : Int) ≤ (c : Int) - 1 := by omega
  have h2 : (0 : Int) ≤ 4 * (n : Int) := by omega
  have h3 := Int.mul_le_mul_of_nonneg_right h1 h2
  have h4 : (ch : Int) * ((n : Int) * 4) = (ch : Int) * (4 * (n : Int)) := by ring
  omega

/-- A planar index is below the number of floats of the buffer. -/
theorem planar_index_lt (c n ch j : Nat) (hch : ch < c) (hj : j < n) : ch * n + j < n * c := by
  have h1 : (ch + 1) * n ≤ c * n := Nat.mul_le_mul_right n hch
  rw [Nat.succ_mul] at h1
  rw [Nat.mul_comm n c]
  omega

/-- Every float of the buffer is the planar index of exactly one channel and sample. -/
theorem planar_index_unique (c n i : Nat) (hi : i < n * c) :
    ∃! p : Nat × Nat, p.1 < c ∧ p.2 < n ∧ p.1 * n + p.2 = i := by
  have hn : 0 < n := by
    rcases Nat.eq_zero_or_pos n with h | h
    · subst h; simp at hi
    · exact h
  refine ⟨(i / n, i % n), ⟨?_, Nat.mod_lt _ hn, ?_⟩, ?_⟩
  · exact Nat.div_lt_of_lt_mul hi
  · show i / n * n + i % n = i
    rw [Nat.mul_comm]
    exact Nat.div_add_mod i n
  · rintro ⟨ch, j⟩ ⟨_, hj, hij⟩
    simp only at hj hij
    subst hij
    have hd : (ch * n + j) / n = ch := by
      rw [Nat.add_comm, Nat.add_mul_div_right _ _ hn, Nat.div_eq_of_lt hj, Nat.zero_add]
    have hm : (ch * n + j) % n = j := by
      rw [Nat.add_comm, Nat.add_mul_mod_self_right, Nat.mod_eq_of_lt hj]
    rw [hd, hm]

/-- With a stride of `4 * n` bytes and channel offsets that fit in an `int`, the stores of
the fill loop address the floats `0`, `1`, ... of the buffer in order, each once. -/
theorem fillIndices_planar (c n : Nat) (fr : NDIlib_audio_frame_v2_t)
    (hc : fr.no_channels = c) (hn : fr.no_samples = n)
    (hs : fr.channel_stride_in_bytes = (n : Int) * 4)
    (hfit : ∀ ch : Nat, ch < c → (ch : Int) * ((n : Int) * 4) ≤ INT_MAX) :
    fillIndices fr = (List.range (c * n)).map Int.ofNat := by
  rw [← planar_indices n c]
  simp only [fillIndices, hc, hn, hs, Int.toNat_ofNat, List.map_flatten, List.map_map]
  refine congrArg List.flatten ?_
  apply List.map_congr_left
  intro ch hch
  simp only [Function.comp, List.map_map]
  apply List.map_congr_left
  intro j _
  exact floatIndex_eq n ch j (hfit ch (List.mem_range.mp hch))

end Layout

/-! ## The claims -/

/-- C1, counterexample: two runs in which no initialize or create call fails and `main` does
not return 0.  In the receive example every initialize and create call of `idleWorld`
succeeds, yet `main` returns nothing at all, however much fuel it is given, because the
library never reports a source.  In the 16-bit example every initialize and create call of
`brokenFrameWorld` succeeds, yet `main` returns 1 with one error line, because the captured
audio frame has a negative number of samples and `new short[...]` throws. -/
theorem C1_no_failure_no_return :
    (idleWorld.lib_init = true ∧ idleWorld.find_create_v2 ≠ 0 ∧ idleWorld.recv_create_v3 ≠ 0 ∧
      ¬ ∃ fuel code t, Example.main Example.Recv idleWorld fuel = some (code, t)) ∧
    (brokenFrameWorld.lib_init = true ∧ brokenFrameWorld.find_create_v2 ≠ 0 ∧
      brokenFrameWorld.recv_create_v3 ≠ 0 ∧
      ∃ t, Example.main Example.Recv_Audio_16bpp brokenFrameWorld 2 = some (1, t) ∧
        failedCall t = false ∧ errLines t = ["Error: std::bad_array_new_length\n"]) := by
  refine ⟨⟨rfl, by decide, by decide, ?_⟩, rfl, by decide, by decide, _, by rfl, by rfl,
    by rfl⟩
  rintro ⟨fuel, code, t, h⟩
  have := recv_main_idle fuel
  simp only [Example.main] at h
  rw [this] at h
  cases h

/-- C1, amended: whenever one of the five mains returns, a failed initialize or create call
in its trace, or an allocation that throws, means exit code 1 and exactly one line
`Error: <message>` on standard error, and no failed call and no throwing allocation means
exit code 0 and nothing on standard error; and the main does return, for all fuel from some
bound on, when the loops it reaches end: at once when the initialize call or the first create
call fails, and otherwise when its source-wait loop ends and either a later create call fails
or the clock advances by a fixed positive amount per reading. -/
theorem C1_error_policy (ex : Example) (w : World) :
    (∀ fuel code t, ex.main w fuel = some (code, t) → Verdict code t) ∧
    (LoopsEnd ex w →
      ∃ bound, ∀ fuel, bound ≤ fuel → ∃ code t, ex.main w fuel = some (code, t)) := by
  refine ⟨fun fuel code t h => example_verdict ex w fuel code t h, ?_⟩
  intro hends
  obtain ⟨bound, hb⟩ := example_main_returns ex w hends
  refine ⟨bound, fun fuel hf => ?_⟩
  obtain ⟨⟨code, t⟩, hr⟩ := hb fuel hf
  exact ⟨code, t, hr⟩

/-- C1, witness: the receive example in `noReceiverWorld` returns 1 after one pass of the
source-wait loop, with one error line; a source is reported at the first call and the
receiver cannot be created, so the main returns for all large fuel. -/
theorem C1_error_policy_witness :
    Verdict 1 [Event.NDIlib_init true, Event.NDIlib_find_create_v2 1,
      Event.out "Looking for sources ...\n",
      Event.NDIlib_find_wait_for_sources 1 1000 true,
      Event.NDIlib_find_get_current_sources 1 ⟨5, [⟨"cam"⟩]⟩,
      Event.NDIlib_recv_create_v3 none 0, Event.NDIlib_find_destroy 1, Event.NDIlib_destroy,
      Event.err "Error: Failed to create NDI receiver\n"] ∧
    ∃ bound, ∀ fuel, bound ≤ fuel →
      ∃ code t, Example.main Example.Recv noReceiverWorld fuel = some (code, t) :=
  ⟨(C1_error_policy Example.Recv noReceiverWorld).1 2 1 _ (by rfl),
   (C1_error_policy Example.Recv noReceiverWorld).2
     (Or.inr ⟨⟨0, by simp [SourceWaitEndsBy, noReceiverWorld, SourceList.no_sources]⟩,
       Or.inr rfl⟩)⟩

/-- C2, the failing run: in the send example, when `NDIlib_initialize` succeeds and
`NDIlib_send_create` returns null, the constructor of `NDISender` throws, its destructor
never runs, and `main` returns 1 with a trace in which the successful initialize is followed
by no `NDIlib_destroy` at all. -/
theorem C2_send_error_path_leaks_library :
    noSenderWorld.lib_init = true ∧ noSenderWorld.send_create = 0 ∧
    ∃ t, NDIlib_Send_Audio.main noSenderWorld 0 = some (1, t) ∧
      t = [Event.signal_sigint, Event.NDIlib_init true, Event.NDIlib_send_create 0,
            Event.err "Error: Failed to create NDI sender.\n"] ∧
      List.count Event.NDIlib_destroy t = 0 ∧ releasedExactlyOnce t = false :=
  ⟨rfl, rfl, _, by rfl, rfl, by decide, by decide⟩

/-- The rest of C2: on every other exit path the releases are exact.  In the four examples
with a separate `NDIInitializer`, and in the send example unless initialize succeeds and
`NDIlib_send_create` returns null, every acquisition of a returned run is followed by exactly
one call of its release. -/
theorem released_exactly_once_elsewhere (ex : Example) (w : World) (fuel : Nat) (code : Int)
    (t : List Event) (h : ex.main w fuel = some (code, t))
    (hex : ex = Example.Send_Audio → w.lib_init = false ∨ w.send_create ≠ 0) :
    releasedExactlyOnce t = true := by
  cases ex
  · exact (find_lifecycle w fuel code t h).2.2
  · exact (recv_lifecycle w fuel code t h).2.2
  · exact (recv16_lifecycle w fuel code t h).2.2
  · exact (framesync_lifecycle w fuel code t h).2.2
  · exact (send_lifecycle w fuel code t h).2.2 (hex rfl)

/-- C4: in every returned run of the five mains, whenever a resource `a` (the library, by a
successful initialize, or a non-null handle from a create call) is acquired before a resource
`b`, the destroy call of `b` comes before the destroy call of `a`; and a run of the send
example that destroys its sender has created the sender, allocated the audio buffer, released
the buffer, destroyed the sender and called `NDIlib_destroy`, in this order. -/
theorem C4_released_in_reverse_order (ex : Example) (w : World) (fuel : Nat) (code : Int)
    (t : List Event) (h : ex.main w fuel = some (code, t)) :
    ReleasedInReverse t ∧
    (ex = Example.Send_Audio → ∀ hs, Event.NDIlib_send_destroy hs ∈ t →
      List.Sublist [Event.NDIlib_send_create hs, Event.new_array 7680, Event.delete_array,
        Event.NDIlib_send_destroy hs, Event.NDIlib_destroy] t) := by
  constructor
  · cases ex
    · exact releasedInReverse_of_reverse t (find_lifecycle w fuel code t h).1
    · exact releasedInReverse_of_reverse t (recv_lifecycle w fuel code t h).1
    · exact releasedInReverse_of_reverse t (recv16_lifecycle w fuel code t h).1
    · exact releasedInReverse_of_reverse t (framesync_lifecycle w fuel code t h).1
    · rcases (send_lifecycle w fuel code t h).1 with h1 | h1
      · exact releasedInReverse_of_reverse t h1
      · exact releasedInReverse_of_short t h1
  · rintro rfl hs hmem
    rcases send_main_shape w fuel code t h with
      ⟨_, _, rfl⟩ | ⟨_, _, _, rfl⟩ | ⟨_, hf, _, evs, st, hw, rfl⟩
    · simp at hmem
    · simp at hmem
    · have hin := send_loop_inert _ _ _ _ _ hw
      have hnot : Event.NDIlib_send_destroy hs ∉ evs := fun hm => by
        have := hin _ hm
        simp [Event.isLifecycle] at this
      simp [hnot] at hmem
      subst hmem
      refine List.Sublist.cons _ (List.Sublist.cons _ (List.Sublist.cons₂ _
        (List.Sublist.cons₂ _ ?_)))
      exact List.sublist_append_right _ _

/-- C4, witness: the frame-sync example in `readyWorld` with fuel 5 returns, and its trace
releases in reverse order of acquisition. -/
theorem C4_released_in_reverse_order_witness :
    ∃ code t, Example.main Example.Recv_FrameSync readyWorld 5 = some (code, t) ∧
      ReleasedInReverse t :=
  ⟨_, _, by rfl, (C4_released_in_reverse_order Example.Recv_FrameSync readyWorld 5 _ _
    (by rfl)).1⟩

/-- C9: in every returned run of the five mains no call on a handle follows the destroy call
of that handle, no library call follows `NDIlib_destroy`, and the source list of the finder
is neither read nor handed to the library after the finder is destroyed. -/
theorem C9_no_use_after_destroy (ex : Example) (w : World) (fuel : Nat) (code : Int)
    (t : List Event) (h : ex.main w fuel = some (code, t)) :
    noUseAfterDestroy t = true := by
  cases ex
  · exact (find_lifecycle w fuel code t h).2.1
  · exact (recv_lifecycle w fuel code t h).2.1
  · exact (recv16_lifecycle w fuel code t h).2.1
  · exact (framesync_lifecycle w fuel code t h).2.1
  · exact (send_lifecycle w fuel code t h).2.1

/-- C9, witness: the receive example in `readyWorld` with fuel 5 returns, and nothing in its
trace is used after it is destroyed. -/
theorem C9_no_use_after_destroy_witness :
    ∃ code t, Example.main Example.Recv readyWorld 5 = some (code, t) ∧
      noUseAfterDestroy t = true :=
  ⟨_, _, by rfl, C9_no_use_after_destroy Example.Recv readyWorld 5 _ _ (by rfl)⟩

/-- C3, counterexample: the clock of `idleWorld` gains a second per reading, its library
reports zero sources on every call and its exit flag is never set; the receive, the
frame-sync and the 16-bit example then never leave their source-wait loop, so none of these
mains returns, whatever the fuel. -/
theorem C3_source_wait_unbounded :
    ClockAdvances idleWorld 1000000000 ∧
    (¬ ∃ k, (idleWorld.find_get_current_sources k).no_sources ≠ 0) ∧
    (¬ ∃ k, idleWorld.exit_loop k = true) ∧
    (¬ ∃ fuel code t, Example.main Example.Recv idleWorld fuel = some (code, t)) ∧
    (¬ ∃ fuel code t, Example.main Example.Recv_FrameSync idleWorld fuel = some (code, t)) ∧
    (¬ ∃ fuel code t,
      Example.main Example.Recv_Audio_16bpp idleWorld fuel = some (code, t)) := by
  refine ⟨⟨by decide, fun k => ?_⟩, ?_, ?_, ?_, ?_, ?_⟩
  · simp only [idleWorld]
    push_cast
    omega
  · rintro ⟨k, hk⟩
    exact hk rfl
  · rintro ⟨k, hk⟩
    cases hk
  · rintro ⟨fuel, code, t, h⟩
    have := recv_main_idle fuel
    simp only [Example.main] at h
    rw [this] at h
    cases h
  · rintro ⟨fuel, code, t, h⟩
    have := framesync_main_idle fuel
    simp only [Example.main] at h
    rw [this] at h
    cases h
  · intro h
    rcases example_returns_only_if Example.Recv_Audio_16bpp idleWorld h with
      (hi | hf) | ⟨k, hk | hk⟩
    · cases hi
    · cases hf
    · cases hk
    · exact hk rfl

/-- C3, amended: with a clock that advances by a fixed positive amount per reading, each of
the five mains returns (with a finite trace) once its source-wait loop has ended, within
`pollBound` condition checks per loop: the discovery loop, the capture and playback loops and
the send loop are bounded by their deadline or by the count of 1000, so the discovery and the
send example always return.  The source-wait loops have no bound of their own: they end only
when the library reports a source (or, in the 16-bit example, when the exit flag is seen
set), so a main that returns has failed at its initialize or first create call or has seen
its source-wait loop end in this way. -/
theorem C3_bounded_polling (ex : Example) (w : World) (δ : Int)
    (hclock : ClockAdvances w δ) :
    (∀ k, SourceWaitEndsBy ex w k →
      ∀ fuel, pollBound ex k ≤ fuel → ∃ code t, ex.main w fuel = some (code, t)) ∧
    ((∃ fuel code t, ex.main w fuel = some (code, t)) →
      FailsEarly ex w ∨ SourceWaitEnds ex w) ∧
    (∀ h fuel r, whileLoop NDIlib_Recv.waitCond (NDIlib_Recv.waitBody w h) fuel
        ⟨⟨0, []⟩, 0, 0⟩ = some r →
      ∃ k, (w.find_get_current_sources k).no_sources ≠ 0) ∧
    (∀ h fuel r, whileLoop NDIlib_Recv_FrameSync.waitCond
        (NDIlib_Recv_FrameSync.waitBody w h) fuel ⟨⟨0, []⟩, 0, 0⟩ = some r →
      ∃ k, (w.find_get_current_sources k).no_sources ≠ 0) ∧
    (∀ h fuel r, whileLoop (NDIlib_Recv_Audio_16bpp.waitCond w)
        (NDIlib_Recv_Audio_16bpp.waitBody w h) fuel ⟨⟨0, []⟩, 0, 0⟩ = some r →
      ∃ k, w.exit_loop k = true ∨ (w.find_get_current_sources k).no_sources ≠ 0) := by
  refine ⟨fun k hwait fuel hf => ?_, example_returns_only_if ex w,
    fun h fuel r hr => recv_wait_only_if w h fuel r hr,
    fun h fuel r hr => framesync_wait_only_if w h fuel r hr,
    fun h fuel r hr => recv16_wait_only_if w h fuel r hr⟩
  obtain ⟨⟨code, t⟩, hr⟩ := example_returns_within ex w δ k hclock hwait fuel hf
  exact ⟨code, t, hr⟩

/-- C3, witness: the frame-sync example in `readyWorld`, whose clock gains a minute and a
half per reading and whose library reports a source at the first call. -/
theorem C3_bounded_polling_witness :
    ∃ code t, Example.main Example.Recv_FrameSync readyWorld
      (pollBound Example.Recv_FrameSync 0) = some (code, t) :=
  (C3_bounded_polling Example.Recv_FrameSync readyWorld 90000000000
    ⟨by decide, fun k => by simp only [readyWorld]; push_cast; omega⟩).1 0
    (by simp [SourceWaitEndsBy, readyWorld, SourceList.no_sources])
    (pollBound Example.Recv_FrameSync 0) (Nat.le_refl _)

/-- C5, counterexample: in `brokenFrameWorld` the 16-bit example captures an audio frame
whose number of samples is -1; `new short[-2]` throws before the `free_audio` call, so the
pass frees nothing, the loop is left, the receiver is destroyed with the frame still
unfreed, and `main` returns 1. -/
theorem C5_throw_skips_free :
    ∃ t, Example.main Example.Recv_Audio_16bpp brokenFrameWorld 2 = some (1, t) ∧
      t = [Event.NDIlib_init true, Event.signal_sigint, Event.NDIlib_find_create_v2 1,
        Event.read_exit_loop false, Event.out "Looking for sources...\n",
        Event.NDIlib_find_wait_for_sources 1 1000 true,
        Event.NDIlib_find_get_current_sources 1 ⟨5, [⟨"cam"⟩]⟩,
        Event.read_exit_loop false,
        Event.read_source 5 0 1, Event.NDIlib_recv_create_v3 (some ⟨"cam"⟩) 2,
        Event.clock_now 0, Event.read_exit_loop false, Event.clock_now 25000000000,
        Event.NDIlib_recv_capture_v2 2 true 1000 (Frame.audio (-1) 2),
        Event.out "Audio data received (-1 samples).\n",
        Event.new_array (-2),
        Event.NDIlib_recv_destroy 2, Event.NDIlib_find_destroy 1, Event.NDIlib_destroy,
        Event.err "Error: std::bad_array_new_length\n"] ∧
      framesToFree 2 true (Frame.audio (-1) 2) = [Event.NDIlib_recv_free_audio_v2 2] ∧
      t.filter Event.isFree = [] ∧ framesFreed t = false :=
  ⟨_, by rfl, by rfl, by rfl, by rfl, by rfl⟩

/-- C5, amended: in the capture loops of the two receive examples every pass makes one
capture call; in `NDIlib_Recv`, and in `NDIlib_Recv_Audio_16bpp` when the allocation of the
conversion buffer does not throw, the pass then makes exactly the free calls its result asks
for (one `free_video` for a video frame, one `free_audio` for an audio frame, one
`free_metadata` for a metadata frame when a metadata pointer was passed, none otherwise) and
the loop goes on.  So in every returned run of `NDIlib_Recv`, and in every returned run of
`NDIlib_Recv_Audio_16bpp` in which no allocation throws, after each capture call the free
calls made before the next capture call or the destruction of the receiver are exactly those
its result asks for, one of the two does follow, no free call precedes the first capture,
and a run that reached the capture loop exits with code 0. -/
theorem C5_captured_frames_freed (w : World) :
    (∀ h s, ∃ rest, (NDIlib_Recv.captureBody w h s).1
        = Event.NDIlib_recv_capture_v2 h false 5000 (w.recv_capture_v2 s.captures) :: rest ∧
      rest.filter Event.isFree = framesToFree h false (w.recv_capture_v2 s.captures) ∧
      rest.any Event.endsFrame = false) ∧
    (∀ h s, ∃ rest, (NDIlib_Recv_Audio_16bpp.captureBody w h s).1
        = Event.NDIlib_recv_capture_v2 h true 1000 (w.recv_capture_v2 s.captures) :: rest ∧
      rest.any Event.endsFrame = false ∧
      (failedAlloc rest = false →
        rest.filter Event.isFree = framesToFree h true (w.recv_capture_v2 s.captures) ∧
        ∃ s2, (NDIlib_Recv_Audio_16bpp.captureBody w h s).2 = .ok s2)) ∧
    (∀ fuel code t, Example.main Example.Recv w fuel = some (code, t) →
      framesFreed t = true ∧ freesBeforeNext t = [] ∧
        (t.any Event.isCapture = true → code = 0)) ∧
    (∀ fuel code t, Example.main Example.Recv_Audio_16bpp w fuel = some (code, t) →
      failedAlloc t = false →
      framesFreed t = true ∧ freesBeforeNext t = [] ∧
        (t.any Event.isCapture = true → code = 0)) := by
  refine ⟨fun h s => ⟨_, rfl, ?_, ?_⟩, fun h s => ⟨_, rfl, ?_, ?_⟩, ?_, ?_⟩
  · cases w.recv_capture_v2 s.captures <;> rfl
  · cases w.recv_capture_v2 s.captures <;> rfl
  · cases w.recv_capture_v2 s.captures with
    | audio no_samples no_channels =>
      by_cases hneg : toInt32 (no_samples * no_channels) < 0 <;>
        simp [NDIlib_Recv_Audio_16bpp.handleFrame, hneg, Event.endsFrame]
    | _ => rfl
  · simp only [NDIlib_Recv_Audio_16bpp.captureBody]
    cases w.recv_capture_v2 s.captures with
    | audio no_samples no_channels =>
      by_cases hneg : toInt32 (no_samples * no_channels) < 0
      · simp [NDIlib_Recv_Audio_16bpp.handleFrame, hneg, failedAlloc, Event.isFailedAlloc]
      · simp [NDIlib_Recv_Audio_16bpp.handleFrame, hneg, Event.isFree, framesToFree]
    | _ => simp [NDIlib_Recv_Audio_16bpp.handleFrame, Event.isFree, framesToFree]
  · intro fuel code t h
    exact recv_frames w fuel code t h
  · intro fuel code t h hthrow
    exact recv16_frames w fuel code t h hthrow

/-- C5, witness: the 16-bit example in `steadyWorld` with fuel 3 captures a video frame and
an audio frame of 1600 samples in 2 channels before its deadline; no allocation throws, and
what each capture asks for is freed. -/
theorem C5_captured_frames_freed_witness :
    ∃ code t, Example.main Example.Recv_Audio_16bpp steadyWorld 3 = some (code, t) ∧
      failedAlloc t = false ∧ t.any Event.isCapture = true ∧
      t.filter Event.isFree
        = [Event.NDIlib_recv_free_video_v2 2, Event.NDIlib_recv_free_audio_v2 2] ∧
      framesFreed t = true ∧ code = 0 :=
  ⟨_, _, by rfl, by rfl, by rfl, by rfl,
    ((C5_captured_frames_freed steadyWorld).2.2.2 3 _ _ (by rfl) (by rfl)).1,
    ((C5_captured_frames_freed steadyWorld).2.2.2 3 _ _ (by rfl) (by rfl)).2.2 (by rfl)⟩

/-- C6: the send example, with the library initialised, a sender created and fuel for 1001
checks, returns 0 after sending `n` frames, where `n` is the index of the first check at which
`exit_loop` is seen set, or 1000 if none of the first 1000 checks sees it set; the trace is
that of `n` passes, each a reading of the flag that finds it clear, a submission and a
progress line, followed by the reading that ends the loop; so the flag is read once per pass
and once more at the end, and no frame is sent after a reading that saw it set. -/
theorem C6_exit_flag_checked_once_per_pass (w : World) (fuel : Nat)
    (hinit : w.lib_init = true) (hcreate : w.send_create ≠ 0) (hfuel : 1001 ≤ fuel) :
    ∃ n t, NDIlib_Send_Audio.main w fuel = some (0, t) ∧
      n ≤ 1000 ∧ (∀ i, i < n → w.exit_loop i = false) ∧ (n < 1000 → w.exit_loop n = true) ∧
      t = sendTrace w.send_create n (w.exit_loop n) ∧
      (sentFrames t).length = n ∧
      flagReads t = List.replicate n false ++ [w.exit_loop n] ∧
      noSendAfterFlagSet t = true := by
  obtain ⟨⟨code, t⟩, hr⟩ := send_main_returns w fuel (by omega)
  obtain ⟨n, hn, hclear, hset, rfl, rfl⟩ := send_run w fuel code t hr hinit hcreate
  refine ⟨n, _, hr, hn, hclear, hset, rfl, ?_, flagReads_sendTrace _ _ _,
    noSendAfterFlagSet_sendTrace _ _ _⟩
  rw [sentFrames_sendTrace, List.length_replicate]

/-- C6, witness: in `interruptedWorld` the flag is first seen set at the third check, and the
send example sends two frames. -/
theorem C6_exit_flag_checked_once_per_pass_witness :
    ∃ n t, NDIlib_Send_Audio.main interruptedWorld 1001 = some (0, t) ∧
      n ≤ 1000 ∧ (∀ i, i < n → interruptedWorld.exit_loop i = false) ∧
      (n < 1000 → interruptedWorld.exit_loop n = true) ∧
      t = sendTrace interruptedWorld.send_create n (interruptedWorld.exit_loop n) ∧
      (sentFrames t).length = n ∧
      flagReads t = List.replicate n false ++ [interruptedWorld.exit_loop n] ∧
      noSendAfterFlagSet t = true :=
  C6_exit_flag_checked_once_per_pass interruptedWorld 1001 rfl (by decide) (by decide)

/-- C7: the send example, with the library initialised, a sender created, the flag
`exit_loop` never set and fuel for 1001 checks, returns 0 after submitting exactly 1000
frames, each of 4 channels of 1920 samples with all 4 * 1920 floats equal to zero; standard
output holds the lines `Frame number i sent.` for i = 0, ..., 999 in this order, each written
right after its submission. -/
theorem C7_thousand_silent_frames (w : World) (fuel : Nat)
    (hinit : w.lib_init = true) (hcreate : w.send_create ≠ 0)
    (hflag : ∀ k, w.exit_loop k = false) (hfuel : 1001 ≤ fuel) :
    ∃ t, NDIlib_Send_Audio.main w fuel = some (0, t) ∧
      (sentFrames t).length = 1000 ∧
      (∀ fr ∈ sentFrames t, fr.no_channels = 4 ∧ fr.no_samples = 1920 ∧
        fr.p_data.length = 4 * 1920 ∧ ∀ x ∈ fr.p_data, x = 0) ∧
      outLines t = (List.range 1000).map frameLine ∧
      t.filter (fun e => e.sentFrame.isSome || e.outText.isSome)
        = submitsAndLines w.send_create (NDIlib_Send_Audio.NDIAudioFrame.frame 4 1920 48000)
            1000 0 := by
  obtain ⟨⟨code, t⟩, hr⟩ := send_main_returns w fuel (by omega)
  obtain ⟨n, hn, _, hset, rfl, rfl⟩ := send_run w fuel code t hr hinit hcreate
  have hn1000 : n = 1000 := by
    by_cases hlt : n < 1000
    · have := hset hlt
      rw [hflag n] at this
      cases this
    · omega
  subst hn1000
  refine ⟨_, hr, ?_, ?_, outLines_sendTrace _ _ _, submits_sendTrace _ _ _⟩
  · rw [sentFrames_sendTrace, List.length_replicate]
  · intro fr hfr
    rw [sentFrames_sendTrace] at hfr
    have hfr0 := List.eq_of_mem_replicate hfr
    subst hfr0
    refine ⟨rfl, rfl, ?_, ?_⟩
    · simp only [NDIlib_Send_Audio.NDIAudioFrame.frame, List.length_replicate]
      rfl
    · intro x hx
      simp only [NDIlib_Send_Audio.NDIAudioFrame.frame] at hx
      exact List.eq_of_mem_replicate hx

/-- C7, witness: `readyWorld` initialises, creates a sender and never sets the flag. -/
theorem C7_thousand_silent_frames_witness :
    ∃ t, NDIlib_Send_Audio.main readyWorld 1001 = some (0, t) ∧
      (sentFrames t).length = 1000 ∧
      (∀ fr ∈ sentFrames t, fr.no_channels = 4 ∧ fr.no_samples = 1920 ∧
        fr.p_data.length = 4 * 1920 ∧ ∀ x ∈ fr.p_data, x = 0) ∧
      outLines t = (List.range 1000).map frameLine ∧
      t.filter (fun e => e.sentFrame.isSome || e.outText.isSome)
        = submitsAndLines readyWorld.send_create
            (NDIlib_Send_Audio.NDIAudioFrame.frame 4 1920 48000) 1000 0 :=
  C7_thousand_silent_frames readyWorld 1001 rfl (by decide) (fun _ => rfl) (by decide)

/-- C8: one pass of the discovery loop calls wait-for-sources once; if that returns false it
prints exactly `No change to the sources found.` and does not call get-current-sources; if it
returns true it calls get-current-sources once and prints the header `Network sources (n
found).` followed by the n lines `i. <name>` of the returned list, numbered from 1, in list
order. -/
theorem C8_discovery_pass (w : World) (pNDI_find : Handle) (s : NDIlib_Find.LoopState) :
    outLines (NDIlib_Find.loopBody w pNDI_find s).1
      = discoveryLines (w.find_wait_for_sources s.waits)
          ((w.find_get_current_sources s.gets).sources.map NDIlib_source_t.p_ndi_name) ∧
    (NDIlib_Find.loopBody w pNDI_find s).1.filter
        (fun e => e.isGetSources || e.isWaitForSources)
      = (if w.find_wait_for_sources s.waits then
          [Event.NDIlib_find_wait_for_sources pNDI_find 5000 true,
           Event.NDIlib_find_get_current_sources pNDI_find
             (w.find_get_current_sources s.gets)]
        else [Event.NDIlib_find_wait_for_sources pNDI_find 5000 false]) := by
  unfold NDIlib_Find.loopBody
  cases hwait : w.find_wait_for_sources s.waits with
  | false => exact ⟨rfl, rfl⟩
  | true =>
    have h1 := outLines_printSources (w.find_get_current_sources s.gets)
    have h2 := printSources_no_calls (w.find_get_current_sources s.gets)
    simp only [outLines] at h1
    constructor
    · simp [outLines, discoveryLines, List.filterMap_append, h1, Event.outText,
        SourceList.no_sources]
    · simp only [Bool.not_true, Bool.false_eq_true, ↓reduceIte]
      rw [List.filter_append, h2]
      rfl

/-- C10, the failing run: in the 16-bit receive example with `emptyListWorld` the source-wait
loop is stopped by the exit flag with `no_sources = 0`, but the list pointer is not null, so
`main` does not print `No sources found.`; it reads entry 0 of a list with 0 entries and
creates a receiver. -/
theorem C10_reads_entry_of_empty_list :
    (emptyListWorld.find_get_current_sources 0).no_sources = 0 ∧
    ∃ t, NDIlib_Recv_Audio_16bpp.main emptyListWorld 2 = some (0, t) ∧
      t = [Event.NDIlib_init true, Event.signal_sigint, Event.NDIlib_find_create_v2 1,
        Event.read_exit_loop false, Event.out "Looking for sources...\n",
        Event.NDIlib_find_wait_for_sources 1 1000 false,
        Event.NDIlib_find_get_current_sources 1 ⟨5, []⟩,
        Event.read_exit_loop true,
        Event.read_source 5 0 0, Event.NDIlib_recv_create_v3 none 2,
        Event.clock_now 0, Event.read_exit_loop true,
        Event.NDIlib_recv_destroy 2, Event.NDIlib_find_destroy 1, Event.NDIlib_destroy] ∧
      "No sources found.\n" ∉ outLines t ∧ Event.read_source 5 0 0 ∈ t ∧
      Event.NDIlib_recv_create_v3 none 2 ∈ t :=
  ⟨rfl, _, by rfl, rfl, by decide, by decide, by decide⟩

/-- C11, the failing run: the receive example in `readyWorld`, whose clock gains a minute and
a half per reading, returns with fuel 5, and its capture loop does not stop after one minute:
capture calls are started at the loop checks that see 90, 180 and 270 seconds elapsed since
`start`, and the loop ends only at the check that sees 360 seconds.  The deadline that the
loop compares with is five minutes, which no capture of the run exceeds. -/
theorem C11_captures_after_one_minute :
    ∃ t, NDIlib_Recv.main readyWorld 5 = some (0, t) ∧
      t = [Event.NDIlib_init true, Event.NDIlib_find_create_v2 1,
        Event.out "Looking for sources ...\n",
        Event.NDIlib_find_wait_for_sources 1 1000 true,
        Event.NDIlib_find_get_current_sources 1 ⟨5, [⟨"cam"⟩]⟩,
        Event.NDIlib_recv_create_v3 none 2, Event.NDIlib_recv_connect 2 5,
        Event.clock_now 0,
        Event.clock_now 90000000000,
        Event.NDIlib_recv_capture_v2 2 false 5000 (Frame.video 1920 1080),
        Event.out "Video data received (1920x1080).\n", Event.NDIlib_recv_free_video_v2 2,
        Event.clock_now 180000000000,
        Event.NDIlib_recv_capture_v2 2 false 5000 (Frame.audio 1600 2),
        Event.out "Audio data received (1600 samples).\n", Event.NDIlib_recv_free_audio_v2 2,
        Event.clock_now 270000000000,
        Event.NDIlib_recv_capture_v2 2 false 5000 Frame.metadata,
        Event.clock_now 360000000000,
        Event.NDIlib_recv_destroy 2, Event.NDIlib_find_destroy 1, Event.NDIlib_destroy] ∧
      readyWorld.now 0 = 0 ∧ minutes 1 = 60000000000 ∧
      captureStarts (readyWorld.now 0) t = [90000000000, 180000000000, 270000000000] ∧
      capturesAfter (readyWorld.now 0) (minutes 1) t = true ∧
      capturesAfter (readyWorld.now 0) (minutes 5) t = false :=
  ⟨_, by rfl, by rfl, by rfl, by rfl, by rfl, by rfl, by rfl⟩

/-- C12, counterexample: a frame of 2 channels of 536870912 samples has non-negative
parameters whose product 1073741824 does not overflow `int`, but its stride of 2147483648
bytes does: `channel_stride_in_bytes` is -2147483648, not 4 * 536870912, twice the stride is
not the size of the buffer in bytes, and the store for channel 1, sample 0 addresses float
-536870912, which is outside the buffer. -/
theorem C12_stride_overflows :
    (0 : Int) ≤ 2 ∧ (0 : Int) ≤ 536870912 ∧
    -2147483648 ≤ (536870912 : Int) * 2 ∧ (536870912 : Int) * 2 ≤ INT_MAX ∧
    toInt32 (536870912 * 2) = 536870912 * 2 ∧
    (NDIlib_Send_Audio.NDIAudioFrame.frame 2 536870912 48000).channel_stride_in_bytes
      = -2147483648 ∧
    (NDIlib_Send_Audio.NDIAudioFrame.frame 2 536870912 48000).channel_stride_in_bytes
      ≠ 4 * 536870912 ∧
    2 * (NDIlib_Send_Audio.NDIAudioFrame.frame 2 536870912 48000).channel_stride_in_bytes
      ≠ 4 * (536870912 * 2) ∧
    NDIlib_Send_Audio.floatIndex
      (NDIlib_Send_Audio.NDIAudioFrame.frame 2 536870912 48000).channel_stride_in_bytes 1 0
      = -536870912 ∧
    ¬ (0 ≤ NDIlib_Send_Audio.floatIndex
      (NDIlib_Send_Audio.NDIAudioFrame.frame 2 536870912 48000).channel_stride_in_bytes 1 0) :=
  ⟨by decide, by decide, by decide, by decide, by decide, by decide, by decide, by decide,
    by decide, by decide⟩

/-- C12, as amended: for every NDIAudioFrame constructed with no_channels >= 0 and
no_samples >= 0 whose product does not overflow `int`, and whose stride 4 * no_samples and
largest channel offset (no_channels - 1) * 4 * no_samples do not overflow `int` either, the
planar layout is consistent with the allocation: channel_stride_in_bytes = 4 * no_samples,
the buffer has no_samples * no_channels floats, and no_channels * channel_stride_in_bytes is
its size in bytes; the store of the fill loop for (ch, sample_no) addresses float
ch * no_samples + sample_no, which is at least 0 and below no_samples * no_channels; every
float of the buffer is addressed by exactly one (ch, sample_no); and the stores of one pass
of the fill loop, in order, are those to the floats 0, 1, ..., no_samples * no_channels - 1,
each once. -/
theorem C12_planar_layout (no_channels no_samples sample_rate : Int)
    (hc : 0 ≤ no_channels) (hn : 0 ≤ no_samples)
    (hprod : no_samples * no_channels ≤ INT_MAX)
    (hstride : 4 * no_samples ≤ INT_MAX)
    (hoff : (no_channels - 1) * (4 * no_samples) ≤ INT_MAX) :
    (NDIlib_Send_Audio.NDIAudioFrame.frame no_channels no_samples
      sample_rate).channel_stride_in_bytes = 4 * no_samples ∧
    ((NDIlib_Send_Audio.NDIAudioFrame.frame no_channels no_samples
      sample_rate).p_data.length : Int) = no_samples * no_channels ∧
    no_channels * (NDIlib_Send_Audio.NDIAudioFrame.frame no_channels no_samples
      sample_rate).channel_stride_in_bytes
      = bufferBytes (NDIlib_Send_Audio.NDIAudioFrame.frame no_channels no_samples
          sample_rate) ∧
    (∀ ch sample_no : Nat, (ch : Int) < no_channels → (sample_no : Int) < no_samples →
      NDIlib_Send_Audio.floatIndex (NDIlib_Send_Audio.NDIAudioFrame.frame no_channels
          no_samples sample_rate).channel_stride_in_bytes ch sample_no
        = ch * no_samples + sample_no ∧
      0 ≤ NDIlib_Send_Audio.floatIndex (NDIlib_Send_Audio.NDIAudioFrame.frame no_channels
          no_samples sample_rate).channel_stride_in_bytes ch sample_no ∧
      NDIlib_Send_Audio.floatIndex (NDIlib_Send_Audio.NDIAudioFrame.frame no_channels
          no_samples sample_rate).channel_stride_in_bytes ch sample_no
        < no_samples * no_channels) ∧
    (∀ i : Nat, (i : Int) < no_samples * no_channels →
      ∃! p : Nat × Nat, (p.1 : Int) < no_channels ∧ (p.2 : Int) < no_samples ∧
        NDIlib_Send_Audio.floatIndex (NDIlib_Send_Audio.NDIAudioFrame.frame no_channels
          no_samples sample_rate).channel_stride_in_bytes p.1 p.2 = i) ∧
    fillIndices (NDIlib_Send_Audio.NDIAudioFrame.frame no_channels no_samples sample_rate)
      = (List.range (NDIlib_Send_Audio.NDIAudioFrame.frame no_channels no_samples
          sample_rate).p_data.length).map Int.ofNat ∧
    (NDIlib_Send_Audio.fillSilence (NDIlib_Send_Audio.NDIAudioFrame.frame no_channels
        no_samples sample_rate)).p_data
      = (fillIndices (NDIlib_Send_Audio.NDIAudioFrame.frame no_channels no_samples
          sample_rate)).foldl (fun buf i => buf.set i.toNat 0)
          (NDIlib_Send_Audio.NDIAudioFrame.frame no_channels no_samples sample_rate).p_data := by
  obtain ⟨c, rfl⟩ := Int.eq_ofNat_of_zero_le hc
  obtain ⟨n, rfl⟩ := Int.eq_ofNat_of_zero_le hn
  have hmax : INT_MAX = 2147483647 := rfl
  have hs : (NDIlib_Send_Audio.NDIAudioFrame.frame c n sample_rate).channel_stride_in_bytes
      = (n : Int) * 4 :=
    toInt32_of_fits _ (by omega) (by omega)
  have hnc : (0 : Int) ≤ (n : Int) * (c : Int) :=
    Int.mul_nonneg (Int.ofNat_nonneg _) (Int.ofNat_nonneg _)
  have hl : (NDIlib_Send_Audio.NDIAudioFrame.frame c n sample_rate).p_data.length = c * n := by
    simp only [NDIlib_Send_Audio.NDIAudioFrame.frame, List.length_replicate]
    rw [toInt32_of_fits _ (by omega) hprod, ← Nat.cast_mul, Int.toNat_ofNat, Nat.mul_comm]
  have hfit : ∀ ch : Nat, ch < c → (ch : Int) * ((n : Int) * 4) ≤ INT_MAX :=
    fun ch hch => channel_offset_fits c n ch hch hoff
  have hidx : ∀ ch j : Nat, ch < c →
      NDIlib_Send_Audio.floatIndex (NDIlib_Send_Audio.NDIAudioFrame.frame c n
        sample_rate).channel_stride_in_bytes ch j = ((ch * n + j : Nat) : Int) := by
    intro ch j hch
    rw [hs]
    exact floatIndex_eq n ch j (hfit ch hch)
  refine ⟨?_, ?_, ?_, ?_, ?_, ?_, fillSilence_stores _⟩
  · rw [hs]; ring
  · rw [hl]; push_cast; ring
  · rw [hs, bufferBytes, hl]; push_cast; ring
  · intro ch j hch hj
    have hch2 : ch < c := by exact_mod_cast hch
    have hj2 : j < n := by exact_mod_cast hj
    have hlt := planar_index_lt c n ch j hch2 hj2
    rw [hidx ch j hch2]
    refine ⟨by push_cast; ring, Int.ofNat_nonneg _, ?_⟩
    exact_mod_cast hlt
  · intro i hi
    have hi2 : i < n * c := by exact_mod_cast hi
    obtain ⟨p, ⟨hp1, hp2, hp3⟩, huniq⟩ := planar_index_unique c n i hi2
    refine ⟨p, ⟨by exact_mod_cast hp1, by exact_mod_cast hp2, ?_⟩, ?_⟩
    · rw [hidx p.1 p.2 hp1, hp3]
    · rintro q ⟨hq1, hq2, hq3⟩
      have hq1n : q.1 < c := by exact_mod_cast hq1
      have hq2n : q.2 < n := by exact_mod_cast hq2
      rw [hidx q.1 q.2 hq1n] at hq3
      exact huniq q ⟨hq1n, hq2n, by exact_mod_cast hq3⟩
  · rw [hl]
    exact fillIndices_planar c n _ rfl rfl hs hfit

/-- C12, witness: the frame that `main` constructs, 4 channels of 1920 samples, meets the
conditions; its stride is 7680 bytes, its buffer has 7680 floats and the stores of one pass
of the fill loop are those to the floats 0, 1, ..., 7679 in order. -/
theorem C12_planar_layout_witness :
    (0 : Int) ≤ 4 ∧ (0 : Int) ≤ 1920 ∧ (1920 : Int) * 4 ≤ INT_MAX ∧
    4 * (1920 : Int) ≤ INT_MAX ∧ ((4 : Int) - 1) * (4 * 1920) ≤ INT_MAX ∧
    (NDIlib_Send_Audio.NDIAudioFrame.frame 4 1920 48000).channel_stride_in_bytes = 4 * 1920 ∧
    ((NDIlib_Send_Audio.NDIAudioFrame.frame 4 1920 48000).p_data.length : Int) = 1920 * 4 ∧
    fillIndices (NDIlib_Send_Audio.NDIAudioFrame.frame 4 1920 48000)
      = (List.range (NDIlib_Send_Audio.NDIAudioFrame.frame 4 1920 48000).p_data.length).map
          Int.ofNat :=
  have h := C12_planar_layout 4 1920 48000 (by decide) (by decide) (by decide) (by decide)
    (by decide)
  ⟨by decide, by decide, by decide, by decide, by decide, h.1, h.2.1, h.2.2.2.2.2.1⟩
